import Mathlib

/-!
# nats-tower-operator: credential service client, account handler, reconciliation controller

A shallow embedding of the Go sources

* `interfaces/natstower/client.go`   (credential service client),
* `application/nats_tower_operator.go`, `application/nack_account_controller.go`
  (secret upsert and the NACK account handler),
* `interfaces/k8s/controller.go`     (generic reconciliation controller).

Conventions.

* A Go `error` result is an `Option Error` (`none` is `nil`); a `(value, error)` result is an
  `Except Error value`.
* Everything the program does to the outside world is appended to a chronological `Trace`.
  The outside world answers through the oracles of `Env`; each oracle sees the trace so far,
  so answers may depend on everything that happened before (a user exists after it was created).
* `klog` output is not part of the trace.
-/

namespace NatsTower

/-! ## Go maps -/

/-- Go `map[string]V`, as an association list read through `List.lookup` (first binding wins). -/
abbrev GoMap (V : Type) := List (String × V)

/-- Go `m[k] = v`: the binding for `k` is replaced (or added), all others are kept. -/
def GoMap.set {V : Type} (m : GoMap V) (k : String) (v : V) : GoMap V :=
  (k, v) :: m.filter (fun p => p.1 != k)

/-- Go `[]byte`: `none` is the nil slice, `some s` a non-nil slice with content `s`. -/
abbrev Bytes := Option String

/-- Go `string(b)` for a byte slice. -/
def Bytes.toStr (b : Bytes) : String := b.getD ""

/-- Go `m[k]` on a possibly nil `map[string]string`: the zero value when absent. -/
def labelOf (labels : Option (GoMap String)) (k : String) : String :=
  match labels with
  | none => ""
  | some m => (m.lookup k).getD ""

/-- Go `m[k]` on a possibly nil `map[string][]byte`: the nil slice when absent. -/
def dataOf (data : Option (GoMap Bytes)) (k : String) : Bytes :=
  match data with
  | none => none
  | some m => (m.lookup k).getD none

/-! ## Errors -/

/-- Go errors of the program. The five sentinels of `client.go` are compared by identity in the
source, so each is its own constructor; `other` is any error built by `fmt.Errorf` or returned by
the HTTP transport, the JSON decoder or the URL parser; `apiStatus` is a Kubernetes API error
with its status reason. -/
inductive Error where
  | ErrOperatorNotFound
  | ErrAccountNotFound
  | ErrAccountTierNotFound
  | ErrUserNotFound
  | ErrK8sAccessNotAllowed
  | other (msg : String)
  | apiStatus (reason : String) (msg : String)
deriving DecidableEq, Repr

/-- Go `err.Error()`. -/
def Error.errorString : Error → String
  | .ErrOperatorNotFound => "operator not found"
  | .ErrAccountNotFound => "account not found"
  | .ErrAccountTierNotFound => "account tier not found"
  | .ErrUserNotFound => "user not found"
  | .ErrK8sAccessNotAllowed => "k8s access not allowed"
  | .other msg => msg
  | .apiStatus _ msg => msg

/-- The check `errors.IsNotFound` of apimachinery: the error is an API status whose reason is
`NotFound`. -/
def IsNotFound : Error → Bool
  | .apiStatus reason _ => reason == "NotFound"
  | _ => false

/-! ## Data model -/

/-- The type `ConnectionInfo` of `client.go`. -/
structure ConnectionInfo where
  Creds : String
  URLs : String
  AccountName : String
deriving DecidableEq, Repr

/-- The remote record `operator`. -/
structure operator where
  URLs : String
  ID : String
deriving DecidableEq, Repr

/-- The remote record `account`. -/
structure account where
  ID : String
  Name : String
  PublicKey : String
deriving DecidableEq, Repr

/-- The remote record `user`. -/
structure user where
  ID : String
  Creds : String
deriving DecidableEq, Repr

/-- The remote record `k8sAccess` (no fields). -/
structure k8sAccess where
deriving DecidableEq, Repr

/-- The configuration `NATSTowerClientConfig`. -/
structure NATSTowerClientConfig where
  ClusterID : String
  NATSTowerURL : String
  NATSTowerAPIKey : String
deriving DecidableEq, Repr

/-- An outgoing HTTP request: method, URL without query, query parameters in the order they were
added, headers, body. -/
structure Request where
  Method : String
  URL : String
  Query : List (String × String)
  Header : List (String × String)
  Body : String
deriving DecidableEq, Repr

/-- An HTTP response: status code and the outcome of reading the body (`io.ReadAll`). -/
structure Response where
  StatusCode : Int
  Body : Except String String

/-- The type `corev1.Secret`, restricted to the fields the program touches. -/
structure Secret where
  Name : String
  Namespace : String
  Labels : Option (GoMap String)
  Type_ : String
  Data : Option (GoMap Bytes)
deriving DecidableEq, Repr

/-- The type `nackapi.Account`, restricted to the fields the program touches. -/
structure Account where
  Name : String
  Namespace : String
  Labels : Option (GoMap String)
deriving DecidableEq, Repr

/-- An argument of an event message. -/
inductive EventArg where
  | str (s : String)
  | err (e : Error)
  | installations (m : GoMap String)
deriving DecidableEq, Repr

/-- One observable action of the program. -/
inductive Effect where
  /-- A request handed to `httpClient.Do`. -/
  | httpDo (req : Request)
  /-- Entry into `CreateOrGetUserAuth` with its arguments. -/
  | callCreateOrGetUserAuth (ns installationPublicKey accountName name description : String)
  /-- Entry into `RemoveUserAuth` with its arguments. -/
  | callRemoveUserAuth (ns installationPublicKey accountName name : String)
  /-- A call of `Secrets(namespace).Get`. -/
  | secretsGet (ns name : String)
  /-- A call of `Secrets(namespace).Create`. -/
  | secretsCreate (ns : String) (secret : Secret)
  /-- A call of `Secrets(namespace).Update`. -/
  | secretsUpdate (ns : String) (secret : Secret)
  /-- A call of `eventRecorder.Eventf` on the source object. -/
  | event (source : Account) (eventtype reason messageFmt : String) (args : List EventArg)
deriving DecidableEq, Repr

/-- The chronological record of effects. -/
abbrev Trace := List Effect

/-- The outside world. Every oracle receives the trace up to (not including) the call. -/
structure Env where
  /-- The URL check inside `http.NewRequestWithContext`: `some msg` when the URL is rejected. -/
  urlParse : String → Option String
  /-- The transport `httpClient.Do`. -/
  httpDo : Trace → Request → Except String Response
  /-- The decoder `json.Unmarshal` into `listResponse[operator]`. -/
  decodeOperators : String → Except String (List operator)
  /-- The decoder `json.Unmarshal` into `listResponse[account]`. -/
  decodeAccounts : String → Except String (List account)
  /-- The decoder `json.Unmarshal` into `listResponse[user]`. -/
  decodeUsers : String → Except String (List user)
  /-- The decoder `json.Unmarshal` into `user`. -/
  decodeUser : String → Except String user
  /-- The decoder `json.Unmarshal` into `listResponse[k8sAccess]`. -/
  decodeK8sAccess : String → Except String (List k8sAccess)
  /-- The cluster API `Secrets(namespace).Get(name)`. -/
  secretsGet : Trace → String → String → Except Error Secret
  /-- The cluster API `Secrets(namespace).Create(secret)`; only its error is used. -/
  secretsCreate : Trace → String → Secret → Option Error
  /-- The cluster API `Secrets(namespace).Update(secret)`; only its error is used. -/
  secretsUpdate : Trace → String → Secret → Option Error

/-! ## Credential service client (`interfaces/natstower/client.go`) -/

/-- The call `http.NewRequestWithContext(ctx, method, url, body)` for the methods used here. -/
def NewRequestWithContext (env : Env) (method url body : String) : Except Error Request :=
  match env.urlParse url with
  | some msg => .error (.other msg)
  | none => .ok { Method := method, URL := url, Query := [], Header := [], Body := body }

/-- Go `req.Header.Set(k, v)`. -/
def headerSet (h : List (String × String)) (k v : String) : List (String × String) :=
  (k, v) :: h.filter (fun p => p.1 != k)

/-- The method `doJSONRequest`: sets the token header, sends the request, reads the body, fails on
a status code above 299, and decodes the body when a target `v` is given. -/
def doJSONRequest {α : Type} (env : Env) (c : NATSTowerClientConfig) (tr : Trace) (req : Request)
    (v : Option (String → Except String α)) : Except Error (Option α) × Trace :=
  let req1 : Request := { req with Header := headerSet req.Header "X-Token" c.NATSTowerAPIKey }
  let tr1 := tr ++ [Effect.httpDo req1]
  match env.httpDo tr req1 with
  | .error e => (.error (.other e), tr1)
  | .ok resp =>
    match resp.Body with
    | .error e => (.error (.other e), tr1)
    | .ok b =>
      if resp.StatusCode > 299 then
        (.error (.other ("unexpected status code: " ++ toString resp.StatusCode)), tr1)
      else
        match v with
        | none => (.ok none, tr1)
        | some dec =>
          match dec b with
          | .error e => (.error (.other e), tr1)
          | .ok x => (.ok (some x), tr1)

/-- The method `getOperator`. -/
def getOperator (env : Env) (c : NATSTowerClientConfig) (tr : Trace)
    (installationPublicKey : String) : Except Error operator × Trace :=
  match NewRequestWithContext env "GET"
      (c.NATSTowerURL ++ "/api/collections/nats_auth_operators/records") "" with
  | .error e => (.error e, tr)
  | .ok req =>
    let queryFilter := "public_key = \x27" ++ installationPublicKey ++ "\x27"
    let req := { req with Query := [("filter", queryFilter), ("perPage", "1"), ("fields", "id,url")] }
    match doJSONRequest env c tr req (some env.decodeOperators) with
    | (.error e, tr1) => (.error e, tr1)
    | (.ok resp, tr1) =>
      match resp.getD [] with
      | [] => (.error .ErrOperatorNotFound, tr1)
      | x :: _ => (.ok x, tr1)

/-- The method `getAccount`. -/
def getAccount (env : Env) (c : NATSTowerClientConfig) (tr : Trace)
    (operatorID accountName : String) : Except Error account × Trace :=
  match NewRequestWithContext env "GET"
      (c.NATSTowerURL ++ "/api/collections/nats_auth_accounts/records") "" with
  | .error e => (.error e, tr)
  | .ok req =>
    let req := { req with Query :=
      [("filter", "(operator=\x27" ++ operatorID ++ "\x27 && name=\x27" ++ accountName ++ "\x27)"),
       ("perPage", "1"), ("fields", "id,name,public_key")] }
    match doJSONRequest env c tr req (some env.decodeAccounts) with
    | (.error e, tr1) => (.error e, tr1)
    | (.ok resp, tr1) =>
      match resp.getD [] with
      | [] => (.error .ErrAccountNotFound, tr1)
      | x :: _ => (.ok x, tr1)

/-- The method `getUser`. -/
def getUser (env : Env) (c : NATSTowerClientConfig) (tr : Trace)
    (accountID username : String) : Except Error user × Trace :=
  match NewRequestWithContext env "GET"
      (c.NATSTowerURL ++ "/api/collections/nats_auth_users/records") "" with
  | .error e => (.error e, tr)
  | .ok req =>
    let req := { req with Query :=
      [("filter", "(account=\x27" ++ accountID ++ "\x27 && name=\x27" ++ username ++ "\x27)"),
       ("perPage", "1"), ("fields", "creds,id")] }
    match doJSONRequest env c tr req (some env.decodeUsers) with
    | (.error e, tr1) => (.error e, tr1)
    | (.ok resp, tr1) =>
      match resp.getD [] with
      | [] => (.error .ErrUserNotFound, tr1)
      | x :: _ => (.ok x, tr1)

/-- The method `createUser`: a POST to the users collection. -/
def createUser (env : Env) (c : NATSTowerClientConfig) (tr : Trace)
    (accountID username description : String) : Except Error user × Trace :=
  match NewRequestWithContext env "POST"
      (c.NATSTowerURL ++ "/api/collections/nats_auth_users/records")
      ("\x7b\"account\":\"" ++ accountID ++ "\",\"name\":\"" ++ username
        ++ "\",\"description\":\"" ++ description ++ "\"\x7d") with
  | .error e => (.error e, tr)
  | .ok req =>
    let req := { req with Query := [("fields", "creds,id")],
                          Header := headerSet req.Header "Content-Type" "application/json" }
    match doJSONRequest env c tr req (some env.decodeUser) with
    | (.error e, tr1) => (.error e, tr1)
    | (.ok resp, tr1) => (.ok (resp.getD { ID := "", Creds := "" }), tr1)

/-- The method `accessAllowed`: whether at least one access record matches. -/
def accessAllowed (env : Env) (c : NATSTowerClientConfig) (tr : Trace)
    (clusterID ns accountID : String) : Except Error Bool × Trace :=
  match NewRequestWithContext env "GET"
      (c.NATSTowerURL ++ "/api/collections/nats_auth_k8s_access/records") "" with
  | .error e => (.error e, tr)
  | .ok req =>
    let req := { req with Query :=
      [("filter", "(cluster=\x27" ++ clusterID ++ "\x27 && namespace=\x27" ++ ns
          ++ "\x27 && account=\x27" ++ accountID ++ "\x27)"),
       ("perPage", "1")] }
    match doJSONRequest env c tr req (some env.decodeK8sAccess) with
    | (.error e, tr1) => (.error e, tr1)
    | (.ok resp, tr1) =>
      match resp.getD [] with
      | [] => (.ok false, tr1)
      | _ :: _ => (.ok true, tr1)

/-- The method `CreateOrGetUserAuth`. -/
def CreateOrGetUserAuth (env : Env) (c : NATSTowerClientConfig) (tr : Trace)
    (ns installationPublicKey accountName name description : String) :
    Except Error ConnectionInfo × Trace :=
  let tr0 := tr ++ [Effect.callCreateOrGetUserAuth ns installationPublicKey accountName name
    description]
  match getOperator env c tr0 installationPublicKey with
  | (.error e, tr1) => (.error e, tr1)
  | (.ok operator, tr1) =>
    match getAccount env c tr1 operator.ID accountName with
    | (.error e, tr2) => (.error e, tr2)
    | (.ok account, tr2) =>
      match accessAllowed env c tr2 c.ClusterID ns account.ID with
      | (.error e, tr3) => (.error e, tr3)
      | (.ok false, tr3) => (.error .ErrK8sAccessNotAllowed, tr3)
      | (.ok true, tr3) =>
        match getUser env c tr3 account.ID name with
        | (.ok user, tr4) =>
          (.ok { Creds := user.Creds, URLs := operator.URLs, AccountName := account.Name }, tr4)
        | (.error e, tr4) =>
          if e ≠ .ErrUserNotFound then (.error e, tr4)
          else
            match createUser env c tr4 account.ID name description with
            | (.error e, tr5) => (.error e, tr5)
            | (.ok user, tr5) =>
              (.ok { Creds := user.Creds, URLs := operator.URLs, AccountName := account.Name },
                tr5)

/-- The method `RemoveUserAuth`. -/
def RemoveUserAuth (env : Env) (c : NATSTowerClientConfig) (tr : Trace)
    (ns installationPublicKey accountName name : String) : Option Error × Trace :=
  let tr0 := tr ++ [Effect.callRemoveUserAuth ns installationPublicKey accountName name]
  match getOperator env c tr0 installationPublicKey with
  | (.error e, tr1) => if e = .ErrOperatorNotFound then (none, tr1) else (some e, tr1)
  | (.ok operator, tr1) =>
    match getAccount env c tr1 operator.ID accountName with
    | (.error e, tr2) => if e = .ErrAccountNotFound then (none, tr2) else (some e, tr2)
    | (.ok account, tr2) =>
      match accessAllowed env c tr2 c.ClusterID ns account.ID with
      | (.error e, tr3) => (some e, tr3)
      | (.ok false, tr3) => (some .ErrK8sAccessNotAllowed, tr3)
      | (.ok true, tr3) =>
        match getUser env c tr3 account.ID name with
        | (.error e, tr4) => if e = .ErrUserNotFound then (none, tr4) else (some e, tr4)
        | (.ok user, tr4) =>
          match NewRequestWithContext env "DELETE"
              (c.NATSTowerURL ++ "/api/collections/nats_auth_users/records/" ++ user.ID) "" with
          | .error e => (some e, tr4)
          | .ok req =>
            let req := { req with Header := headerSet req.Header "X-Token" c.NATSTowerAPIKey }
            let tr5 := tr4 ++ [Effect.httpDo req]
            match env.httpDo tr4 req with
            | .error e => (some (.other e), tr5)
            | .ok resp =>
              if resp.StatusCode ≠ 204 ∧ resp.StatusCode ≠ 404 then
                (some (.other ("unexpected status code: " ++ toString resp.StatusCode)), tr5)
              else (none, tr5)

/-! ## Operator (`application/nats_tower_operator.go`, `config/config.go`) -/

/-- The type `config.Selector`. -/
structure Selector where
  Query : String
deriving DecidableEq, Repr

/-- The type `config.Resource`. -/
structure Resource where
  Kind : String
  Selector : Selector
deriving DecidableEq, Repr

/-- The type `config.Config`. The values of `ValidInstallations` (Go `any`) are kept in printed
form; the program only tests keys for membership. -/
structure Config where
  ClusterID : String
  ResyncInterval : Nat
  PodConfig : Resource
  SecretConfig : Resource
  NACKAccountConfig : Resource
  DefaultInstallation : String
  ValidInstallations : GoMap String
  TowerURL : String
  TowerAPIToken : String
deriving DecidableEq, Repr

/-- The fields of `NATSTowerOperator` the handlers read: the configuration and the credential
service client (given by its configuration). -/
structure NATSTowerOperator where
  towerOperatorConfig : Config
  natsTowerClient : NATSTowerClientConfig
deriving DecidableEq, Repr

/-- The label naming the secret to manage; on a secret, the managed-secret mark. -/
def natsTowerSecretLabelKey : String := "nats-tower.com/nats-tower-secret"
/-- The label naming the installation. -/
def natsTowerInstallationLabelKey : String := "nats-tower.com/nats-tower-installation"
/-- The label naming the account. -/
def natsTowerAccountLabelKey : String := "nats-tower.com/nats-tower-account"
/-- The label naming the account tier. -/
def natsTowerAccountTierLabelKey : String := "nats-tower.com/nats-tower-account-tier"
/-- The label naming the credential type. -/
def natsTowerCredentialTypeLabelKey : String := "nats-tower.com/nats-tower-credential-type"
/-- The data key of a secret that holds the credentials. -/
def secretCredentialsKey : String := "nats.creds"

/-- The constant `corev1.EventTypeWarning`. -/
def EventTypeWarning : String := "Warning"
/-- The constant `corev1.EventTypeNormal`. -/
def EventTypeNormal : String := "Normal"
/-- The constant `corev1.SecretTypeOpaque`. -/
def SecretTypeOpaque : String := "Opaque"

/-- The function `getNACKAccountUserDescription`. -/
def getNACKAccountUserDescription (clusterID : String) (acc : Option Account) : String :=
  match acc with
  | none => "nil"
  | some acc =>
    "Generated User for NACK account in namespace \x27" ++ acc.Namespace
      ++ "\x27 on cluster \x27" ++ clusterID ++ "\x27"

/-- Lines 181-192 of `UpsertSecret`: the last revision after the writes in place. Its data and
label maps are allocated when nil, then three data keys and two labels are written. -/
def upsertRevision (lastRevision : Secret) (credType : String) (creds : ConnectionInfo) :
    Secret :=
  let data0 : GoMap Bytes := match lastRevision.Data with
    | none => []
    | some d => d
  let labels0 : GoMap String := match lastRevision.Labels with
    | none => []
    | some l => l
  let data := ((data0.set secretCredentialsKey (some creds.Creds)).set "URLS"
    (some creds.URLs)).set "ACCOUNT_NAME" (some creds.AccountName)
  let labels := (labels0.set natsTowerSecretLabelKey "true").set
    natsTowerCredentialTypeLabelKey credType
  { lastRevision with Data := some data, Labels := some labels }

/-- Lines 212-227 of `UpsertSecret`: the secret literal sent to `Create`. -/
def upsertNew (ns name credType : String) (creds : ConnectionInfo) : Secret :=
  { Name := name
    Namespace := ns
    Labels := some [(natsTowerSecretLabelKey, "true"),
                    (natsTowerCredentialTypeLabelKey, credType)]
    Type_ := SecretTypeOpaque
    Data := some [(secretCredentialsKey, some creds.Creds),
                  ("URLS", some creds.URLs),
                  ("ACCOUNT_NAME", some creds.AccountName)] }

/-- The method `UpsertSecret`. With a last revision the secret is updated in place and sent to
`Update`; without one a fresh secret is sent to `Create`. Either way a notification follows,
normal on success and warning on failure. The bundle `creds` is dereferenced unconditionally
in the source, so it is taken by value. -/
def UpsertSecret (env : Env) (tr : Trace) (source : Account)
    (ns name credType : String) (creds : ConnectionInfo) (lastRevision : Option Secret) :
    Option Error × Trace :=
  match lastRevision with
  | some last =>
    let updated := upsertRevision last credType creds
    let tr1 := tr ++ [Effect.secretsUpdate ns updated]
    match env.secretsUpdate tr ns updated with
    | some err =>
      (some err, tr1 ++ [Effect.event source EventTypeWarning "ErrorUpsertingSecret"
        "Could not update secret %s/%s: %v" [.str ns, .str name, .err err]])
    | none =>
      (none, tr1 ++ [Effect.event source EventTypeNormal "Updated"
        "Updated secret %s/%s" [.str ns, .str name]])
  | none =>
    let created := upsertNew ns name credType creds
    let tr1 := tr ++ [Effect.secretsCreate ns created]
    match env.secretsCreate tr ns created with
    | some err =>
      (some err, tr1 ++ [Effect.event source EventTypeWarning "ErrorUpsertingSecret"
        "Could not create secret %s/%s: %v" [.str ns, .str name, .err err]])
    | none =>
      (none, tr1 ++ [Effect.event source EventTypeNormal "Created"
        "Created secret %s/%s" [.str ns, .str name]])

/-! ## Reconciliation controller, data (`interfaces/k8s/controller.go`) -/

/-- The type `EventActionType` (a Go string type). -/
abbrev EventActionType := String

/-- The constant `CreateAction`. -/
def CreateAction : EventActionType := "create"
/-- The constant `UpdateAction`. -/
def UpdateAction : EventActionType := "update"
/-- The constant `DeleteAction`. -/
def DeleteAction : EventActionType := "delete"
/-- The constant `MaxNumRequeues`, the retry ceiling. -/
def MaxNumRequeues : Nat := 4

/-- The type `EventItem`. -/
structure EventItem where
  Key : String
  ActionType : EventActionType
deriving DecidableEq, Repr

/-! ## Account handler (`application/nack_account_controller.go`) -/

/-- The credential type chosen in lines 69-79 of `getNACKAccountHandler`: the label value when
present, then the `switch` that maps every value other than "user" to "user". -/
def accountCredentialType (obj : Account) : String :=
  let credentialType :=
    if labelOf obj.Labels natsTowerCredentialTypeLabelKey ≠ "" then
      labelOf obj.Labels natsTowerCredentialTypeLabelKey
    else "user"
  if credentialType = "user" then credentialType else "user"

/-- Lines 64-183 of `getNACKAccountHandler`, entered once the installation is resolved: the
delete check, the credential type, the secret lookup and the three cases of step 4. -/
def accountHandlerReconcile (env : Env) (natsTowerOperator : NATSTowerOperator)
    (ev : EventItem) (obj : Account) (installationPublicKey : String) (tr : Trace) :
    Option Error × Trace :=
  if ev.ActionType = DeleteAction then (none, tr)
  else
    let credentialType := accountCredentialType obj
    let secretName := labelOf obj.Labels natsTowerSecretLabelKey
    let trGet := tr ++ [Effect.secretsGet obj.Namespace secretName]
    match env.secretsGet tr obj.Namespace secretName with
    | .error err =>
      if IsNotFound err then
        if credentialType = "user" then
          match CreateOrGetUserAuth env natsTowerOperator.natsTowerClient trGet obj.Namespace
              installationPublicKey obj.Name secretName
              (getNACKAccountUserDescription natsTowerOperator.towerOperatorConfig.ClusterID
                (some obj)) with
          | (.error err, tr1) =>
            if err = .ErrK8sAccessNotAllowed then
              (some err, tr1 ++ [Effect.event obj EventTypeWarning "ErrorK8sAccessNotAllowed"
                ("Please add the namespace \x27%s\x27 & cluster \x27%s\x27 for account \x27%s\x27"
                  ++ " to the k8s access list on NATS Tower")
                [.str obj.Namespace, .str natsTowerOperator.towerOperatorConfig.ClusterID,
                 .str obj.Name]])
            else
              (some err, tr1 ++ [Effect.event obj EventTypeWarning "ErrorCreatingUserAuth"
                "Could not CreateOrGetUserAuth to create new secret:%v" [.err err]])
          | (.ok creds, tr1) =>
            UpsertSecret env tr1 obj obj.Namespace secretName credentialType creds none
        else
          (some (.other ("invalid credential type: " ++ credentialType
            ++ " - must be \x27user\x27")), trGet)
      else (some err, trGet)
    | .ok secret =>
      if credentialType = "user" then
        if dataOf secret.Data secretCredentialsKey ≠ none
            ∧ (dataOf secret.Data secretCredentialsKey).toStr ≠ "" then
          (none, trGet)
        else
          match CreateOrGetUserAuth env natsTowerOperator.natsTowerClient trGet obj.Namespace
              installationPublicKey obj.Name secretName
              (getNACKAccountUserDescription natsTowerOperator.towerOperatorConfig.ClusterID
                (some obj)) with
          | (.error err, tr1) =>
            if err = .ErrK8sAccessNotAllowed then
              (some err, tr1 ++ [Effect.event obj EventTypeWarning "ErrorK8sAccessNotAllowed"
                ("Please add the namespace \x27%s\x27 & cluster \x27%s\x27 for account \x27%s\x27"
                  ++ " to the k8s access list on NATS Tower")
                [.str obj.Namespace, .str natsTowerOperator.towerOperatorConfig.ClusterID,
                 .str obj.Name]])
            else
              (some err, tr1 ++ [Effect.event obj EventTypeWarning "ErrorCreatingUserAuth"
                "Could not CreateOrGetUserAuth to update secret:%v" [.err err]])
          | (.ok creds, tr1) =>
            UpsertSecret env tr1 obj obj.Namespace secretName credentialType creds (some secret)
      else
        (some (.other ("invalid credential type: " ++ credentialType
          ++ " - must be \x27user\x27")), trGet)

/-- Lines 31-62 of `getNACKAccountHandler`, the resolution of the installation. The result is
`.error tr1` when the handler stops here (it returns nil) with trace `tr1`, and
`.ok (installationPublicKey, tr1)` when it goes on with that installation. -/
def accountInstallation (natsTowerOperator : NATSTowerOperator) (obj : Account) (tr : Trace) :
    Except Trace (String × Trace) :=
  let installationPublicKey := labelOf obj.Labels natsTowerInstallationLabelKey
  if installationPublicKey = ""
      ∧ natsTowerOperator.towerOperatorConfig.DefaultInstallation = "" then
    .error (tr ++ [Effect.event obj EventTypeWarning "MissingInstallationLabel"
      "Require label %s to generate secret" [.str natsTowerInstallationLabelKey]])
  else if installationPublicKey = "" then
    .ok (natsTowerOperator.towerOperatorConfig.DefaultInstallation,
      tr ++ [Effect.event obj EventTypeNormal "DefaultInstallation"
        "Will use default installation %s to generate secret"
        [.str natsTowerOperator.towerOperatorConfig.DefaultInstallation]])
  else
    match natsTowerOperator.towerOperatorConfig.ValidInstallations.lookup
        installationPublicKey with
    | none =>
      .error (tr ++ [Effect.event obj EventTypeWarning "InvalidInstallationLabel"
        "Require label %s to be one of %+v to generate secret"
        [.str natsTowerInstallationLabelKey,
         .installations natsTowerOperator.towerOperatorConfig.ValidInstallations]])
    | some _ => .ok (installationPublicKey, tr)

/-- The handler returned by `getNACKAccountHandler`: the label checks (lines 24-29), the
resolution of the installation (`accountInstallation`), then `accountHandlerReconcile`. -/
def getNACKAccountHandler (env : Env) (natsTowerOperator : NATSTowerOperator)
    (ev : EventItem) (obj : Account) (tr : Trace) : Option Error × Trace :=
  if obj.Labels = none then (none, tr)
  else if labelOf obj.Labels natsTowerSecretLabelKey = "" then (none, tr)
  else
    match accountInstallation natsTowerOperator obj tr with
    | .error tr1 => (none, tr1)
    | .ok (installationPublicKey, tr1) =>
      accountHandlerReconcile env natsTowerOperator ev obj installationPublicKey tr1

/-! ## Reconciliation controller (`interfaces/k8s/controller.go`)

The rate limited work queue is the one of client-go. Its set semantics are kept (`dirty`,
`processing`); the delay of `AddRateLimited` is not modelled, the item is added at once. The queue
holds `EventItem`s only, as every `Add` of the source passes one. -/

/-- The rate limited work queue: waiting items in order, the set of items that need processing,
the set of items being processed, the per item failure counts of the rate limiter, and the
shutdown flag. -/
structure WorkQueue where
  queue : List EventItem
  dirty : List EventItem
  processing : List EventItem
  failures : List (EventItem × Nat)
  shuttingDown : Bool
deriving DecidableEq, Repr

/-- The call `workqueue.Add`. -/
def WorkQueue.Add (q : WorkQueue) (item : EventItem) : WorkQueue :=
  if q.shuttingDown then q
  else if item ∈ q.dirty then q
  else if item ∈ q.processing then { q with dirty := q.dirty ++ [item] }
  else { q with dirty := q.dirty ++ [item], queue := q.queue ++ [item] }

/-- The call `workqueue.Get`: `none` when the caller blocks (nothing queued, not shut down),
otherwise the item, or `none` for the shutdown signal, with the queue after the call. -/
def WorkQueue.Get (q : WorkQueue) : Option (Option EventItem × WorkQueue) :=
  match q.queue with
  | [] => if q.shuttingDown then some (none, q) else none
  | item :: rest =>
    some (some item, { q with queue := rest
                              processing := q.processing ++ [item]
                              dirty := q.dirty.filter (fun x => x ≠ item) })

/-- The call `workqueue.Done`. -/
def WorkQueue.Done (q : WorkQueue) (item : EventItem) : WorkQueue :=
  let q1 := { q with processing := q.processing.filter (fun x => x ≠ item) }
  if item ∈ q1.dirty then { q1 with queue := q1.queue ++ [item] } else q1

/-- The call `workqueue.NumRequeues`: the failure count of the item. -/
def WorkQueue.NumRequeues (q : WorkQueue) (item : EventItem) : Nat :=
  (q.failures.lookup item).getD 0

/-- The call `workqueue.Forget`: the failure count of the item is cleared. -/
def WorkQueue.Forget (q : WorkQueue) (item : EventItem) : WorkQueue :=
  { q with failures := q.failures.filter (fun p => p.1 ≠ item) }

/-- The call `workqueue.AddRateLimited`: the failure count of the item goes up by one and the
item is added. -/
def WorkQueue.AddRateLimited (q : WorkQueue) (item : EventItem) : WorkQueue :=
  let n := q.NumRequeues item
  WorkQueue.Add { q with failures := (item, n + 1) :: q.failures.filter (fun p => p.1 ≠ item) }
    item

/-- An entry of the informer cache, a Go `interface` value: an unstructured object or anything
else. -/
inductive CacheObj (U : Type) where
  | unstructured (o : U)
  | other

/-- The type `Controller[T]`. `U` is the unstructured representation, `T` the typed object,
`σ` the state of the world the callback acts on.
* `getByKey` is `informer.GetIndexer().GetByKey`,
* `fromUnstructured` is `runtime.DefaultUnstructuredConverter.FromUnstructured`,
* `parseBool` is `jq.ParseBool`,
* `cb` is the callback. -/
structure Controller (U T σ : Type) where
  resource : Resource
  getByKey : σ → String → Except String (Option (CacheObj U))
  fromUnstructured : U → Except String T
  parseBool : String → U → Except String Bool
  cb : EventItem → T → σ → Option Error × σ

/-- The state a controller runs in: its work queue, the world, the items the callback was invoked
with so far (in order), and the messages given to `utilruntime.HandleError`. -/
structure ControllerState (σ : Type) where
  workqueue : WorkQueue
  world : σ
  invoked : List EventItem
  handled : List String

/-- The method `objectHandler`. -/
def objectHandler {U T σ : Type} (c : Controller U T σ) (obj : CacheObj U) (item : EventItem)
    (st : ControllerState σ) : Option Error × ControllerState σ :=
  match obj with
  | .other => (some (.other "error casting to unstructured"), st)
  | .unstructured unstructuredObj =>
    match c.fromUnstructured unstructuredObj with
    | .error e => (some (.other ("error converting from unstructured: " ++ e)), st)
    | .ok structuredObj =>
      let selector : Except String Bool :=
        if c.resource.Selector.Query ≠ "" then
          c.parseBool c.resource.Selector.Query unstructuredObj
        else .ok true
      match selector with
      | .error e =>
        (some (.other ("invalid selector query \x27" ++ c.resource.Selector.Query ++ "\x27: "
          ++ e)), st)
      | .ok false => (none, st)
      | .ok true =>
        match c.cb item structuredObj st.world with
        | (some err, w) =>
          (some (.other ("error handling object with key \x27" ++ item.Key ++ "\x27: "
            ++ err.errorString)),
           { st with world := w, invoked := st.invoked ++ [item] })
        | (none, w) => (none, { st with world := w, invoked := st.invoked ++ [item] })

/-- The method `syncHandler`. -/
def syncHandler {U T σ : Type} (c : Controller U T σ) (item : EventItem)
    (st : ControllerState σ) : Option Error × ControllerState σ :=
  match c.getByKey st.world item.Key with
  | .error e =>
    (some (.other ("error fetching object with key \x27" ++ item.Key
      ++ "\x27 from informer cache: " ++ e)), st)
  | .ok none =>
    (none, { st with handled := st.handled ++
      ["\x27" ++ item.Key ++ "\x27 in work queue no longer exists"] })
  | .ok (some obj) =>
    match objectHandler c obj item st with
    | (some err, st1) =>
      (some (.other ("error handling object with key \x27" ++ item.Key ++ "\x27: "
        ++ err.errorString)), st1)
    | (none, st1) => (none, st1)

/-- The method `processNextWorkItem`: `none` when `Get` blocks, otherwise the returned boolean
and the state after the call. `Done` runs last (it is deferred in the source). -/
def processNextWorkItem {U T σ : Type} (c : Controller U T σ) (st : ControllerState σ) :
    Option (Bool × ControllerState σ) :=
  match st.workqueue.Get with
  | none => none
  | some (none, _) => some (false, st)
  | some (some obj, wq) =>
    match syncHandler c obj { st with workqueue := wq } with
    | (some err, st1) =>
      if st1.workqueue.NumRequeues obj ≥ MaxNumRequeues then
        some (true, { st1 with
          handled := st1.handled ++ ["error syncing \x27" ++ obj.Key ++ "\x27 of resource \x27"
            ++ c.resource.Kind ++ "\x27: " ++ err.errorString ++ ", give up after "
            ++ toString MaxNumRequeues ++ " requeues"]
          workqueue := st1.workqueue.Done obj })
      else
        some (true, { st1 with
          handled := st1.handled ++ ["error syncing \x27" ++ obj.Key ++ "\x27 of resource \x27"
            ++ c.resource.Kind ++ "\x27: " ++ err.errorString ++ ", requeuing"]
          workqueue := (st1.workqueue.AddRateLimited obj).Done obj })
    | (none, st1) =>
      some (true, { st1 with workqueue := (st1.workqueue.Forget obj).Done obj })

/-- The method `runWorker`, `for c.processNextWorkItem() {}`, for at most `fuel` items: it stops
when the queue reports shutdown, and rests when `Get` blocks. -/
def runWorker {U T σ : Type} (c : Controller U T σ) : Nat → ControllerState σ → ControllerState σ
  | 0, st => st
  | fuel + 1, st =>
    match processNextWorkItem c st with
    | none => st
    | some (false, st1) => st1
    | some (true, st1) => runWorker c fuel st1

/-- The account controller of `CreateNATSTowerOperator`: the generic controller with the account
handler as callback, the world being the trace. -/
def nackAccountController {U : Type} (env : Env) (natsTowerOperator : NATSTowerOperator)
    (getByKey : Trace → String → Except String (Option (CacheObj U)))
    (fromUnstructured : U → Except String Account)
    (parseBool : String → U → Except String Bool) : Controller U Account Trace :=
  { resource := { natsTowerOperator.towerOperatorConfig.NACKAccountConfig with
                  Kind := "jetstream.nats.io/v1beta2/accounts" }
    getByKey := getByKey
    fromUnstructured := fromUnstructured
    parseBool := parseBool
    cb := getNACKAccountHandler env natsTowerOperator }


/-! ## A concrete remote service and cluster, for evaluating the definitions -/

/-- What a test double of the outside world holds: which remote records exist, the credentials
of the user, and the answer of the cluster to the secret lookup. -/
structure Scenario where
  operatorExists : Bool
  accountExists : Bool
  accessGranted : Bool
  userExists : Bool
  userCreds : String
  secret : Except Error Secret

/-- A test double of the outside world. The service accepts every URL and answers every request
with an empty body, status 204 for a DELETE and 200 otherwise; the decoders return the records
the scenario holds; secret writes succeed. -/
def scenarioEnv (sc : Scenario) : Env where
  urlParse := fun _ => none
  httpDo := fun _ req =>
    .ok { StatusCode := if req.Method = "DELETE" then 204 else 200, Body := .ok "" }
  decodeOperators := fun _ =>
    .ok (if sc.operatorExists then [{ URLs := "nats://demo:4222", ID := "op1" }] else [])
  decodeAccounts := fun _ =>
    .ok (if sc.accountExists then [{ ID := "acc1", Name := "team-a", PublicKey := "APK" }]
      else [])
  decodeUsers := fun _ =>
    .ok (if sc.userExists then [{ ID := "usr1", Creds := sc.userCreds }] else [])
  decodeUser := fun _ => .ok { ID := "usr1", Creds := sc.userCreds }
  decodeK8sAccess := fun _ => .ok (if sc.accessGranted then [{}] else [])
  secretsGet := fun _ _ _ => sc.secret
  secretsCreate := fun _ _ _ => none
  secretsUpdate := fun _ _ _ => none

/-- The client configuration of the test double. -/
def demoClient : NATSTowerClientConfig :=
  { ClusterID := "cluster-1", NATSTowerURL := "http://tower", NATSTowerAPIKey := "token" }

/-- The answer of the cluster when a secret does not exist. -/
def secretNotFound : Except Error Secret := .error (.apiStatus "NotFound" "secrets not found")

/-- The service knows operator and account but holds no access record. -/
def scenarioAccessDenied : Scenario :=
  { operatorExists := true, accountExists := true, accessGranted := false,
    userExists := false, userCreds := "CREDS", secret := secretNotFound }

/-- The service knows operator and account and grants access, the user does not exist, and
the cluster holds no secret. -/
def scenarioFresh : Scenario :=
  { operatorExists := true, accountExists := true, accessGranted := true,
    userExists := false, userCreds := "CREDS", secret := secretNotFound }

/-- The service knows operator, account and user and grants access, but the user record
carries no credentials; the cluster holds no secret. -/
def scenarioEmptyCreds : Scenario :=
  { operatorExists := true, accountExists := true, accessGranted := true,
    userExists := true, userCreds := "", secret := secretNotFound }

/-- A secret that already holds credentials. -/
def populatedSecret : Secret :=
  { Name := "creds1", Namespace := "app-ns", Labels := none, Type_ := "Opaque",
    Data := some [("nats.creds", some "OLD-CREDS")] }

/-- A secret without credentials, with a label and a data entry of its own. -/
def unpopulatedSecret : Secret :=
  { Name := "creds1", Namespace := "app-ns", Labels := some [("team", "a")], Type_ := "Opaque",
    Data := some [("other", some "keep")] }

/-- Everything exists remotely and the cluster holds a populated secret. -/
def scenarioPopulated : Scenario :=
  { operatorExists := true, accountExists := true, accessGranted := true,
    userExists := true, userCreds := "CREDS", secret := .ok populatedSecret }

/-- Everything exists remotely and the cluster holds a secret without credentials. -/
def scenarioUnpopulated : Scenario :=
  { operatorExists := true, accountExists := true, accessGranted := true,
    userExists := true, userCreds := "CREDS", secret := .ok unpopulatedSecret }

/-- An operator configuration with one valid installation and no default. -/
def demoConfig : Config :=
  { ClusterID := "cluster-1", ResyncInterval := 0,
    PodConfig := { Kind := "", Selector := { Query := "" } },
    SecretConfig := { Kind := "", Selector := { Query := "" } },
    NACKAccountConfig := { Kind := "", Selector := { Query := "" } },
    DefaultInstallation := "", ValidInstallations := [("inst-A", "")],
    TowerURL := "http://tower", TowerAPIToken := "token" }

/-- The operator of the test double. -/
def demoOperator : NATSTowerOperator :=
  { towerOperatorConfig := demoConfig, natsTowerClient := demoClient }

/-- An account with a secret-name label and a valid installation label. -/
def demoAccount : Account :=
  { Name := "team-a", Namespace := "app-ns",
    Labels := some [(natsTowerSecretLabelKey, "creds1"),
                    (natsTowerInstallationLabelKey, "inst-A")] }

/-- An account with only a secret-name label. -/
def accountNoInstallation : Account :=
  { Name := "team-a", Namespace := "app-ns",
    Labels := some [(natsTowerSecretLabelKey, "creds1")] }

/-- An account whose installation label is not in the allow-list. -/
def accountBadInstallation : Account :=
  { Name := "team-a", Namespace := "app-ns",
    Labels := some [(natsTowerSecretLabelKey, "creds1"),
                    (natsTowerInstallationLabelKey, "inst-B")] }

/-- The secrets sent to `Create` in a trace, in order. -/
def createdSecrets (tr : Trace) : List Secret :=
  tr.filterMap (fun e => match e with
    | .secretsCreate _ s => some s
    | _ => none)

/-- A controller over toy objects: an object is its name, the world is the list of names the
callback has seen. The selector evaluator knows the queries `true` and `false`; the cache holds
the object `app1` under the key `app-ns/app1`. The callback fails when `failing` is set. -/
def demoController (query : String) (failing : Bool) : Controller String String (List String)
    where
  resource := { Kind := "v1/pods", Selector := { Query := query } }
  getByKey := fun _ key =>
    .ok (if key = "app-ns/app1" then some (.unstructured "app1") else none)
  fromUnstructured := fun u => .ok u
  parseBool := fun q _ =>
    if q = "true" then .ok true else if q = "false" then .ok false else .error "bad query"
  cb := fun _ obj w => (if failing then some (.other "boom") else none, w ++ [obj])

/-- The Create item of the toy object. -/
def demoItem : EventItem := { Key := "app-ns/app1", ActionType := CreateAction }

/-- A controller state with the given queue, no failure counts, and nothing invoked so far. -/
def demoState (queue : List EventItem) : ControllerState (List String) :=
  { workqueue := { queue := queue, dirty := queue, processing := [], failures := [],
                   shuttingDown := false }
    world := [], invoked := [], handled := [] }

/-! ## Event callbacks of `NewController` (`interfaces/k8s/controller.go`, lines 60-91) -/

/-- The `AddFunc` callback: the key of the object is computed with `keyFunc`
(`cache.MetaNamespaceKeyFunc`) and, when that succeeds, the Create item is added to the work
queue. -/
def NewController.AddFunc {U σ : Type} (keyFunc : CacheObj U → Except String String)
    (obj : CacheObj U) (st : ControllerState σ) : ControllerState σ :=
  match keyFunc obj with
  | .ok key => { st with workqueue := st.workqueue.Add { Key := key, ActionType := CreateAction } }
  | .error _ => st

/-- The `UpdateFunc` callback: the key of the new object is computed with `keyFunc` and, when
that succeeds, the Update item is added to the work queue. The old object is not used. -/
def NewController.UpdateFunc {U σ : Type} (keyFunc : CacheObj U → Except String String)
    (_old new : CacheObj U) (st : ControllerState σ) : ControllerState σ :=
  match keyFunc new with
  | .ok key => { st with workqueue := st.workqueue.Add { Key := key, ActionType := UpdateAction } }
  | .error _ => st

/-- The `DeleteFunc` callback: the key is computed with `deletionKeyFunc`
(`cache.DeletionHandlingMetaNamespaceKeyFunc`) and, when that succeeds, `objectHandler` runs at
once with the Delete item; its error is written to the log and otherwise dropped. -/
def NewController.DeleteFunc {U T σ : Type} (deletionKeyFunc : CacheObj U → Except String String)
    (c : Controller U T σ) (obj : CacheObj U) (st : ControllerState σ) : ControllerState σ :=
  match deletionKeyFunc obj with
  | .ok key => (objectHandler c obj { Key := key, ActionType := DeleteAction } st).2
  | .error _ => st

/-! ## Lifecycle (`application/nats_tower_operator.go`, `main.go`) -/

/-- The resource name of pods. -/
def groupVersionResourcePod : String := "v1/pods"
/-- The resource name of secrets. -/
def groupVersionResourceSecrets : String := "v1/secrets"
/-- The resource name of NACK accounts. -/
def groupVersionResourceNackAccount : String := "jetstream.nats.io/v1beta2/accounts"

/-- One step of `Handle`, in program order. -/
inductive HandleStep where
  /-- The call `informersFactory.Start`. -/
  | startInformers
  /-- A call of `WaitForCacheSync` on the controller of a kind, with its outcome. -/
  | waitForCacheSync (kind : String) (synced : Bool)
  /-- The call `klog.Fatalf`, which ends the process. -/
  | fatal
  /-- A call of `Run` on the controller of a kind: its workers start. -/
  | run (kind : String) (workers : Nat)
  /-- The wait on the stop channel. -/
  | awaitStop
  /-- A call of `Shutdown` on the controller of a kind. -/
  | shutdown (kind : String)
deriving DecidableEq, Repr

/-- The method `WaitForCacheSync` of a controller: `synced` is the answer of
`cache.WaitForCacheSync` (false when the stop channel closes before the cache is synced). -/
def WaitForCacheSync (synced : Bool) : Option Error :=
  if ¬ synced then some (.other "failed to wait for caches to sync") else none

/-- The method `Handle`, as the sequence of steps it takes. `synced kind` is the answer of
`cache.WaitForCacheSync` for the controller of that kind. A failed wait ends the process
through `klog.Fatalf`. -/
def Handle (synced : String → Bool) : List HandleStep :=
  let s1 := [HandleStep.startInformers,
    .waitForCacheSync groupVersionResourcePod (synced groupVersionResourcePod)]
  match WaitForCacheSync (synced groupVersionResourcePod) with
  | some _ => s1 ++ [.fatal]
  | none =>
    let s2 := s1 ++ [.waitForCacheSync groupVersionResourceSecrets
      (synced groupVersionResourceSecrets)]
    match WaitForCacheSync (synced groupVersionResourceSecrets) with
    | some _ => s2 ++ [.fatal]
    | none =>
      let s3 := s2 ++ [.waitForCacheSync groupVersionResourceNackAccount
        (synced groupVersionResourceNackAccount)]
      match WaitForCacheSync (synced groupVersionResourceNackAccount) with
      | some _ => s3 ++ [.fatal]
      | none =>
        s3 ++ [.run groupVersionResourcePod 1, .run groupVersionResourceSecrets 1,
               .run groupVersionResourceNackAccount 1, .awaitStop,
               .shutdown groupVersionResourcePod, .shutdown groupVersionResourceSecrets,
               .shutdown groupVersionResourceNackAccount]

/-- The function `CreateNATSTowerClient`: the client holds the configuration it is given. -/
def CreateNATSTowerClient (cfg : NATSTowerClientConfig) : Except Error NATSTowerClientConfig :=
  .ok cfg

/-- The function `CreateNATSTowerOperator`: it requires a cluster ID, resolves the three
resources with `getGVR` (`k8s.GetGVRFromResource`, `some err` on failure), writes their kinds
into the configuration, and keeps the configuration and the client it is given. -/
def CreateNATSTowerOperator (getGVR : String → Option Error) (towerOperatorConfig : Config)
    (natsTowerClient : NATSTowerClientConfig) : Except Error NATSTowerOperator :=
  if towerOperatorConfig.ClusterID = "" then .error (.other "clusterID is required")
  else
    match getGVR groupVersionResourcePod with
    | some err => .error err
    | none =>
      let cfg1 := { towerOperatorConfig with
        PodConfig := { towerOperatorConfig.PodConfig with Kind := groupVersionResourcePod } }
      match getGVR groupVersionResourceSecrets with
      | some err => .error err
      | none =>
        let cfg2 := { cfg1 with
          SecretConfig := { cfg1.SecretConfig with Kind := groupVersionResourceSecrets } }
        match getGVR groupVersionResourceNackAccount with
        | some err => .error err
        | none =>
          let cfg3 := { cfg2 with NACKAccountConfig :=
            { cfg2.NACKAccountConfig with Kind := groupVersionResourceNackAccount } }
          .ok { towerOperatorConfig := cfg3, natsTowerClient := natsTowerClient }

/-- Lines 43-58 of `main`, once the configuration `cfg` is loaded: the client is created from
a `NATSTowerClientConfig` literal that sets `NATSTowerURL` and `NATSTowerAPIKey` only, so its
`ClusterID` is the zero value; then the operator is created from `cfg` and that client. A
failure ends the process (`klog.Fatalf`). -/
def mainOperator (getGVR : String → Option Error) (cfg : Config) :
    Except Error NATSTowerOperator :=
  match CreateNATSTowerClient
      { ClusterID := "", NATSTowerURL := cfg.TowerURL, NATSTowerAPIKey := cfg.TowerAPIToken } with
  | .error err => .error err
  | .ok natsTowerClient => CreateNATSTowerOperator getGVR cfg natsTowerClient

/-! ## More concrete inputs -/

/-- The test double of the outside world, with a service that answers every request with the
given status code and an empty body. -/
def statusEnv (code : Int) (sc : Scenario) : Env :=
  { scenarioEnv sc with httpDo := fun _ _ => .ok { StatusCode := code, Body := .ok "" } }

/-- The body of a list answer that holds one operator record. -/
def operatorsBody : String :=
  "\x7b\"items\":[\x7b\"id\":\"op1\",\"url\":\"nats://demo:4222\"\x7d]\x7d"

/-- The body of a list answer without records. -/
def emptyItemsBody : String := "\x7b\"items\":[]\x7d"

/-- A service with JSON bodies that answers every request with the given status code: the
operators collection answers with one operator record, every other collection with an empty
list. The decoders accept these two bodies and reject everything else. -/
def jsonEnv (code : Int) : Env where
  urlParse := fun _ => none
  httpDo := fun _ req =>
    .ok { StatusCode := code,
          Body := .ok (if req.URL = "http://tower/api/collections/nats_auth_operators/records"
            then operatorsBody else emptyItemsBody) }
  decodeOperators := fun b =>
    if b = operatorsBody then .ok [{ URLs := "nats://demo:4222", ID := "op1" }]
    else if b = emptyItemsBody then .ok [] else .error "invalid JSON"
  decodeAccounts := fun b => if b = emptyItemsBody then .ok [] else .error "invalid JSON"
  decodeUsers := fun b => if b = emptyItemsBody then .ok [] else .error "invalid JSON"
  decodeUser := fun _ => .error "invalid JSON"
  decodeK8sAccess := fun b => if b = emptyItemsBody then .ok [] else .error "invalid JSON"
  secretsGet := fun _ _ _ => secretNotFound
  secretsCreate := fun _ _ _ => none
  secretsUpdate := fun _ _ _ => none

/-- An account that asks for the credential type `operator`. -/
def accountOperatorType : Account :=
  { Name := "team-a", Namespace := "app-ns",
    Labels := some [(natsTowerSecretLabelKey, "creds1"),
                    (natsTowerInstallationLabelKey, "inst-A"),
                    (natsTowerCredentialTypeLabelKey, "operator")] }

/-- The Update item of the toy object. -/
def demoUpdateItem : EventItem := { Key := "app-ns/app1", ActionType := UpdateAction }

/-- The item of an object that is not in the cache of the toy controller. -/
def goneItem : EventItem := { Key := "app-ns/gone", ActionType := UpdateAction }

/-- The key function of the toy controller: the object is its own name. -/
def demoKeyFunc : CacheObj String → Except String String
  | .unstructured name => .ok ("app-ns/" ++ name)
  | .other => .error "object has no meta"

/-- The requests sent in a trace, in order. -/
def sentRequests (tr : Trace) : List Request :=
  tr.filterMap (fun e => match e with
    | .httpDo req => some req
    | _ => none)

/-- The operator that `main` builds from `demoConfig` when the three resources resolve: the
kinds are written into the configuration and the client has no cluster ID. -/
def mainDemoOperator : NATSTowerOperator :=
  { towerOperatorConfig :=
      { demoConfig with
        PodConfig := { Kind := "v1/pods", Selector := { Query := "" } }
        SecretConfig := { Kind := "v1/secrets", Selector := { Query := "" } }
        NACKAccountConfig :=
          { Kind := "jetstream.nats.io/v1beta2/accounts", Selector := { Query := "" } } }
    natsTowerClient :=
      { ClusterID := "", NATSTowerURL := "http://tower", NATSTowerAPIKey := "token" } }

/-- An operator configuration whose default installation `inst-Z` is not a key of its
`ValidInstallations`. -/
def defaultConfig : Config :=
  { demoConfig with DefaultInstallation := "inst-Z" }

/-- The operator with the configuration `defaultConfig`. -/
def defaultOperator : NATSTowerOperator :=
  { towerOperatorConfig := defaultConfig, natsTowerClient := demoClient }

/-! ## Lemmas on the client: what each lookup adds to the trace -/

theorem doJSONRequest_trace {α : Type} (env : Env) (c : NATSTowerClientConfig) (tr : Trace)
    (req : Request) (v : Option (String → Except String α)) :
    (doJSONRequest env c tr req v).2 =
      tr ++ [Effect.httpDo
        { req with Header := headerSet req.Header "X-Token" c.NATSTowerAPIKey }] := by
  unfold doJSONRequest
  simp only []
  split
  · rfl
  · split
    · rfl
    · split
      · rfl
      · split
        · rfl
        · split <;> rfl

theorem NewRequestWithContext_ok (env : Env) (m u b : String) (req : Request)
    (h : NewRequestWithContext env m u b = .ok req) :
    req = { Method := m, URL := u, Query := [], Header := [], Body := b } := by
  unfold NewRequestWithContext at h
  split at h
  · cases h
  · cases h; rfl

theorem getOperator_trace (env : Env) (c : NATSTowerClientConfig) (tr tr1 : Trace)
    (k : String) (r : Except Error operator)
    (h : getOperator env c tr k = (r, tr1)) :
    (∃ e, r = .error e ∧ tr1 = tr) ∨ ∃ req : Request, req.Method = "GET" ∧
      req.URL = c.NATSTowerURL ++ "/api/collections/nats_auth_operators/records" ∧
      tr1 = tr ++ [Effect.httpDo req] := by
  unfold getOperator at h
  cases hn : NewRequestWithContext env "GET"
      (c.NATSTowerURL ++ "/api/collections/nats_auth_operators/records") "" with
  | error e =>
    rw [hn] at h; simp at h; left; exact ⟨_, h.1.symm, h.2.symm⟩
  | ok req =>
    rw [hn] at h
    have hr := NewRequestWithContext_ok _ _ _ _ _ hn
    subst hr
    right
    simp only [] at h
    have ht := doJSONRequest_trace env c tr
      { Method := "GET", URL := c.NATSTowerURL ++ "/api/collections/nats_auth_operators/records",
        Query := [("filter", "public_key = \x27" ++ k ++ "\x27"), ("perPage", "1"),
          ("fields", "id,url")], Header := [], Body := "" } (some env.decodeOperators)
    have htr1 : tr1 = tr ++ [Effect.httpDo
        { Method := "GET", URL := c.NATSTowerURL ++ "/api/collections/nats_auth_operators/records",
          Query := [("filter", "public_key = \x27" ++ k ++ "\x27"), ("perPage", "1"),
          ("fields", "id,url")], Header := headerSet [] "X-Token" c.NATSTowerAPIKey,
          Body := "" }] := by
      split at h
      · next e t hd =>
        rw [hd] at ht
        simp at h ht
        exact h.2 ▸ ht
      · next e t hd =>
        rw [hd] at ht
        simp at ht
        split at h <;> simp at h <;> exact h.2 ▸ ht
    exact ⟨_, rfl, rfl, htr1⟩

theorem getAccount_trace (env : Env) (c : NATSTowerClientConfig) (tr tr1 : Trace)
    (operatorID accountName : String) (r : Except Error account)
    (h : getAccount env c tr operatorID accountName = (r, tr1)) :
    (∃ e, r = .error e ∧ tr1 = tr) ∨ ∃ req : Request, req.Method = "GET" ∧
      req.URL = c.NATSTowerURL ++ "/api/collections/nats_auth_accounts/records" ∧
      tr1 = tr ++ [Effect.httpDo req] := by
  unfold getAccount at h
  cases hn : NewRequestWithContext env "GET"
      (c.NATSTowerURL ++ "/api/collections/nats_auth_accounts/records") "" with
  | error e =>
    rw [hn] at h; simp at h; left; exact ⟨_, h.1.symm, h.2.symm⟩
  | ok req =>
    rw [hn] at h
    have hr := NewRequestWithContext_ok _ _ _ _ _ hn
    subst hr
    right
    simp only [] at h
    have ht := doJSONRequest_trace env c tr
      { Method := "GET", URL := c.NATSTowerURL ++ "/api/collections/nats_auth_accounts/records",
        Query := [("filter", "(operator=\x27" ++ operatorID ++ "\x27 && name=\x27" ++ accountName
          ++ "\x27)"), ("perPage", "1"), ("fields", "id,name,public_key")], Header := [], Body := "" } (some env.decodeAccounts)
    have htr1 : tr1 = tr ++ [Effect.httpDo
        { Method := "GET", URL := c.NATSTowerURL ++ "/api/collections/nats_auth_accounts/records",
          Query := [("filter", "(operator=\x27" ++ operatorID ++ "\x27 && name=\x27" ++ accountName
          ++ "\x27)"), ("perPage", "1"), ("fields", "id,name,public_key")], Header := headerSet [] "X-Token" c.NATSTowerAPIKey,
          Body := "" }] := by
      split at h
      · next e t hd =>
        rw [hd] at ht
        simp at h ht
        exact h.2 ▸ ht
      · next e t hd =>
        rw [hd] at ht
        simp at ht
        split at h <;> simp at h <;> exact h.2 ▸ ht
    exact ⟨_, rfl, rfl, htr1⟩

theorem getUser_trace (env : Env) (c : NATSTowerClientConfig) (tr tr1 : Trace)
    (accountID username : String) (r : Except Error user)
    (h : getUser env c tr accountID username = (r, tr1)) :
    (∃ e, r = .error e ∧ tr1 = tr) ∨ ∃ req : Request, req.Method = "GET" ∧
      req.URL = c.NATSTowerURL ++ "/api/collections/nats_auth_users/records" ∧
      tr1 = tr ++ [Effect.httpDo req] := by
  unfold getUser at h
  cases hn : NewRequestWithContext env "GET"
      (c.NATSTowerURL ++ "/api/collections/nats_auth_users/records") "" with
  | error e =>
    rw [hn] at h; simp at h; left; exact ⟨_, h.1.symm, h.2.symm⟩
  | ok req =>
    rw [hn] at h
    have hr := NewRequestWithContext_ok _ _ _ _ _ hn
    subst hr
    right
    simp only [] at h
    have ht := doJSONRequest_trace env c tr
      { Method := "GET", URL := c.NATSTowerURL ++ "/api/collections/nats_auth_users/records",
        Query := [("filter", "(account=\x27" ++ accountID ++ "\x27 && name=\x27" ++ username
          ++ "\x27)"), ("perPage", "1"), ("fields", "creds,id")], Header := [], Body := "" } (some env.decodeUsers)
    have htr1 : tr1 = tr ++ [Effect.httpDo
        { Method := "GET", URL := c.NATSTowerURL ++ "/api/collections/nats_auth_users/records",
          Query := [("filter", "(account=\x27" ++ accountID ++ "\x27 && name=\x27" ++ username
          ++ "\x27)"), ("perPage", "1"), ("fields", "creds,id")], Header := headerSet [] "X-Token" c.NATSTowerAPIKey,
          Body := "" }] := by
      split at h
      · next e t hd =>
        rw [hd] at ht
        simp at h ht
        exact h.2 ▸ ht
      · next e t hd =>
        rw [hd] at ht
        simp at ht
        split at h <;> simp at h <;> exact h.2 ▸ ht
    exact ⟨_, rfl, rfl, htr1⟩

theorem accessAllowed_trace (env : Env) (c : NATSTowerClientConfig) (tr tr1 : Trace)
    (clusterID ns accountID : String) (r : Except Error Bool)
    (h : accessAllowed env c tr clusterID ns accountID = (r, tr1)) :
    (∃ e, r = .error e ∧ tr1 = tr) ∨ ∃ req : Request, req.Method = "GET" ∧
      req.URL = c.NATSTowerURL ++ "/api/collections/nats_auth_k8s_access/records" ∧
      tr1 = tr ++ [Effect.httpDo req] := by
  unfold accessAllowed at h
  cases hn : NewRequestWithContext env "GET"
      (c.NATSTowerURL ++ "/api/collections/nats_auth_k8s_access/records") "" with
  | error e =>
    rw [hn] at h; simp at h; left; exact ⟨_, h.1.symm, h.2.symm⟩
  | ok req =>
    rw [hn] at h
    have hr := NewRequestWithContext_ok _ _ _ _ _ hn
    subst hr
    right
    simp only [] at h
    have ht := doJSONRequest_trace env c tr
      { Method := "GET", URL := c.NATSTowerURL ++ "/api/collections/nats_auth_k8s_access/records",
        Query := [("filter", "(cluster=\x27" ++ clusterID ++ "\x27 && namespace=\x27" ++ ns
          ++ "\x27 && account=\x27" ++ accountID ++ "\x27)"), ("perPage", "1")], Header := [], Body := "" } (some env.decodeK8sAccess)
    have htr1 : tr1 = tr ++ [Effect.httpDo
        { Method := "GET", URL := c.NATSTowerURL ++ "/api/collections/nats_auth_k8s_access/records",
          Query := [("filter", "(cluster=\x27" ++ clusterID ++ "\x27 && namespace=\x27" ++ ns
          ++ "\x27 && account=\x27" ++ accountID ++ "\x27)"), ("perPage", "1")], Header := headerSet [] "X-Token" c.NATSTowerAPIKey,
          Body := "" }] := by
      split at h
      · next e t hd =>
        rw [hd] at ht
        simp at h ht
        exact h.2 ▸ ht
      · next e t hd =>
        rw [hd] at ht
        simp at ht
        split at h <;> simp at h <;> exact h.2 ▸ ht
    exact ⟨_, rfl, rfl, htr1⟩


theorem createUser_trace (env : Env) (c : NATSTowerClientConfig) (tr tr1 : Trace)
    (accountID username description : String) (r : Except Error user)
    (h : createUser env c tr accountID username description = (r, tr1)) :
    ∃ reqs : List Request, tr1 = tr ++ reqs.map Effect.httpDo := by
  unfold createUser at h
  split at h
  · simp at h; exact ⟨[], by simp [h.2]⟩
  · next req hn =>
    simp only [] at h
    have ht := doJSONRequest_trace env c tr
      { req with Query := [("fields", "creds,id")],
                 Header := headerSet req.Header "Content-Type" "application/json" }
      (some env.decodeUser)
    split at h
    · next e t hd =>
      rw [hd] at ht
      simp at h ht
      exact ⟨[_], by rw [← h.2, ht]; rfl⟩
    · next e t hd =>
      rw [hd] at ht
      simp at h ht
      exact ⟨[_], by rw [← h.2, ht]; rfl⟩

theorem reqs_of_lookup {tr tr1 : Trace} {α : Type} {r : Except Error α} {P : Request → Prop}
    (h : (∃ e, r = .error e ∧ tr1 = tr) ∨ ∃ req : Request, P req ∧ tr1 = tr ++ [Effect.httpDo req]) :
    ∃ reqs : List Request, tr1 = tr ++ reqs.map Effect.httpDo := by
  rcases h with ⟨_, _, h⟩ | ⟨req, _, h⟩
  · exact ⟨[], by simp [h]⟩
  · exact ⟨[req], by simp [h]⟩

theorem CreateOrGetUserAuth_trace (env : Env) (c : NATSTowerClientConfig) (tr tr1 : Trace)
    (ns installationPublicKey accountName name description : String)
    (r : Except Error ConnectionInfo)
    (h : CreateOrGetUserAuth env c tr ns installationPublicKey accountName name description
      = (r, tr1)) :
    ∃ reqs : List Request,
      tr1 = tr ++ Effect.callCreateOrGetUserAuth ns installationPublicKey accountName name
        description :: reqs.map Effect.httpDo := by
  unfold CreateOrGetUserAuth at h
  simp only [] at h
  rcases hop : getOperator env c (tr ++ [Effect.callCreateOrGetUserAuth ns installationPublicKey
    accountName name description]) installationPublicKey with ⟨rop, t1⟩
  obtain ⟨q1, hq1⟩ := reqs_of_lookup (P := fun req => req.Method = "GET")
    ((getOperator_trace _ _ _ _ _ _ hop).imp id (fun ⟨req, a, _, b⟩ => ⟨req, a, b⟩))
  rw [hop] at h
  cases rop with
  | error e => simp at h; exact ⟨q1, by rw [← h.2, hq1]; simp⟩
  | ok op =>
    simp only [] at h
    rcases hacc : getAccount env c t1 op.ID accountName with ⟨racc, t2⟩
    obtain ⟨q2, hq2⟩ := reqs_of_lookup (P := fun req => req.Method = "GET")
      ((getAccount_trace _ _ _ _ _ _ _ hacc).imp id (fun ⟨req, a, _, b⟩ => ⟨req, a, b⟩))
    rw [hacc] at h
    cases racc with
    | error e => simp at h; exact ⟨q1 ++ q2, by rw [← h.2, hq2, hq1]; simp⟩
    | ok acc =>
      simp only [] at h
      rcases hal : accessAllowed env c t2 c.ClusterID ns acc.ID with ⟨ral, t3⟩
      obtain ⟨q3, hq3⟩ := reqs_of_lookup (P := fun req => req.Method = "GET")
        ((accessAllowed_trace _ _ _ _ _ _ _ _ hal).imp id (fun ⟨req, a, _, b⟩ => ⟨req, a, b⟩))
      rw [hal] at h
      cases ral with
      | error e => simp at h; exact ⟨q1 ++ q2 ++ q3, by rw [← h.2, hq3, hq2, hq1]; simp⟩
      | ok b =>
        cases b with
        | false => simp at h; exact ⟨q1 ++ q2 ++ q3, by rw [← h.2, hq3, hq2, hq1]; simp⟩
        | true =>
          simp only [] at h
          rcases hus : getUser env c t3 acc.ID name with ⟨rus, t4⟩
          obtain ⟨q4, hq4⟩ := reqs_of_lookup (P := fun req => req.Method = "GET")
            ((getUser_trace _ _ _ _ _ _ _ hus).imp id (fun ⟨req, a, _, b⟩ => ⟨req, a, b⟩))
          rw [hus] at h
          cases rus with
          | ok u =>
            simp at h
            exact ⟨q1 ++ q2 ++ q3 ++ q4, by rw [← h.2, hq4, hq3, hq2, hq1]; simp⟩
          | error e =>
            simp only [] at h
            split at h
            · simp at h
              exact ⟨q1 ++ q2 ++ q3 ++ q4, by rw [← h.2, hq4, hq3, hq2, hq1]; simp⟩
            · rcases hcu : createUser env c t4 acc.ID name description with ⟨rcu, t5⟩
              obtain ⟨q5, hq5⟩ := createUser_trace _ _ _ _ _ _ _ _ hcu
              rw [hcu] at h
              cases rcu with
              | error e =>
                simp at h
                exact ⟨q1 ++ q2 ++ q3 ++ q4 ++ q5, by rw [← h.2, hq5, hq4, hq3, hq2, hq1]; simp⟩
              | ok u =>
                simp at h
                exact ⟨q1 ++ q2 ++ q3 ++ q4 ++ q5, by rw [← h.2, hq5, hq4, hq3, hq2, hq1]; simp⟩

/-! ## C3: access check before mutation -/

/-- C3: when the operator and account lookups succeed and the access check answers false,
`CreateOrGetUserAuth` returns `ErrK8sAccessNotAllowed` and no `ConnectionInfo`, and the trace
ends right after the access check: beyond the entry marker exactly three requests were
sent, all GET, to the operators, accounts and access collections, so neither the user lookup
nor the create-user POST took place. -/
theorem CreateOrGetUserAuth_access_denied (env : Env) (c : NATSTowerClientConfig) (tr : Trace)
    (ns installationPublicKey accountName name description : String)
    (op : operator) (acc : account) (tr1 tr2 tr3 : Trace)
    (hop : getOperator env c
      (tr ++ [Effect.callCreateOrGetUserAuth ns installationPublicKey accountName name
        description]) installationPublicKey = (.ok op, tr1))
    (hacc : getAccount env c tr1 op.ID accountName = (.ok acc, tr2))
    (hallow : accessAllowed env c tr2 c.ClusterID ns acc.ID = (.ok false, tr3)) :
    CreateOrGetUserAuth env c tr ns installationPublicKey accountName name description
        = (.error .ErrK8sAccessNotAllowed, tr3)
      ∧ ∃ r1 r2 r3 : Request,
          tr3 = tr ++ [Effect.callCreateOrGetUserAuth ns installationPublicKey accountName name
            description, Effect.httpDo r1, Effect.httpDo r2, Effect.httpDo r3]
          ∧ r1.Method = "GET" ∧ r2.Method = "GET" ∧ r3.Method = "GET"
          ∧ r1.URL = c.NATSTowerURL ++ "/api/collections/nats_auth_operators/records"
          ∧ r2.URL = c.NATSTowerURL ++ "/api/collections/nats_auth_accounts/records"
          ∧ r3.URL = c.NATSTowerURL ++ "/api/collections/nats_auth_k8s_access/records" := by
  constructor
  · unfold CreateOrGetUserAuth
    simp only [hop, hacc, hallow]
  · rcases getOperator_trace _ _ _ _ _ _ hop with ⟨e, he, _⟩ | ⟨r1, hm1, hu1, ht1⟩
    · cases he
    rcases getAccount_trace _ _ _ _ _ _ _ hacc with ⟨e, he, _⟩ | ⟨r2, hm2, hu2, ht2⟩
    · cases he
    rcases accessAllowed_trace _ _ _ _ _ _ _ _ hallow with ⟨e, he, _⟩ | ⟨r3, hm3, hu3, ht3⟩
    · cases he
    refine ⟨r1, r2, r3, ?_, hm1, hm2, hm3, hu1, hu2, hu3⟩
    rw [ht3, ht2, ht1]
    simp

/-- Witness for C3: against a service that knows the operator and the account but holds no
access record, the three lookups succeed as required and the call is refused. -/
theorem CreateOrGetUserAuth_access_denied_witness :
    (CreateOrGetUserAuth (scenarioEnv scenarioAccessDenied) demoClient []
        "app-ns" "OPK" "team-a" "creds1" "desc").1 = .error .ErrK8sAccessNotAllowed :=
  congrArg Prod.fst
    (CreateOrGetUserAuth_access_denied (scenarioEnv scenarioAccessDenied) demoClient []
      "app-ns" "OPK" "team-a" "creds1" "desc"
      { URLs := "nats://demo:4222", ID := "op1" }
      { ID := "acc1", Name := "team-a", PublicKey := "APK" }
      _ _ _ rfl rfl rfl).1

/-! ## C4: deletion idempotence -/

/-- C4: whenever a lookup of `RemoveUserAuth` reports not found, be it the operator, or the
account after the operator was found, or the user after operator and account were found and
access was granted, the call returns nil, and everything it sent is a GET lookup: no DELETE
request is issued. -/
theorem RemoveUserAuth_not_found (env : Env) (c : NATSTowerClientConfig) (tr : Trace)
    (ns installationPublicKey accountName name : String)
    (h : (∃ tr1, getOperator env c
            (tr ++ [Effect.callRemoveUserAuth ns installationPublicKey accountName name])
            installationPublicKey = (.error .ErrOperatorNotFound, tr1))
       ∨ (∃ op tr1 tr2, getOperator env c
            (tr ++ [Effect.callRemoveUserAuth ns installationPublicKey accountName name])
            installationPublicKey = (.ok op, tr1)
          ∧ getAccount env c tr1 op.ID accountName = (.error .ErrAccountNotFound, tr2))
       ∨ (∃ op acc tr1 tr2 tr3 tr4, getOperator env c
            (tr ++ [Effect.callRemoveUserAuth ns installationPublicKey accountName name])
            installationPublicKey = (.ok op, tr1)
          ∧ getAccount env c tr1 op.ID accountName = (.ok acc, tr2)
          ∧ accessAllowed env c tr2 c.ClusterID ns acc.ID = (.ok true, tr3)
          ∧ getUser env c tr3 acc.ID name = (.error .ErrUserNotFound, tr4))) :
    (RemoveUserAuth env c tr ns installationPublicKey accountName name).1 = none
      ∧ ∃ added : Trace,
          (RemoveUserAuth env c tr ns installationPublicKey accountName name).2 = tr ++ added
          ∧ ∀ req, Effect.httpDo req ∈ added → req.Method = "GET" := by
  rcases h with ⟨tr1, hop⟩ | ⟨op, tr1, tr2, hop, hacc⟩ | ⟨op, acc, tr1, tr2, tr3, tr4, hop, hacc,
    hallow, husr⟩
  · have hres : RemoveUserAuth env c tr ns installationPublicKey accountName name
        = (none, tr1) := by unfold RemoveUserAuth; simp [hop]
    rw [hres]
    refine ⟨rfl, ?_⟩
    rcases getOperator_trace _ _ _ _ _ _ hop with ⟨e, _, ht1⟩ | ⟨r1, hm1, _, ht1⟩
    · refine ⟨[Effect.callRemoveUserAuth ns installationPublicKey accountName name], ht1, ?_⟩
      intro req hreq; simp at hreq
    · refine ⟨[Effect.callRemoveUserAuth ns installationPublicKey accountName name,
        Effect.httpDo r1], by simp [ht1], ?_⟩
      intro req hreq; simp at hreq; subst hreq; exact hm1
  · have hres : RemoveUserAuth env c tr ns installationPublicKey accountName name
        = (none, tr2) := by unfold RemoveUserAuth; simp [hop, hacc]
    rw [hres]
    refine ⟨rfl, ?_⟩
    rcases getOperator_trace _ _ _ _ _ _ hop with ⟨e, he, _⟩ | ⟨r1, hm1, _, ht1⟩
    · cases he
    rcases getAccount_trace _ _ _ _ _ _ _ hacc with ⟨e, _, ht2⟩ | ⟨r2, hm2, _, ht2⟩
    · refine ⟨[Effect.callRemoveUserAuth ns installationPublicKey accountName name,
        Effect.httpDo r1], by simp [ht2, ht1], ?_⟩
      intro req hreq; simp at hreq; subst hreq; exact hm1
    · refine ⟨[Effect.callRemoveUserAuth ns installationPublicKey accountName name,
        Effect.httpDo r1, Effect.httpDo r2], by simp [ht2, ht1], ?_⟩
      intro req hreq; simp at hreq
      rcases hreq with h1 | h1 <;> subst h1 <;> assumption
  · have hres : RemoveUserAuth env c tr ns installationPublicKey accountName name
        = (none, tr4) := by unfold RemoveUserAuth; simp [hop, hacc, hallow, husr]
    rw [hres]
    refine ⟨rfl, ?_⟩
    rcases getOperator_trace _ _ _ _ _ _ hop with ⟨e, he, _⟩ | ⟨r1, hm1, _, ht1⟩
    · cases he
    rcases getAccount_trace _ _ _ _ _ _ _ hacc with ⟨e, he, _⟩ | ⟨r2, hm2, _, ht2⟩
    · cases he
    rcases accessAllowed_trace _ _ _ _ _ _ _ _ hallow with ⟨e, he, _⟩ | ⟨r3, hm3, _, ht3⟩
    · cases he
    rcases getUser_trace _ _ _ _ _ _ _ husr with ⟨e, _, ht4⟩ | ⟨r4, hm4, _, ht4⟩
    · refine ⟨[Effect.callRemoveUserAuth ns installationPublicKey accountName name,
        Effect.httpDo r1, Effect.httpDo r2, Effect.httpDo r3], by simp [ht4, ht3, ht2, ht1], ?_⟩
      intro req hreq; simp at hreq
      rcases hreq with h1 | h1 | h1 <;> subst h1 <;> assumption
    · refine ⟨[Effect.callRemoveUserAuth ns installationPublicKey accountName name,
        Effect.httpDo r1, Effect.httpDo r2, Effect.httpDo r3, Effect.httpDo r4],
        by simp [ht4, ht3, ht2, ht1], ?_⟩
      intro req hreq; simp at hreq
      rcases hreq with h1 | h1 | h1 | h1 <;> subst h1 <;> assumption

/-- Witness for C4: the service knows operator and account and grants access, but the user
does not exist; `RemoveUserAuth` returns nil. -/
theorem RemoveUserAuth_not_found_witness :
    (RemoveUserAuth (scenarioEnv scenarioFresh) demoClient [] "app-ns" "OPK" "team-a"
      "creds1").1 = none :=
  (RemoveUserAuth_not_found (scenarioEnv scenarioFresh) demoClient [] "app-ns" "OPK" "team-a"
    "creds1"
    (Or.inr (Or.inr ⟨{ URLs := "nats://demo:4222", ID := "op1" },
      { ID := "acc1", Name := "team-a", PublicKey := "APK" }, _, _, _, _, rfl, rfl, rfl,
      rfl⟩))).1


/-! ## Lemmas on the account handler -/

theorem accountCredentialType_eq (obj : Account) : accountCredentialType obj = "user" := by
  unfold accountCredentialType
  simp only []
  split
  · split
    · assumption
    · rfl
  · rfl

theorem labels_ne_none_of_label (obj : Account) (k : String) (h : labelOf obj.Labels k ≠ "") :
    obj.Labels ≠ none := by
  intro hn
  rw [hn] at h
  exact h rfl

theorem getNACKAccountHandler_reconcile (env : Env) (natsTowerOperator : NATSTowerOperator)
    (ev : EventItem) (obj : Account) (tr tr0 : Trace) (installationPublicKey : String)
    (hsecret : labelOf obj.Labels natsTowerSecretLabelKey ≠ "")
    (hinst : accountInstallation natsTowerOperator obj tr = .ok (installationPublicKey, tr0)) :
    getNACKAccountHandler env natsTowerOperator ev obj tr
      = accountHandlerReconcile env natsTowerOperator ev obj installationPublicKey tr0 := by
  unfold getNACKAccountHandler
  rw [if_neg (labels_ne_none_of_label obj _ hsecret), if_neg hsecret, hinst]

theorem accountInstallation_ok_trace (natsTowerOperator : NATSTowerOperator) (obj : Account)
    (tr tr0 : Trace) (installationPublicKey : String)
    (hinst : accountInstallation natsTowerOperator obj tr = .ok (installationPublicKey, tr0)) :
    tr0 = tr ∨ tr0 = tr ++ [Effect.event obj EventTypeNormal "DefaultInstallation"
        "Will use default installation %s to generate secret"
        [.str natsTowerOperator.towerOperatorConfig.DefaultInstallation]] := by
  unfold accountInstallation at hinst
  simp only [] at hinst
  split at hinst
  · cases hinst
  · split at hinst
    · cases hinst; right; rfl
    · split at hinst
      · cases hinst
      · cases hinst; left; rfl

theorem GoMap.lookup_filter_ne {V : Type} (m : GoMap V) (k k1 : String) (h : k1 ≠ k) :
    List.lookup k1 (m.filter (fun p => p.1 != k)) = List.lookup k1 m := by
  induction m with
  | nil => rfl
  | cons p rest ih =>
    obtain ⟨a, b⟩ := p
    by_cases hak : a = k
    · subst hak
      have hne : (k1 == a) = false := by simpa using h
      simp [List.filter, List.lookup, hne, ih]
    · have hf : (a != k) = true := by simpa using hak
      simp only [List.filter, hf, List.lookup]
      rw [ih]

theorem GoMap.lookup_set_self {V : Type} (m : GoMap V) (k : String) (v : V) :
    List.lookup k (m.set k v) = some v := by
  simp [GoMap.set, List.lookup]

theorem GoMap.lookup_set_ne {V : Type} (m : GoMap V) (k k1 : String) (v : V) (h : k1 ≠ k) :
    List.lookup k1 (m.set k v) = List.lookup k1 m := by
  have hne : (k1 == k) = false := by simpa using h
  simp only [GoMap.set, List.lookup, hne]
  exact GoMap.lookup_filter_ne m k k1 h

theorem accountInstallation_valid (natsTowerOperator : NATSTowerOperator) (obj : Account)
    (tr : Trace) (v : String)
    (hinst : labelOf obj.Labels natsTowerInstallationLabelKey ≠ "")
    (hvalid : natsTowerOperator.towerOperatorConfig.ValidInstallations.lookup
      (labelOf obj.Labels natsTowerInstallationLabelKey) = some v) :
    accountInstallation natsTowerOperator obj tr
      = .ok (labelOf obj.Labels natsTowerInstallationLabelKey, tr) := by
  unfold accountInstallation
  simp only [hinst, false_and, if_false, hvalid]

/-! ## C1: idempotence of the account handler -/

/-- C1: for a non-Delete account event that passes the label checks and the installation
checks, if the secret lookup returns a secret whose `nats.creds` entry is present and
non-empty, the handler returns nil and its only effect after the installation checks is the
secret `Get`: no `CreateOrGetUserAuth` call, no request to the service, no secret `Create` or
`Update`. The installation checks themselves add nothing or the `DefaultInstallation` notice. -/
theorem getNACKAccountHandler_idempotent (env : Env) (natsTowerOperator : NATSTowerOperator)
    (ev : EventItem) (obj : Account) (tr tr0 : Trace) (installationPublicKey : String)
    (secret : Secret)
    (hdel : ev.ActionType ≠ DeleteAction)
    (hsecret : labelOf obj.Labels natsTowerSecretLabelKey ≠ "")
    (hinst : accountInstallation natsTowerOperator obj tr = .ok (installationPublicKey, tr0))
    (hget : env.secretsGet tr0 obj.Namespace (labelOf obj.Labels natsTowerSecretLabelKey)
      = .ok secret)
    (hcreds : dataOf secret.Data secretCredentialsKey ≠ none
      ∧ (dataOf secret.Data secretCredentialsKey).toStr ≠ "") :
    getNACKAccountHandler env natsTowerOperator ev obj tr
        = (none, tr0 ++ [Effect.secretsGet obj.Namespace
            (labelOf obj.Labels natsTowerSecretLabelKey)])
      ∧ (tr0 = tr ∨ tr0 = tr ++ [Effect.event obj EventTypeNormal "DefaultInstallation"
          "Will use default installation %s to generate secret"
          [.str natsTowerOperator.towerOperatorConfig.DefaultInstallation]]) := by
  refine ⟨?_, accountInstallation_ok_trace _ _ _ _ _ hinst⟩
  rw [getNACKAccountHandler_reconcile env natsTowerOperator ev obj tr tr0 installationPublicKey
    hsecret hinst]
  unfold accountHandlerReconcile
  rw [if_neg hdel]
  simp only [hget, accountCredentialType_eq, if_true, if_pos hcreds]

/-- Witness for C1: an Update event for an account whose secret already holds credentials; the
handler only reads the secret. -/
theorem getNACKAccountHandler_idempotent_witness :
    getNACKAccountHandler (scenarioEnv scenarioPopulated) demoOperator
        { Key := "app-ns/team-a", ActionType := UpdateAction } demoAccount []
      = (none, [Effect.secretsGet "app-ns" "creds1"]) :=
  (getNACKAccountHandler_idempotent (scenarioEnv scenarioPopulated) demoOperator
    { Key := "app-ns/team-a", ActionType := UpdateAction } demoAccount [] [] "inst-A"
    populatedSecret (by decide) (by decide) rfl rfl (by decide)).1

/-! ## C6: installation omitted and no default configured -/

/-- C6: for an account object with a non-empty secret-name label and no installation label
(its value reads as the empty string), when `DefaultInstallation` is empty, the handler
returns nil for every event item and its only effect is one warning notification,
`MissingInstallationLabel`: no call to the credential service and no secret API call. -/
theorem getNACKAccountHandler_missing_installation (env : Env)
    (natsTowerOperator : NATSTowerOperator) (ev : EventItem) (obj : Account) (tr : Trace)
    (hsecret : labelOf obj.Labels natsTowerSecretLabelKey ≠ "")
    (hinst : labelOf obj.Labels natsTowerInstallationLabelKey = "")
    (hdefault : natsTowerOperator.towerOperatorConfig.DefaultInstallation = "") :
    getNACKAccountHandler env natsTowerOperator ev obj tr
      = (none, tr ++ [Effect.event obj EventTypeWarning "MissingInstallationLabel"
          "Require label %s to generate secret" [.str natsTowerInstallationLabelKey]]) := by
  unfold getNACKAccountHandler accountInstallation
  rw [if_neg (labels_ne_none_of_label obj _ hsecret), if_neg hsecret]
  simp only [hinst, hdefault, and_self, if_true]

/-- Witness for C6: a Create event for an account with only a secret-name label, no default
installation configured. -/
theorem getNACKAccountHandler_missing_installation_witness :
    getNACKAccountHandler (scenarioEnv scenarioFresh) demoOperator
        { Key := "app-ns/team-a", ActionType := CreateAction } accountNoInstallation []
      = (none, [Effect.event accountNoInstallation "Warning" "MissingInstallationLabel"
          "Require label %s to generate secret"
          [.str "nats-tower.com/nats-tower-installation"]]) :=
  getNACKAccountHandler_missing_installation (scenarioEnv scenarioFresh) demoOperator
    { Key := "app-ns/team-a", ActionType := CreateAction } accountNoInstallation []
    (by decide) (by decide) (by decide)

/-! ## C9: allow-list enforcement -/

/-- C9: for an account object with a non-empty secret-name label and a non-empty installation
label whose value is not a key of `ValidInstallations`, the handler returns nil for every event
item and its only effect is one warning notification, `InvalidInstallationLabel`: no call to
the credential service and no secret API call. -/
theorem getNACKAccountHandler_invalid_installation (env : Env)
    (natsTowerOperator : NATSTowerOperator) (ev : EventItem) (obj : Account) (tr : Trace)
    (hsecret : labelOf obj.Labels natsTowerSecretLabelKey ≠ "")
    (hinst : labelOf obj.Labels natsTowerInstallationLabelKey ≠ "")
    (hvalid : natsTowerOperator.towerOperatorConfig.ValidInstallations.lookup
      (labelOf obj.Labels natsTowerInstallationLabelKey) = none) :
    getNACKAccountHandler env natsTowerOperator ev obj tr
      = (none, tr ++ [Effect.event obj EventTypeWarning "InvalidInstallationLabel"
          "Require label %s to be one of %+v to generate secret"
          [.str natsTowerInstallationLabelKey,
           .installations natsTowerOperator.towerOperatorConfig.ValidInstallations]]) := by
  unfold getNACKAccountHandler accountInstallation
  rw [if_neg (labels_ne_none_of_label obj _ hsecret), if_neg hsecret]
  simp only [hinst, false_and, if_false, hvalid]


/-- Witness for C9: an account whose installation label `inst-B` is not in the allow-list. -/
theorem getNACKAccountHandler_invalid_installation_witness :
    getNACKAccountHandler (scenarioEnv scenarioFresh) demoOperator
        { Key := "app-ns/team-a", ActionType := CreateAction } accountBadInstallation []
      = (none, [Effect.event accountBadInstallation "Warning" "InvalidInstallationLabel"
          "Require label %s to be one of %+v to generate secret"
          [.str "nats-tower.com/nats-tower-installation", .installations [("inst-A", "")]]]) :=
  getNACKAccountHandler_invalid_installation (scenarioEnv scenarioFresh) demoOperator
    { Key := "app-ns/team-a", ActionType := CreateAction } accountBadInstallation []
    (by decide) (by decide) (by decide)

/-! ## C10: access denied in the account handler -/

/-- C10: for a non-Delete event that passes the label and installation checks, on the path
where the secret is absent (the lookup fails with not-found) and on the path where it exists
without a non-empty `nats.creds`, when `CreateOrGetUserAuth` returns `ErrK8sAccessNotAllowed`
the handler returns that same error, and after the call it records exactly one notification,
the warning `ErrorK8sAccessNotAllowed`; what the call itself added is its entry marker and
requests to the service, so no secret `Create` or `Update` is issued. -/
theorem getNACKAccountHandler_access_denied (env : Env) (natsTowerOperator : NATSTowerOperator)
    (ev : EventItem) (obj : Account) (tr tr0 tr1 : Trace) (installationPublicKey : String)
    (hdel : ev.ActionType ≠ DeleteAction)
    (hsecret : labelOf obj.Labels natsTowerSecretLabelKey ≠ "")
    (hinst : accountInstallation natsTowerOperator obj tr = .ok (installationPublicKey, tr0))
    (hget : (∃ err, env.secretsGet tr0 obj.Namespace
                (labelOf obj.Labels natsTowerSecretLabelKey) = .error err
              ∧ IsNotFound err = true)
          ∨ (∃ secret, env.secretsGet tr0 obj.Namespace
                (labelOf obj.Labels natsTowerSecretLabelKey) = .ok secret
              ∧ (dataOf secret.Data secretCredentialsKey = none
                  ∨ (dataOf secret.Data secretCredentialsKey).toStr = "")))
    (hauth : CreateOrGetUserAuth env natsTowerOperator.natsTowerClient
        (tr0 ++ [Effect.secretsGet obj.Namespace (labelOf obj.Labels natsTowerSecretLabelKey)])
        obj.Namespace installationPublicKey obj.Name
        (labelOf obj.Labels natsTowerSecretLabelKey)
        (getNACKAccountUserDescription natsTowerOperator.towerOperatorConfig.ClusterID
          (some obj))
      = (.error .ErrK8sAccessNotAllowed, tr1)) :
    getNACKAccountHandler env natsTowerOperator ev obj tr
        = (some .ErrK8sAccessNotAllowed,
           tr1 ++ [Effect.event obj EventTypeWarning "ErrorK8sAccessNotAllowed"
             ("Please add the namespace \x27%s\x27 & cluster \x27%s\x27 for account \x27%s\x27"
               ++ " to the k8s access list on NATS Tower")
             [.str obj.Namespace, .str natsTowerOperator.towerOperatorConfig.ClusterID,
              .str obj.Name]])
      ∧ ∃ reqs : List Request,
          tr1 = tr0 ++ [Effect.secretsGet obj.Namespace
                  (labelOf obj.Labels natsTowerSecretLabelKey),
                Effect.callCreateOrGetUserAuth obj.Namespace installationPublicKey obj.Name
                  (labelOf obj.Labels natsTowerSecretLabelKey)
                  (getNACKAccountUserDescription
                    natsTowerOperator.towerOperatorConfig.ClusterID (some obj))]
              ++ reqs.map Effect.httpDo := by
  constructor
  · rw [getNACKAccountHandler_reconcile env natsTowerOperator ev obj tr tr0
      installationPublicKey hsecret hinst]
    unfold accountHandlerReconcile
    rw [if_neg hdel]
    rcases hget with ⟨err, hg, hnf⟩ | ⟨secret, hg, hmiss⟩
    · simp only [hg, hnf, accountCredentialType_eq, if_true, hauth]
    · have hno : ¬ (dataOf secret.Data secretCredentialsKey ≠ none
          ∧ (dataOf secret.Data secretCredentialsKey).toStr ≠ "") := by
        intro ⟨h1, h2⟩
        rcases hmiss with h | h
        · exact h1 h
        · exact h2 h
      simp only [hg, accountCredentialType_eq, if_true, if_neg hno, hauth]
  · obtain ⟨reqs, hreqs⟩ := CreateOrGetUserAuth_trace _ _ _ _ _ _ _ _ _ _ hauth
    exact ⟨reqs, by rw [hreqs]; simp⟩

/-- Witness for C10, secret absent: the service holds no access record for the namespace. -/
theorem getNACKAccountHandler_access_denied_witness :
    (getNACKAccountHandler (scenarioEnv scenarioAccessDenied) demoOperator
        { Key := "app-ns/team-a", ActionType := CreateAction } demoAccount []).1
      = some .ErrK8sAccessNotAllowed :=
  congrArg Prod.fst
    (getNACKAccountHandler_access_denied (scenarioEnv scenarioAccessDenied) demoOperator
      { Key := "app-ns/team-a", ActionType := CreateAction } demoAccount [] [] _ "inst-A"
      (by decide) (by decide) rfl (Or.inl ⟨_, rfl, rfl⟩) rfl).1


/-! ## C7: secret absent -/

/-- C7 as stated fails: a Create event for an account with a secret-name label and an
installation of the allow-list, the secret lookup reports not-found, and `CreateOrGetUserAuth`
succeeds, with a bundle whose `Creds` is empty because the user record of the service carries
no credentials. The handler returns nil and sends exactly one secret to `Create`, whose
`nats.creds` entry is empty. -/
theorem getNACKAccountHandler_creates_empty_creds :
    labelOf demoAccount.Labels natsTowerSecretLabelKey = "creds1"
      ∧ demoConfig.ValidInstallations.lookup
          (labelOf demoAccount.Labels natsTowerInstallationLabelKey) = some ""
      ∧ (scenarioEnv scenarioEmptyCreds).secretsGet [] "app-ns" "creds1"
          = .error (.apiStatus "NotFound" "secrets not found")
      ∧ IsNotFound (.apiStatus "NotFound" "secrets not found") = true
      ∧ (CreateOrGetUserAuth (scenarioEnv scenarioEmptyCreds) demoClient
            [Effect.secretsGet "app-ns" "creds1"] "app-ns" "inst-A" "team-a" "creds1"
            (getNACKAccountUserDescription "cluster-1" (some demoAccount))).1
          = .ok { Creds := "", URLs := "nats://demo:4222", AccountName := "team-a" }
      ∧ (getNACKAccountHandler (scenarioEnv scenarioEmptyCreds) demoOperator
            { Key := "app-ns/team-a", ActionType := CreateAction } demoAccount []).1 = none
      ∧ createdSecrets (getNACKAccountHandler (scenarioEnv scenarioEmptyCreds) demoOperator
            { Key := "app-ns/team-a", ActionType := CreateAction } demoAccount []).2
          = [{ Name := "creds1", Namespace := "app-ns",
               Labels := some [("nats-tower.com/nats-tower-secret", "true"),
                               ("nats-tower.com/nats-tower-credential-type", "user")],
               Type_ := "Opaque",
               Data := some [("nats.creds", some ""), ("URLS", some "nats://demo:4222"),
                             ("ACCOUNT_NAME", some "team-a")] }]
      ∧ (dataOf (some [("nats.creds", some ""), ("URLS", some "nats://demo:4222"),
            ("ACCOUNT_NAME", some "team-a")]) secretCredentialsKey).toStr = "" := by
  refine ⟨rfl, rfl, rfl, rfl, rfl, rfl, rfl, rfl⟩

/-- C7, amended: for a Create event on an account with a non-empty secret-name label and an
installation label of the allow-list, when the secret lookup reports not-found and
`CreateOrGetUserAuth` succeeds with a bundle, the handler makes exactly one
`CreateOrGetUserAuth` call (its marker and its requests follow the `Get`), then sends exactly
one secret to `Create` and records one notification; no `Update` occurs; the result is what
`Create` returned. The created secret holds the bundle: `nats.creds`, `URLS` and
`ACCOUNT_NAME` are the bundle's `Creds`, `URLs` and `AccountName`, each entry non-empty
whenever the bundle's field is. -/
theorem getNACKAccountHandler_creates_secret (env : Env)
    (natsTowerOperator : NATSTowerOperator) (ev : EventItem) (obj : Account) (tr tr1 : Trace)
    (v : String) (err : Error) (creds : ConnectionInfo)
    (hact : ev.ActionType = CreateAction)
    (hsecret : labelOf obj.Labels natsTowerSecretLabelKey ≠ "")
    (hinst : labelOf obj.Labels natsTowerInstallationLabelKey ≠ "")
    (hvalid : natsTowerOperator.towerOperatorConfig.ValidInstallations.lookup
      (labelOf obj.Labels natsTowerInstallationLabelKey) = some v)
    (hget : env.secretsGet tr obj.Namespace (labelOf obj.Labels natsTowerSecretLabelKey)
      = .error err)
    (hnf : IsNotFound err = true)
    (hauth : CreateOrGetUserAuth env natsTowerOperator.natsTowerClient
        (tr ++ [Effect.secretsGet obj.Namespace (labelOf obj.Labels natsTowerSecretLabelKey)])
        obj.Namespace (labelOf obj.Labels natsTowerInstallationLabelKey) obj.Name
        (labelOf obj.Labels natsTowerSecretLabelKey)
        (getNACKAccountUserDescription natsTowerOperator.towerOperatorConfig.ClusterID
          (some obj))
      = (.ok creds, tr1)) :
    (∃ reqs : List Request,
        tr1 = tr ++ [Effect.secretsGet obj.Namespace
                (labelOf obj.Labels natsTowerSecretLabelKey),
              Effect.callCreateOrGetUserAuth obj.Namespace
                (labelOf obj.Labels natsTowerInstallationLabelKey) obj.Name
                (labelOf obj.Labels natsTowerSecretLabelKey)
                (getNACKAccountUserDescription
                  natsTowerOperator.towerOperatorConfig.ClusterID (some obj))]
            ++ reqs.map Effect.httpDo)
      ∧ (∃ t r f a, (getNACKAccountHandler env natsTowerOperator ev obj tr).2
          = tr1 ++ [Effect.secretsCreate obj.Namespace
                (upsertNew obj.Namespace (labelOf obj.Labels natsTowerSecretLabelKey) "user"
                  creds),
              Effect.event obj t r f a])
      ∧ (getNACKAccountHandler env natsTowerOperator ev obj tr).1
          = env.secretsCreate tr1 obj.Namespace
              (upsertNew obj.Namespace (labelOf obj.Labels natsTowerSecretLabelKey) "user"
                creds)
      ∧ dataOf (upsertNew obj.Namespace (labelOf obj.Labels natsTowerSecretLabelKey) "user"
          creds).Data "nats.creds" = some creds.Creds
      ∧ dataOf (upsertNew obj.Namespace (labelOf obj.Labels natsTowerSecretLabelKey) "user"
          creds).Data "URLS" = some creds.URLs
      ∧ dataOf (upsertNew obj.Namespace (labelOf obj.Labels natsTowerSecretLabelKey) "user"
          creds).Data "ACCOUNT_NAME" = some creds.AccountName
      ∧ (creds.Creds ≠ "" → creds.URLs ≠ "" → creds.AccountName ≠ "" →
          (dataOf (upsertNew obj.Namespace (labelOf obj.Labels natsTowerSecretLabelKey) "user"
            creds).Data "nats.creds").toStr ≠ ""
          ∧ (dataOf (upsertNew obj.Namespace (labelOf obj.Labels natsTowerSecretLabelKey)
            "user" creds).Data "URLS").toStr ≠ ""
          ∧ (dataOf (upsertNew obj.Namespace (labelOf obj.Labels natsTowerSecretLabelKey)
            "user" creds).Data "ACCOUNT_NAME").toStr ≠ "") := by
  have hdel : ev.ActionType ≠ DeleteAction := by rw [hact]; decide
  have hrec := getNACKAccountHandler_reconcile env natsTowerOperator ev obj tr tr _ hsecret
    (accountInstallation_valid natsTowerOperator obj tr v hinst hvalid)
  have hres : getNACKAccountHandler env natsTowerOperator ev obj tr
      = UpsertSecret env tr1 obj obj.Namespace (labelOf obj.Labels natsTowerSecretLabelKey)
          "user" creds none := by
    rw [hrec]
    unfold accountHandlerReconcile
    rw [if_neg hdel]
    simp only [hget, hnf, accountCredentialType_eq, if_true, hauth]
  have hd1 : dataOf (upsertNew obj.Namespace (labelOf obj.Labels natsTowerSecretLabelKey)
      "user" creds).Data "nats.creds" = some creds.Creds := rfl
  have hd2 : dataOf (upsertNew obj.Namespace (labelOf obj.Labels natsTowerSecretLabelKey)
      "user" creds).Data "URLS" = some creds.URLs := rfl
  have hd3 : dataOf (upsertNew obj.Namespace (labelOf obj.Labels natsTowerSecretLabelKey)
      "user" creds).Data "ACCOUNT_NAME" = some creds.AccountName := rfl
  refine ⟨?_, ?_, ?_, hd1, hd2, hd3, ?_⟩
  · obtain ⟨reqs, hreqs⟩ := CreateOrGetUserAuth_trace _ _ _ _ _ _ _ _ _ _ hauth
    exact ⟨reqs, by rw [hreqs]; simp⟩
  · rw [hres]
    unfold UpsertSecret
    simp only []
    split
    · exact ⟨_, _, _, _, by rw [List.append_assoc]; rfl⟩
    · exact ⟨_, _, _, _, by rw [List.append_assoc]; rfl⟩
  · rw [hres]
    unfold UpsertSecret
    simp only []
    split
    · next e he => rw [he]
    · next he => rw [he]
  · intro h1 h2 h3
    rw [hd1, hd2, hd3]
    exact ⟨h1, h2, h3⟩

/-- Witness for C7 (amended): the service issues credentials and the secret is created. -/
theorem getNACKAccountHandler_creates_secret_witness :
    (getNACKAccountHandler (scenarioEnv scenarioFresh) demoOperator
        { Key := "app-ns/team-a", ActionType := CreateAction } demoAccount []).1 = none :=
  (getNACKAccountHandler_creates_secret (scenarioEnv scenarioFresh) demoOperator
    { Key := "app-ns/team-a", ActionType := CreateAction } demoAccount [] _ "" _
    { Creds := "CREDS", URLs := "nats://demo:4222", AccountName := "team-a" }
    rfl (by decide) (by decide) rfl rfl rfl rfl).2.2.1


/-! ## C8: update in place preserves other content -/

theorem upsertRevision_data_other (last : Secret) (credType : String) (creds : ConnectionInfo)
    (k : String) (h1 : k ≠ "nats.creds") (h2 : k ≠ "URLS") (h3 : k ≠ "ACCOUNT_NAME") :
    List.lookup k ((upsertRevision last credType creds).Data.getD [])
      = List.lookup k (last.Data.getD []) := by
  unfold upsertRevision
  simp only [Option.getD_some]
  rw [GoMap.lookup_set_ne _ _ _ _ h3, GoMap.lookup_set_ne _ _ _ _ h2,
    GoMap.lookup_set_ne _ _ _ _ (by simpa [secretCredentialsKey] using h1)]
  cases last.Data <;> rfl

theorem upsertRevision_labels_other (last : Secret) (credType : String)
    (creds : ConnectionInfo) (k : String) (h1 : k ≠ natsTowerSecretLabelKey)
    (h2 : k ≠ natsTowerCredentialTypeLabelKey) :
    List.lookup k ((upsertRevision last credType creds).Labels.getD [])
      = List.lookup k (last.Labels.getD []) := by
  unfold upsertRevision
  simp only [Option.getD_some]
  rw [GoMap.lookup_set_ne _ _ _ _ h2, GoMap.lookup_set_ne _ _ _ _ h1]
  cases last.Labels <;> rfl

theorem upsertRevision_written (last : Secret) (credType : String) (creds : ConnectionInfo) :
    dataOf (upsertRevision last credType creds).Data "nats.creds" = some creds.Creds
      ∧ dataOf (upsertRevision last credType creds).Data "URLS" = some creds.URLs
      ∧ dataOf (upsertRevision last credType creds).Data "ACCOUNT_NAME"
          = some creds.AccountName
      ∧ labelOf (upsertRevision last credType creds).Labels natsTowerSecretLabelKey = "true"
      ∧ labelOf (upsertRevision last credType creds).Labels natsTowerCredentialTypeLabelKey
          = credType := by
  unfold upsertRevision dataOf labelOf
  simp only []
  refine ⟨?_, ?_, ?_, ?_, ?_⟩
  · rw [GoMap.lookup_set_ne _ _ _ _ (by decide), GoMap.lookup_set_ne _ _ _ _ (by decide)]
    simp only [secretCredentialsKey, GoMap.lookup_set_self, Option.getD_some]
  · rw [GoMap.lookup_set_ne _ _ _ _ (by decide)]
    simp only [GoMap.lookup_set_self, Option.getD_some]
  · simp only [GoMap.lookup_set_self, Option.getD_some]
  · rw [GoMap.lookup_set_ne _ _ _ _ (by decide)]
    simp only [GoMap.lookup_set_self, Option.getD_some]
  · simp only [GoMap.lookup_set_self, Option.getD_some]

/-- C8: for a non-Delete event that passes the label and installation checks, when the secret
lookup returns a secret whose `nats.creds` entry is absent or empty and `CreateOrGetUserAuth`
succeeds with a bundle, the handler's result is that of `UpsertSecret` with the fetched secret
as last revision; after the call it sends exactly one secret to `Update` and records one
notification, and no `Create` is issued. The secret sent to `Update` keeps the name, namespace
and type of the fetched one, every data entry other than `nats.creds`, `URLS`, `ACCOUNT_NAME`
and every label other than the managed-secret and credential-type labels; those three data
keys hold the bundle, the managed-secret label is "true" and the credential-type label is
"user". -/
theorem getNACKAccountHandler_update_in_place (env : Env)
    (natsTowerOperator : NATSTowerOperator) (ev : EventItem) (obj : Account)
    (tr tr0 tr1 : Trace) (installationPublicKey : String) (secret : Secret)
    (creds : ConnectionInfo)
    (hdel : ev.ActionType ≠ DeleteAction)
    (hsecret : labelOf obj.Labels natsTowerSecretLabelKey ≠ "")
    (hinst : accountInstallation natsTowerOperator obj tr = .ok (installationPublicKey, tr0))
    (hget : env.secretsGet tr0 obj.Namespace (labelOf obj.Labels natsTowerSecretLabelKey)
      = .ok secret)
    (hmiss : dataOf secret.Data secretCredentialsKey = none
      ∨ (dataOf secret.Data secretCredentialsKey).toStr = "")
    (hauth : CreateOrGetUserAuth env natsTowerOperator.natsTowerClient
        (tr0 ++ [Effect.secretsGet obj.Namespace (labelOf obj.Labels natsTowerSecretLabelKey)])
        obj.Namespace installationPublicKey obj.Name
        (labelOf obj.Labels natsTowerSecretLabelKey)
        (getNACKAccountUserDescription natsTowerOperator.towerOperatorConfig.ClusterID
          (some obj))
      = (.ok creds, tr1)) :
    getNACKAccountHandler env natsTowerOperator ev obj tr
        = UpsertSecret env tr1 obj obj.Namespace (labelOf obj.Labels natsTowerSecretLabelKey)
            "user" creds (some secret)
      ∧ (∃ reqs : List Request,
          tr1 = tr0 ++ [Effect.secretsGet obj.Namespace
                  (labelOf obj.Labels natsTowerSecretLabelKey),
                Effect.callCreateOrGetUserAuth obj.Namespace installationPublicKey obj.Name
                  (labelOf obj.Labels natsTowerSecretLabelKey)
                  (getNACKAccountUserDescription
                    natsTowerOperator.towerOperatorConfig.ClusterID (some obj))]
              ++ reqs.map Effect.httpDo)
      ∧ (∃ t r f a, (getNACKAccountHandler env natsTowerOperator ev obj tr).2
          = tr1 ++ [Effect.secretsUpdate obj.Namespace (upsertRevision secret "user" creds),
              Effect.event obj t r f a])
      ∧ (upsertRevision secret "user" creds).Name = secret.Name
      ∧ (upsertRevision secret "user" creds).Namespace = secret.Namespace
      ∧ (upsertRevision secret "user" creds).Type_ = secret.Type_
      ∧ (∀ k, k ≠ "nats.creds" → k ≠ "URLS" → k ≠ "ACCOUNT_NAME" →
          List.lookup k ((upsertRevision secret "user" creds).Data.getD [])
            = List.lookup k (secret.Data.getD []))
      ∧ (∀ k, k ≠ natsTowerSecretLabelKey → k ≠ natsTowerCredentialTypeLabelKey →
          List.lookup k ((upsertRevision secret "user" creds).Labels.getD [])
            = List.lookup k (secret.Labels.getD []))
      ∧ dataOf (upsertRevision secret "user" creds).Data "nats.creds" = some creds.Creds
      ∧ dataOf (upsertRevision secret "user" creds).Data "URLS" = some creds.URLs
      ∧ dataOf (upsertRevision secret "user" creds).Data "ACCOUNT_NAME"
          = some creds.AccountName
      ∧ labelOf (upsertRevision secret "user" creds).Labels natsTowerSecretLabelKey = "true"
      ∧ labelOf (upsertRevision secret "user" creds).Labels natsTowerCredentialTypeLabelKey
          = "user" := by
  have hno : ¬ (dataOf secret.Data secretCredentialsKey ≠ none
      ∧ (dataOf secret.Data secretCredentialsKey).toStr ≠ "") := by
    intro ⟨h1, h2⟩
    rcases hmiss with h | h
    · exact h1 h
    · exact h2 h
  have hres : getNACKAccountHandler env natsTowerOperator ev obj tr
      = UpsertSecret env tr1 obj obj.Namespace (labelOf obj.Labels natsTowerSecretLabelKey)
          "user" creds (some secret) := by
    rw [getNACKAccountHandler_reconcile env natsTowerOperator ev obj tr tr0
      installationPublicKey hsecret hinst]
    unfold accountHandlerReconcile
    rw [if_neg hdel]
    simp only [hget, accountCredentialType_eq, if_true, if_neg hno, hauth]
  obtain ⟨w1, w2, w3, w4, w5⟩ := upsertRevision_written secret "user" creds
  refine ⟨hres, ?_, ?_, rfl, rfl, rfl, ?_, ?_, w1, w2, w3, w4, w5⟩
  · obtain ⟨reqs, hreqs⟩ := CreateOrGetUserAuth_trace _ _ _ _ _ _ _ _ _ _ hauth
    exact ⟨reqs, by rw [hreqs]; simp⟩
  · rw [hres]
    unfold UpsertSecret
    simp only []
    split
    · exact ⟨_, _, _, _, by rw [List.append_assoc]; rfl⟩
    · exact ⟨_, _, _, _, by rw [List.append_assoc]; rfl⟩
  · intro k h1 h2 h3
    exact upsertRevision_data_other secret "user" creds k h1 h2 h3
  · intro k h1 h2
    exact upsertRevision_labels_other secret "user" creds k h1 h2

/-- Witness for C8: an Update event for an account whose secret exists without credentials;
the secret is updated and keeps its own label and data entry. -/
theorem getNACKAccountHandler_update_in_place_witness :
    getNACKAccountHandler (scenarioEnv scenarioUnpopulated) demoOperator
        { Key := "app-ns/team-a", ActionType := UpdateAction } demoAccount []
      = UpsertSecret (scenarioEnv scenarioUnpopulated)
          (CreateOrGetUserAuth (scenarioEnv scenarioUnpopulated) demoClient
            [Effect.secretsGet "app-ns" "creds1"] "app-ns" "inst-A" "team-a" "creds1"
            (getNACKAccountUserDescription "cluster-1" (some demoAccount))).2
          demoAccount "app-ns" "creds1" "user"
          { Creds := "CREDS", URLs := "nats://demo:4222", AccountName := "team-a" }
          (some unpopulatedSecret) :=
  (getNACKAccountHandler_update_in_place (scenarioEnv scenarioUnpopulated) demoOperator
    { Key := "app-ns/team-a", ActionType := UpdateAction } demoAccount [] [] _ "inst-A"
    unpopulatedSecret
    { Creds := "CREDS", URLs := "nats://demo:4222", AccountName := "team-a" }
    (by decide) (by decide) rfl rfl (Or.inl rfl) rfl).1


/-! ## C5: selector gating -/

/-- C5: for a decodable object and any event item (any action type):
* when the selector query is empty or evaluates to true, `objectHandler` invokes the callback
  exactly once (the invocation record grows by this one item and the world is the one the
  callback returns), and returns nil when the callback returns nil;
* when the query is non-empty and evaluates to false, `objectHandler` returns nil and leaves
  the state as it was: the callback is not invoked;
* `syncHandler` behaves the same way for a key the cache resolves to that object. -/
theorem objectHandler_selector_gating {U T σ : Type} (c : Controller U T σ) (u : U) (obj : T)
    (item : EventItem) (st : ControllerState σ)
    (hdec : c.fromUnstructured u = .ok obj) :
    ((c.resource.Selector.Query = ""
        ∨ c.parseBool c.resource.Selector.Query u = .ok true) →
      (objectHandler c (.unstructured u) item st).2.invoked = st.invoked ++ [item]
      ∧ (objectHandler c (.unstructured u) item st).2.world = (c.cb item obj st.world).2
      ∧ ((c.cb item obj st.world).1 = none →
          (objectHandler c (.unstructured u) item st).1 = none))
    ∧ ((c.resource.Selector.Query ≠ ""
        ∧ c.parseBool c.resource.Selector.Query u = .ok false) →
      objectHandler c (.unstructured u) item st = (none, st))
    ∧ (c.getByKey st.world item.Key = .ok (some (.unstructured u)) →
      ((c.resource.Selector.Query = ""
          ∨ c.parseBool c.resource.Selector.Query u = .ok true) →
        (syncHandler c item st).2.invoked = st.invoked ++ [item]
        ∧ (syncHandler c item st).2.world = (c.cb item obj st.world).2
        ∧ ((c.cb item obj st.world).1 = none → (syncHandler c item st).1 = none))
      ∧ ((c.resource.Selector.Query ≠ ""
          ∧ c.parseBool c.resource.Selector.Query u = .ok false) →
        syncHandler c item st = (none, st))) := by
  have hpass : (c.resource.Selector.Query = ""
        ∨ c.parseBool c.resource.Selector.Query u = .ok true) →
      objectHandler c (.unstructured u) item st =
        (match c.cb item obj st.world with
          | (some err, w) =>
            (some (.other ("error handling object with key \x27" ++ item.Key ++ "\x27: "
              ++ err.errorString)),
             { st with world := w, invoked := st.invoked ++ [item] })
          | (none, w) => (none, { st with world := w, invoked := st.invoked ++ [item] })) := by
    intro h
    unfold objectHandler
    simp only [hdec]
    rcases h with h | h
    · simp only [h, ne_eq, not_true_eq_false, if_false]
    · by_cases hq : c.resource.Selector.Query = ""
      · simp only [hq, ne_eq, not_true_eq_false, if_false]
      · simp only [ne_eq, hq, not_false_eq_true, if_true, h]
  have hblock : (c.resource.Selector.Query ≠ ""
        ∧ c.parseBool c.resource.Selector.Query u = .ok false) →
      objectHandler c (.unstructured u) item st = (none, st) := by
    intro ⟨hq, h⟩
    unfold objectHandler
    simp only [hdec, ne_eq, hq, not_false_eq_true, if_true, h]
  have hobj : (c.resource.Selector.Query = ""
        ∨ c.parseBool c.resource.Selector.Query u = .ok true) →
      (objectHandler c (.unstructured u) item st).2.invoked = st.invoked ++ [item]
      ∧ (objectHandler c (.unstructured u) item st).2.world = (c.cb item obj st.world).2
      ∧ ((c.cb item obj st.world).1 = none →
          (objectHandler c (.unstructured u) item st).1 = none) := by
    intro h
    rw [hpass h]
    rcases hcb : c.cb item obj st.world with ⟨r, w⟩
    cases r with
    | none => exact ⟨rfl, rfl, fun _ => rfl⟩
    | some e => exact ⟨rfl, rfl, fun hn => by cases hn⟩
  refine ⟨hobj, hblock, ?_⟩
  intro hcache
  constructor
  · intro h
    obtain ⟨h1, h2, h3⟩ := hobj h
    unfold syncHandler
    simp only [hcache]
    rcases ho : objectHandler c (.unstructured u) item st with ⟨r, st1⟩
    rw [ho] at h1 h2 h3
    cases r with
    | none => exact ⟨h1, h2, fun _ => rfl⟩
    | some e => exact ⟨h1, h2, fun hn => by cases h3 hn⟩
  · intro h
    unfold syncHandler
    simp only [hcache, hblock h]

/-- Witness for C5: with an empty query and with the query `true` the toy callback runs once;
with the query `false` it does not run and the result is nil. -/
theorem objectHandler_selector_gating_witness :
    (objectHandler (demoController "" false) (.unstructured "app1") demoItem
        (demoState [])).2.invoked = [demoItem]
      ∧ (syncHandler (demoController "true" false) demoItem (demoState [])).2.invoked
          = [demoItem]
      ∧ (syncHandler (demoController "false" false) demoItem (demoState [])).1 = none
      ∧ (syncHandler (demoController "false" false) demoItem (demoState [])).2.invoked = [] :=
  ⟨((objectHandler_selector_gating (demoController "" false) "app1" "app1" demoItem
      (demoState []) rfl).1 (Or.inl rfl)).1,
   (((objectHandler_selector_gating (demoController "true" false) "app1" "app1" demoItem
      (demoState []) rfl).2.2 rfl).1 (Or.inr rfl)).1,
   congrArg Prod.fst
    (((objectHandler_selector_gating (demoController "false" false) "app1" "app1" demoItem
      (demoState []) rfl).2.2 rfl).2 ⟨by decide, rfl⟩),
   congrArg (fun r => r.2.invoked)
    (((objectHandler_selector_gating (demoController "false" false) "app1" "app1" demoItem
      (demoState []) rfl).2.2 rfl).2 ⟨by decide, rfl⟩)⟩


/-! ## C2: retry ceiling -/

theorem lookup_filter_key_ne {K V : Type} [DecidableEq K] (m : List (K × V)) (x y : K)
    (h : y ≠ x) :
    List.lookup y (m.filter (fun p => decide (p.1 ≠ x))) = List.lookup y m := by
  induction m with
  | nil => rfl
  | cons p rest ih =>
    obtain ⟨a, b⟩ := p
    by_cases hax : a = x
    · subst hax
      have hne : (y == a) = false := by simpa using h
      simp only [List.filter, List.lookup, hne, ne_eq, not_true_eq_false, decide_False]
      exact ih
    · have hf : decide (a ≠ x) = true := by simpa using hax
      simp only [List.filter, hf, List.lookup]
      rw [ih]

theorem syncHandler_cases {U T σ : Type} (c : Controller U T σ) (x : EventItem)
    (st : ControllerState σ) :
    (syncHandler c x st).2.workqueue = st.workqueue
      ∧ ((syncHandler c x st).2.invoked = st.invoked
        ∨ ∃ obj w, (syncHandler c x st).2.invoked = st.invoked ++ [x]
            ∧ ((syncHandler c x st).1 = none → (c.cb x obj w).1 = none)) := by
  unfold syncHandler
  split
  · exact ⟨rfl, Or.inl rfl⟩
  · exact ⟨rfl, Or.inl rfl⟩
  · next o hc =>
    have key : (objectHandler c o x st).2.workqueue = st.workqueue
        ∧ ((objectHandler c o x st).2.invoked = st.invoked
          ∨ ∃ obj w, (objectHandler c o x st).2.invoked = st.invoked ++ [x]
              ∧ ((objectHandler c o x st).1 = none → (c.cb x obj w).1 = none)) := by
      unfold objectHandler
      split
      · exact ⟨rfl, Or.inl rfl⟩
      · split
        · exact ⟨rfl, Or.inl rfl⟩
        · next structuredObj hdec =>
          simp only []
          split
          · exact ⟨rfl, Or.inl rfl⟩
          · exact ⟨rfl, Or.inl rfl⟩
          · split
            · next err w hcb =>
              exact ⟨rfl, Or.inr ⟨structuredObj, st.world, rfl, fun hn => by cases hn⟩⟩
            · next w hcb =>
              exact ⟨rfl, Or.inr ⟨structuredObj, st.world, rfl, fun _ => by rw [hcb]⟩⟩
    rcases ho : objectHandler c o x st with ⟨r, st1⟩
    rw [ho] at key
    cases r with
    | none => exact key
    | some e =>
      refine ⟨key.1, key.2.imp id ?_⟩
      rintro ⟨obj, w, h1, _⟩
      exact ⟨obj, w, h1, fun hn => by cases hn⟩

theorem WorkQueue.Done_failures (q : WorkQueue) (x : EventItem) :
    (q.Done x).failures = q.failures := by
  unfold WorkQueue.Done
  simp only []
  split <;> rfl

theorem WorkQueue.Add_failures (q : WorkQueue) (x : EventItem) :
    (q.Add x).failures = q.failures := by
  unfold WorkQueue.Add
  split
  · rfl
  · split
    · rfl
    · split <;> rfl

theorem WorkQueue.step_facts (q : WorkQueue) (x : EventItem) (rest : List EventItem)
    (hq : q.queue = x :: rest) :
    ∃ q1, q.Get = some (some x, q1) ∧ q1.failures = q.failures
      ∧ (q1.Done x).queue = rest
      ∧ ((q1.Forget x).Done x).queue = rest
      ∧ (∀ y, y ≠ x → ((q1.Forget x).Done x).NumRequeues y = q.NumRequeues y)
      ∧ (((q1.AddRateLimited x).Done x).queue = rest
          ∨ ((q1.AddRateLimited x).Done x).queue = rest ++ [x])
      ∧ ((q1.AddRateLimited x).Done x).NumRequeues x = q.NumRequeues x + 1
      ∧ (∀ y, y ≠ x → ((q1.AddRateLimited x).Done x).NumRequeues y = q.NumRequeues y) := by
  refine ⟨{ q with queue := rest, processing := q.processing ++ [x],
                   dirty := q.dirty.filter (fun y => y ≠ x) }, ?_, rfl, ?_, ?_, ?_, ?_, ?_, ?_⟩
  · unfold WorkQueue.Get
    rw [hq]
  · simp [WorkQueue.Done]
  · simp [WorkQueue.Done, WorkQueue.Forget]
  · intro y hy
    unfold WorkQueue.NumRequeues
    rw [WorkQueue.Done_failures]
    simp only [WorkQueue.Forget]
    rw [lookup_filter_key_ne _ _ _ hy]
  · unfold WorkQueue.AddRateLimited WorkQueue.Add
    by_cases hs : q.shuttingDown = true
    · left; simp [WorkQueue.Done, hs]
    · right; simp [WorkQueue.Done, hs]
  · unfold WorkQueue.NumRequeues
    rw [WorkQueue.Done_failures]
    unfold WorkQueue.AddRateLimited
    rw [WorkQueue.Add_failures]
    simp [List.lookup, WorkQueue.NumRequeues]
  · intro y hy
    unfold WorkQueue.NumRequeues
    rw [WorkQueue.Done_failures]
    unfold WorkQueue.AddRateLimited
    rw [WorkQueue.Add_failures]
    have hne : (y == x) = false := by simpa using hy
    simp only [List.lookup, hne]
    rw [lookup_filter_key_ne _ _ _ hy]

theorem processNextWorkItem_cases {U T σ : Type} (c : Controller U T σ)
    (st : ControllerState σ) :
    processNextWorkItem c st = none
      ∨ processNextWorkItem c st = some (false, st)
      ∨ ∃ x rest st1 ok, st.workqueue.queue = x :: rest
          ∧ processNextWorkItem c st = some (true, st1)
          ∧ (st1.invoked = st.invoked
              ∨ ∃ obj w, st1.invoked = st.invoked ++ [x]
                  ∧ (ok = true → (c.cb x obj w).1 = none))
          ∧ ((ok = true ∧ st1.workqueue.queue = rest
                ∧ ∀ y, y ≠ x → st1.workqueue.NumRequeues y = st.workqueue.NumRequeues y)
            ∨ (ok = false ∧ MaxNumRequeues ≤ st.workqueue.NumRequeues x
                ∧ st1.workqueue.queue = rest
                ∧ ∀ y, st1.workqueue.NumRequeues y = st.workqueue.NumRequeues y)
            ∨ (ok = false ∧ st.workqueue.NumRequeues x < MaxNumRequeues
                ∧ (st1.workqueue.queue = rest ∨ st1.workqueue.queue = rest ++ [x])
                ∧ st1.workqueue.NumRequeues x = st.workqueue.NumRequeues x + 1
                ∧ ∀ y, y ≠ x → st1.workqueue.NumRequeues y = st.workqueue.NumRequeues y)) := by
  cases hq : st.workqueue.queue with
  | nil =>
    unfold processNextWorkItem WorkQueue.Get
    rw [hq]
    simp only []
    by_cases hs : st.workqueue.shuttingDown = true
    · right; left; simp only [hs, if_true]
    · left
      have hs2 : st.workqueue.shuttingDown = false := by simpa using hs
      simp only [hs2, Bool.false_eq_true, if_false]
  | cons x rest =>
    right; right
    obtain ⟨q1, hget, hf1, hdone, hforget, hforgetN, hadd, haddN, haddO⟩ :=
      WorkQueue.step_facts st.workqueue x rest hq
    obtain ⟨hwq, hinv⟩ := syncHandler_cases c x { st with workqueue := q1 }
    have hN1 : ∀ y, q1.NumRequeues y = st.workqueue.NumRequeues y := by
      intro y; unfold WorkQueue.NumRequeues; rw [hf1]
    unfold processNextWorkItem
    rw [hget]
    simp only []
    rcases hs : syncHandler c x { st with workqueue := q1 } with ⟨r, st2⟩
    rw [hs] at hwq hinv
    simp only [] at hwq hinv
    cases r with
    | none =>
      refine ⟨x, rest, _, true, rfl, rfl, ?_, Or.inl ⟨rfl, ?_, ?_⟩⟩
      · exact hinv.imp id (fun ⟨obj, w, h1, h2⟩ => ⟨obj, w, h1, fun _ => h2 rfl⟩)
      · simp only [hwq]; exact hforget
      · intro y hy; simp only [hwq]; exact hforgetN y hy
    | some err =>
      simp only []
      by_cases hmax : st2.workqueue.NumRequeues x ≥ MaxNumRequeues
      · rw [if_pos hmax]
        refine ⟨x, rest, _, false, rfl, rfl, ?_, Or.inr (Or.inl ⟨rfl, ?_, ?_, ?_⟩)⟩
        · exact hinv.imp id (fun ⟨obj, w, h1, _⟩ => ⟨obj, w, h1, fun h => by cases h⟩)
        · rw [hwq, hN1] at hmax; exact hmax
        · simp only [hwq]; exact hdone
        · intro y
          simp only [hwq]
          unfold WorkQueue.NumRequeues
          rw [WorkQueue.Done_failures, hf1]
      · rw [if_neg hmax]
        refine ⟨x, rest, _, false, rfl, rfl, ?_, Or.inr (Or.inr ⟨rfl, ?_, ?_, ?_, ?_⟩)⟩
        · exact hinv.imp id (fun ⟨obj, w, h1, _⟩ => ⟨obj, w, h1, fun h => by cases h⟩)
        · rw [hwq, hN1] at hmax; omega
        · simp only [hwq]; exact hadd
        · simp only [hwq]; rw [haddN]
        · intro y hy; simp only [hwq]; rw [haddO y hy]

theorem processNextWorkItem_retry_inv {U T σ : Type} (c : Controller U T σ) (item : EventItem)
    (b : Nat) (hfail : ∀ obj w, (c.cb item obj w).1 ≠ none)
    (st st1 : ControllerState σ) (cont : Bool)
    (hstep : processNextWorkItem c st = some (cont, st1))
    (h1 : st.workqueue.queue.count item ≤ 1)
    (h2 : st.invoked.count item ≤ b + (MaxNumRequeues + 1))
    (h3 : item ∈ st.workqueue.queue → st.invoked.count item = b
      ∨ (st.invoked.count item ≤ b + st.workqueue.NumRequeues item
          ∧ st.workqueue.NumRequeues item ≤ MaxNumRequeues)) :
    st1.workqueue.queue.count item ≤ 1
      ∧ st1.invoked.count item ≤ b + (MaxNumRequeues + 1)
      ∧ (item ∈ st1.workqueue.queue → st1.invoked.count item = b
          ∨ (st1.invoked.count item ≤ b + st1.workqueue.NumRequeues item
              ∧ st1.workqueue.NumRequeues item ≤ MaxNumRequeues)) := by
  have hM : MaxNumRequeues = 4 := rfl
  rcases processNextWorkItem_cases c st with hn | hs | ⟨x, rest, st2, ok, hq, hp, hinv, hqueue⟩
  · rw [hn] at hstep; cases hstep
  · rw [hs] at hstep; cases hstep; exact ⟨h1, h2, h3⟩
  · rw [hp] at hstep
    cases hstep
    by_cases hx : x = item
    · subst hx
      have hrest : rest.count x = 0 := by
        rw [hq, List.count_cons_self] at h1; omega
      have hnotin : x ∉ rest := List.count_eq_zero.mp hrest
      have hin : x ∈ st.workqueue.queue := by rw [hq]; exact List.mem_cons_self _ _
      have h3a := h3 hin
      have hcnt : st1.invoked.count x ≤ st.invoked.count x + 1 := by
        rcases hinv with h | ⟨_, _, h, _⟩
        · rw [h]; omega
        · rw [h, List.count_append]; simp
      rcases hqueue with ⟨hok, hq1, _⟩ | ⟨_, hN, hq1, hN1⟩ | ⟨_, hN, hq1, hNx, _⟩
      · have hsame : st1.invoked = st.invoked := by
          rcases hinv with h | ⟨obj, w, _, h⟩
          · exact h
          · exact absurd (h hok) (hfail obj w)
        rw [hq1, hsame]
        exact ⟨by omega, h2, fun h => absurd h hnotin⟩
      · rw [hq1]
        refine ⟨by omega, ?_, fun h => absurd h hnotin⟩
        rcases h3a with h | ⟨h, h4⟩ <;> omega
      · refine ⟨?_, ?_, ?_⟩
        · rcases hq1 with h | h
          · rw [h]; omega
          · rw [h, List.count_append]; simp [hrest]
        · rcases h3a with h | ⟨h, h4⟩ <;> omega
        · intro _
          right
          rw [hNx]
          rcases h3a with h | ⟨h, h4⟩ <;> omega
    · have hcnt : st1.invoked.count item = st.invoked.count item := by
        rcases hinv with h | ⟨_, _, h, _⟩
        · rw [h]
        · rw [h, List.count_append]
          simp [List.count_cons, hx]
      have hNitem : st1.workqueue.NumRequeues item = st.workqueue.NumRequeues item := by
        rcases hqueue with ⟨_, _, h⟩ | ⟨_, _, _, h⟩ | ⟨_, _, _, _, h⟩
        · exact h item (Ne.symm hx)
        · exact h item
        · exact h item (Ne.symm hx)
      have hq0 : st.workqueue.queue.count item = rest.count item := by
        rw [hq, List.count_cons]; simp [hx]
      have hqcnt : st1.workqueue.queue.count item = rest.count item := by
        rcases hqueue with ⟨_, h, _⟩ | ⟨_, _, h, _⟩ | ⟨_, _, h | h, _⟩
        · rw [h]
        · rw [h]
        · rw [h]
        · rw [h, List.count_append]; simp [List.count_cons, hx]
      refine ⟨by omega, by omega, ?_⟩
      intro hin
      have hin0 : item ∈ st.workqueue.queue := by
        have : 0 < st1.workqueue.queue.count item := List.count_pos_iff.mpr hin
        exact List.count_pos_iff.mp (by omega)
      rw [hcnt, hNitem]
      exact h3 hin0

theorem runWorker_retry_inv {U T σ : Type} (c : Controller U T σ) (item : EventItem)
    (b : Nat) (hfail : ∀ obj w, (c.cb item obj w).1 ≠ none) (n : Nat) :
    ∀ st : ControllerState σ,
      st.workqueue.queue.count item ≤ 1 →
      st.invoked.count item ≤ b + (MaxNumRequeues + 1) →
      (item ∈ st.workqueue.queue → st.invoked.count item = b
        ∨ (st.invoked.count item ≤ b + st.workqueue.NumRequeues item
            ∧ st.workqueue.NumRequeues item ≤ MaxNumRequeues)) →
      (runWorker c n st).workqueue.queue.count item ≤ 1
        ∧ (runWorker c n st).invoked.count item ≤ b + (MaxNumRequeues + 1)
        ∧ (item ∈ (runWorker c n st).workqueue.queue → (runWorker c n st).invoked.count item = b
            ∨ ((runWorker c n st).invoked.count item
                  ≤ b + (runWorker c n st).workqueue.NumRequeues item
                ∧ (runWorker c n st).workqueue.NumRequeues item ≤ MaxNumRequeues)) := by
  induction n with
  | zero => intro st h1 h2 h3; exact ⟨h1, h2, h3⟩
  | succ n ih =>
    intro st h1 h2 h3
    unfold runWorker
    cases hp : processNextWorkItem c st with
    | none => exact ⟨h1, h2, h3⟩
    | some r =>
      obtain ⟨cont, st1⟩ := r
      have hstep := processNextWorkItem_retry_inv c item b hfail st st1 cont hp h1 h2 h3
      cases cont with
      | false => exact hstep
      | true => exact ih st1 hstep.1 hstep.2.1 hstep.2.2

theorem runWorker_invoked_from_queue {U T σ : Type} (c : Controller U T σ) (n : Nat) :
    ∀ st : ControllerState σ, ∃ added : List EventItem,
      (runWorker c n st).invoked = st.invoked ++ added
        ∧ (∀ y ∈ added, y ∈ st.workqueue.queue)
        ∧ (∀ y ∈ (runWorker c n st).workqueue.queue, y ∈ st.workqueue.queue) := by
  induction n with
  | zero => intro st; exact ⟨[], by simp [runWorker], by simp, fun y h => h⟩
  | succ n ih =>
    intro st
    unfold runWorker
    rcases processNextWorkItem_cases c st with hn | hs | ⟨x, rest, st1, ok, hq, hp, hinv, hqueue⟩
    · rw [hn]; exact ⟨[], by simp, by simp, fun y h => h⟩
    · rw [hs]; exact ⟨[], by simp, by simp, fun y h => h⟩
    · rw [hp]
      simp only []
      obtain ⟨added, ha1, ha2, ha3⟩ := ih st1
      have hsub : ∀ y ∈ st1.workqueue.queue, y ∈ st.workqueue.queue := by
        intro y hy
        rw [hq]
        rcases hqueue with ⟨_, h, _⟩ | ⟨_, _, h, _⟩ | ⟨_, _, h | h, _⟩
        · rw [h] at hy; exact List.mem_cons_of_mem _ hy
        · rw [h] at hy; exact List.mem_cons_of_mem _ hy
        · rw [h] at hy; exact List.mem_cons_of_mem _ hy
        · rw [h] at hy
          rcases List.mem_append.mp hy with h1 | h1
          · exact List.mem_cons_of_mem _ h1
          · rw [List.mem_singleton.mp h1]; exact List.mem_cons_self _ _
      rcases hinv with h | ⟨_, _, h, _⟩
      · exact ⟨added, by rw [ha1, h], fun y hy => hsub y (ha2 y hy),
          fun y hy => hsub y (ha3 y hy)⟩
      · refine ⟨x :: added, by rw [ha1, h]; simp, ?_, fun y hy => hsub y (ha3 y hy)⟩
        intro y hy
        rcases List.mem_cons.mp hy with h1 | h1
        · rw [h1, hq]; exact List.mem_cons_self _ _
        · exact hsub y (ha2 y h1)

theorem countP_key_eq_count (item : EventItem) (added : List EventItem)
    (h : ∀ y ∈ added, y.Key = item.Key → y = item) :
    added.countP (fun y => decide (y.Key = item.Key)) = added.count item := by
  induction added with
  | nil => rfl
  | cons a rest ih =>
    have ih1 := ih (fun y hy => h y (List.mem_cons_of_mem _ hy))
    by_cases ha : a = item
    · subst ha
      simp [List.countP_cons, ih1]
    · have hk : a.Key ≠ item.Key := fun hk => ha (h a (List.mem_cons_self _ _) hk)
      simp [List.countP_cons, List.count_cons, ih1, hk, ha]

/-- C2 as stated fails: the bound of 5 does not hold for a key. The toy callback fails on
every invocation. An object is added and then updated, which queues the Create item and the
Update item of its key. The worker then invokes the callback ten times for that key, more than
`MaxNumRequeues + 1 = 5`, before both items are dropped. -/
theorem runWorker_key_invoked_ten_times :
    (demoController "" true).cb = (fun _ obj w => (some (Error.other "boom"), w ++ [obj]))
      ∧ (NewController.UpdateFunc demoKeyFunc (.unstructured "app1") (.unstructured "app1")
          (NewController.AddFunc demoKeyFunc (.unstructured "app1")
            (demoState []))).workqueue.queue
          = [{ Key := "app-ns/app1", ActionType := CreateAction },
             { Key := "app-ns/app1", ActionType := UpdateAction }]
      ∧ (runWorker (demoController "" true) 20
          (NewController.UpdateFunc demoKeyFunc (.unstructured "app1") (.unstructured "app1")
            (NewController.AddFunc demoKeyFunc (.unstructured "app1")
              (demoState [])))).invoked.countP
            (fun y => decide (y.Key = "app-ns/app1")) = 10
      ∧ MaxNumRequeues + 1 = 5
      ∧ (runWorker (demoController "" true) 20
          (NewController.UpdateFunc demoKeyFunc (.unstructured "app1") (.unstructured "app1")
            (NewController.AddFunc demoKeyFunc (.unstructured "app1")
              (demoState [])))).workqueue.queue = [] := by
  refine ⟨rfl, by rfl, by rfl, by rfl, by rfl⟩

/-- C2, amended: with `MaxNumRequeues = 4`, let the callback fail on every invocation for a
work item `{key, action}` that is queued at most once. Whatever else the queue holds, and for
any number of `processNextWorkItem` rounds of the worker, the callback is invoked for that
item at most `MaxNumRequeues + 1 = 5` more times; once it has been invoked 5 times the item is
no longer in the work queue: it was dropped, not re-added. The bound is per item, not per key:
it holds for the key when the item is the only queued item with its key, and then at most 5
more invocations carry that key. -/
theorem runWorker_retry_ceiling {U T σ : Type} (c : Controller U T σ) (item : EventItem)
    (st : ControllerState σ) (n : Nat)
    (hfail : ∀ obj w, (c.cb item obj w).1 ≠ none)
    (hqueued : st.workqueue.queue.count item ≤ 1) :
    (runWorker c n st).invoked.count item ≤ st.invoked.count item + (MaxNumRequeues + 1)
      ∧ MaxNumRequeues + 1 = 5
      ∧ ((runWorker c n st).invoked.count item = st.invoked.count item + (MaxNumRequeues + 1) →
          item ∉ (runWorker c n st).workqueue.queue)
      ∧ ((∀ y ∈ st.workqueue.queue, y.Key = item.Key → y = item) →
          (runWorker c n st).invoked.countP (fun y => decide (y.Key = item.Key))
            ≤ st.invoked.countP (fun y => decide (y.Key = item.Key)) + (MaxNumRequeues + 1)) := by
  have hM : MaxNumRequeues = 4 := rfl
  obtain ⟨_, h2, h3⟩ := runWorker_retry_inv c item (st.invoked.count item) hfail n st hqueued
    (by omega) (fun _ => Or.inl rfl)
  refine ⟨h2, by rw [hM], ?_, ?_⟩
  · intro heq hin
    rcases h3 hin with h | ⟨h, h4⟩ <;> omega
  · intro honly
    obtain ⟨added, ha1, ha2, _⟩ := runWorker_invoked_from_queue c n st
    have hc := countP_key_eq_count item added (fun y hy hk => honly y (ha2 y hy) hk)
    rw [ha1, List.count_append] at h2
    rw [ha1, List.countP_append, hc]
    omega

/-- Witness for C2: the toy controller with a callback that always fails and the item queued
once. After ten rounds the callback has run exactly five times for the item, the queue is
empty and the failure count stands at four. -/
theorem runWorker_retry_ceiling_witness :
    (runWorker (demoController "" true) 10 (demoState [demoItem])).invoked.count demoItem
        ≤ 0 + (MaxNumRequeues + 1)
      ∧ (runWorker (demoController "" true) 10 (demoState [demoItem])).invoked
          = [demoItem, demoItem, demoItem, demoItem, demoItem]
      ∧ (runWorker (demoController "" true) 10 (demoState [demoItem])).workqueue.queue = []
      ∧ (runWorker (demoController "" true) 10 (demoState [demoItem])).workqueue.NumRequeues
          demoItem = 4 :=
  ⟨(runWorker_retry_ceiling (demoController "" true) demoItem (demoState [demoItem]) 10
      (fun _ _ => by simp [demoController]) (by decide)).1, by rfl, by rfl, by rfl⟩

/-! ## C11: composite issuance result -/

theorem NewRequestWithContext_error (env : Env) (m u b : String) (e : Error)
    (h : NewRequestWithContext env m u b = .error e) : ∃ msg, e = .other msg := by
  unfold NewRequestWithContext at h
  split at h
  · cases h; exact ⟨_, rfl⟩
  · cases h

theorem getUser_sent (env : Env) (c : NATSTowerClientConfig) (tr tr1 : Trace)
    (accountID username : String) (r : Except Error user)
    (h : getUser env c tr accountID username = (r, tr1))
    (hr : (∃ u, r = .ok u) ∨ r = .error .ErrUserNotFound) :
    ∃ req : Request, req.Method = "GET" ∧
      req.URL = c.NATSTowerURL ++ "/api/collections/nats_auth_users/records" ∧
      tr1 = tr ++ [Effect.httpDo req] := by
  rcases getUser_trace _ _ _ _ _ _ _ h with ⟨e, he, htr⟩ | hsent
  · exfalso
    unfold getUser at h
    cases hn : NewRequestWithContext env "GET"
        (c.NATSTowerURL ++ "/api/collections/nats_auth_users/records") "" with
    | error e1 =>
      obtain ⟨msg, hmsg⟩ := NewRequestWithContext_error _ _ _ _ _ hn
      rw [hn] at h
      simp only [Prod.mk.injEq] at h
      rcases hr with ⟨u, hu⟩ | hu
      · rw [hu] at h; cases h.1
      · rw [hu, hmsg] at h; cases h.1
    | ok req =>
      rw [hn] at h
      simp only [] at h
      have ht := doJSONRequest_trace env c tr
        { req with Query :=
          [("filter", "(account=\x27" ++ accountID ++ "\x27 && name=\x27" ++ username
            ++ "\x27)"), ("perPage", "1"), ("fields", "creds,id")] } (some env.decodeUsers)
      have htr1 : ∃ x, tr1 = tr ++ [x] := by
        generalize doJSONRequest env c tr _ (some env.decodeUsers) = d at h ht
        obtain ⟨res, t⟩ := d
        simp only [] at ht
        have ht1 : tr1 = t := by
          cases res with
          | error e2 => simp only [Prod.mk.injEq] at h; exact h.2.symm
          | ok resp =>
            simp only [] at h
            split at h <;> simp only [Prod.mk.injEq] at h <;> exact h.2.symm
        exact ⟨_, ht1.trans ht⟩
      obtain ⟨x, hx⟩ := htr1
      rw [htr] at hx
      have hlen := congrArg List.length hx
      simp at hlen
  · exact hsent

theorem createUser_post (env : Env) (c : NATSTowerClientConfig) (tr tr1 : Trace)
    (accountID username description : String) (r : Except Error user)
    (h : createUser env c tr accountID username description = (r, tr1)) :
    tr1 = tr ∨ ∃ req : Request, req.Method = "POST" ∧
      req.URL = c.NATSTowerURL ++ "/api/collections/nats_auth_users/records" ∧
      tr1 = tr ++ [Effect.httpDo req] := by
  unfold createUser at h
  cases hn : NewRequestWithContext env "POST"
      (c.NATSTowerURL ++ "/api/collections/nats_auth_users/records")
      ("\x7b\"account\":\"" ++ accountID ++ "\",\"name\":\"" ++ username
        ++ "\",\"description\":\"" ++ description ++ "\"\x7d") with
  | error e =>
    rw [hn] at h
    simp only [Prod.mk.injEq] at h
    exact Or.inl h.2.symm
  | ok req =>
    rw [hn] at h
    have hr := NewRequestWithContext_ok _ _ _ _ _ hn
    subst hr
    simp only [] at h
    have ht := doJSONRequest_trace env c tr
      { Method := "POST", URL := c.NATSTowerURL ++ "/api/collections/nats_auth_users/records",
        Query := [("fields", "creds,id")],
        Header := headerSet [] "Content-Type" "application/json",
        Body := "\x7b\"account\":\"" ++ accountID ++ "\",\"name\":\"" ++ username
          ++ "\",\"description\":\"" ++ description ++ "\"\x7d" } (some env.decodeUser)
    generalize doJSONRequest env c tr _ (some env.decodeUser) = d at h ht
    obtain ⟨res, t⟩ := d
    simp only [] at ht
    have ht1 : tr1 = t := by
      cases res with
      | error e2 => simp only [Prod.mk.injEq] at h; exact h.2.symm
      | ok resp => simp only [Prod.mk.injEq] at h; exact h.2.symm
    exact Or.inr ⟨_, rfl, rfl, ht1.trans ht⟩

/-- C11: when the operator and account lookups succeed and the access check answers true,
the trace after the access check is the entry marker followed by exactly three GET lookups in
the order operators, accounts, access; the user lookup comes next, and then
* if it finds a user, the call succeeds with that user's creds, the operator's url and the
  account's name, and the trace ends with the user lookup: create-user is not called;
* if it reports `ErrUserNotFound`, the user lookup was sent, the result is that of one
  `createUser` call made right after it (its creds, the operator's url and the account's name
  on success, its error otherwise), and that call adds at most one request, a POST to the users
  collection;
* if it fails with any other error, that error is returned and create-user is not called. -/
theorem CreateOrGetUserAuth_composite (env : Env) (c : NATSTowerClientConfig) (tr : Trace)
    (ns installationPublicKey accountName name description : String)
    (op : operator) (acc : account) (tr1 tr2 tr3 : Trace)
    (hop : getOperator env c
      (tr ++ [Effect.callCreateOrGetUserAuth ns installationPublicKey accountName name
        description]) installationPublicKey = (.ok op, tr1))
    (hacc : getAccount env c tr1 op.ID accountName = (.ok acc, tr2))
    (hallow : accessAllowed env c tr2 c.ClusterID ns acc.ID = (.ok true, tr3)) :
    (∃ r1 r2 r3 : Request,
        tr3 = tr ++ [Effect.callCreateOrGetUserAuth ns installationPublicKey accountName name
          description, Effect.httpDo r1, Effect.httpDo r2, Effect.httpDo r3]
        ∧ r1.Method = "GET" ∧ r2.Method = "GET" ∧ r3.Method = "GET"
        ∧ r1.URL = c.NATSTowerURL ++ "/api/collections/nats_auth_operators/records"
        ∧ r2.URL = c.NATSTowerURL ++ "/api/collections/nats_auth_accounts/records"
        ∧ r3.URL = c.NATSTowerURL ++ "/api/collections/nats_auth_k8s_access/records")
      ∧ (∀ u tr4, getUser env c tr3 acc.ID name = (.ok u, tr4) →
          CreateOrGetUserAuth env c tr ns installationPublicKey accountName name description
              = (.ok { Creds := u.Creds, URLs := op.URLs, AccountName := acc.Name }, tr4)
            ∧ ∃ r4 : Request, tr4 = tr3 ++ [Effect.httpDo r4] ∧ r4.Method = "GET"
                ∧ r4.URL = c.NATSTowerURL ++ "/api/collections/nats_auth_users/records")
      ∧ (∀ tr4, getUser env c tr3 acc.ID name = (.error .ErrUserNotFound, tr4) →
          (∃ r4 : Request, tr4 = tr3 ++ [Effect.httpDo r4] ∧ r4.Method = "GET"
              ∧ r4.URL = c.NATSTowerURL ++ "/api/collections/nats_auth_users/records")
            ∧ CreateOrGetUserAuth env c tr ns installationPublicKey accountName name
                description
              = (match createUser env c tr4 acc.ID name description with
                  | (.ok u, tr5) =>
                    (.ok { Creds := u.Creds, URLs := op.URLs, AccountName := acc.Name }, tr5)
                  | (.error e, tr5) => (.error e, tr5))
            ∧ ((createUser env c tr4 acc.ID name description).2 = tr4
                ∨ ∃ r5 : Request, r5.Method = "POST"
                    ∧ r5.URL = c.NATSTowerURL ++ "/api/collections/nats_auth_users/records"
                    ∧ (createUser env c tr4 acc.ID name description).2
                        = tr4 ++ [Effect.httpDo r5]))
      ∧ (∀ e tr4, getUser env c tr3 acc.ID name = (.error e, tr4) → e ≠ .ErrUserNotFound →
          CreateOrGetUserAuth env c tr ns installationPublicKey accountName name description
            = (.error e, tr4)) := by
  refine ⟨?_, ?_, ?_, ?_⟩
  · rcases getOperator_trace _ _ _ _ _ _ hop with ⟨e, he, _⟩ | ⟨r1, hm1, hu1, ht1⟩
    · cases he
    rcases getAccount_trace _ _ _ _ _ _ _ hacc with ⟨e, he, _⟩ | ⟨r2, hm2, hu2, ht2⟩
    · cases he
    rcases accessAllowed_trace _ _ _ _ _ _ _ _ hallow with ⟨e, he, _⟩ | ⟨r3, hm3, hu3, ht3⟩
    · cases he
    refine ⟨r1, r2, r3, ?_, hm1, hm2, hm3, hu1, hu2, hu3⟩
    rw [ht3, ht2, ht1]
    simp
  · intro u tr4 husr
    constructor
    · unfold CreateOrGetUserAuth
      simp only [hop, hacc, hallow, husr]
    · obtain ⟨r4, hm, hu, ht⟩ := getUser_sent _ _ _ _ _ _ _ husr (Or.inl ⟨u, rfl⟩)
      exact ⟨r4, ht, hm, hu⟩
  · intro tr4 husr
    refine ⟨?_, ?_, ?_⟩
    · obtain ⟨r4, hm, hu, ht⟩ := getUser_sent _ _ _ _ _ _ _ husr (Or.inr rfl)
      exact ⟨r4, ht, hm, hu⟩
    · unfold CreateOrGetUserAuth
      simp only [hop, hacc, hallow, husr, ne_eq, not_true_eq_false, if_false]
      rcases createUser env c tr4 acc.ID name description with ⟨r, t⟩
      cases r <;> rfl
    · rcases hcu : createUser env c tr4 acc.ID name description with ⟨r, t⟩
      exact createUser_post _ _ _ _ _ _ _ _ hcu
  · intro e tr4 husr hne
    unfold CreateOrGetUserAuth
    simp only [hop, hacc, hallow, husr, ne_eq, hne, not_false_eq_true, if_true]

/-- Witness for C11: the service knows operator and account and grants access, the user does
not exist and is created; the bundle carries the created user's creds. -/
theorem CreateOrGetUserAuth_composite_witness :
    (CreateOrGetUserAuth (scenarioEnv scenarioFresh) demoClient [] "app-ns" "OPK" "team-a"
        "creds1" "desc").1
      = .ok { Creds := "CREDS", URLs := "nats://demo:4222", AccountName := "team-a" } :=
  (congrArg Prod.fst
    ((CreateOrGetUserAuth_composite (scenarioEnv scenarioFresh) demoClient [] "app-ns" "OPK"
      "team-a" "creds1" "desc" { URLs := "nats://demo:4222", ID := "op1" }
      { ID := "acc1", Name := "team-a", PublicKey := "APK" } _ _ _ rfl rfl rfl).2.2.1 _
      rfl).2.1).trans rfl

/-! ## C12: a cache miss is a no-op -/

theorem lookup_filter_key_self {K V : Type} [DecidableEq K] (m : List (K × V)) (x : K) :
    List.lookup x (m.filter (fun p => decide (p.1 ≠ x))) = none := by
  induction m with
  | nil => rfl
  | cons p rest ih =>
    obtain ⟨a, b⟩ := p
    by_cases hax : a = x
    · subst hax
      simp only [List.filter, ne_eq, not_true_eq_false, decide_False]
      exact ih
    · have hf : decide (a ≠ x) = true := by simpa using hax
      have hne : (x == a) = false := by simpa using (Ne.symm hax)
      simp only [List.filter, hf, List.lookup, hne]
      exact ih

/-- C12: when the cache lookup succeeds and reports that the key is absent, `syncHandler`
returns nil and changes nothing but the error log (the world and the record of callback
invocations are as before: the handler is not invoked). `processNextWorkItem` on such an item
at the head of the queue then takes it off the queue without adding it back, invokes nothing,
and clears its requeue count. -/
theorem syncHandler_cache_miss {U T σ : Type} (c : Controller U T σ) (item : EventItem)
    (st : ControllerState σ)
    (hmiss : c.getByKey st.world item.Key = .ok none) :
    syncHandler c item st
        = (none, { st with handled := st.handled ++
            ["\x27" ++ item.Key ++ "\x27 in work queue no longer exists"] })
      ∧ ∀ rest, st.workqueue.queue = item :: rest →
          ∃ st1, processNextWorkItem c st = some (true, st1)
            ∧ st1.invoked = st.invoked ∧ st1.world = st.world
            ∧ st1.workqueue.queue = rest
            ∧ st1.workqueue.NumRequeues item = 0 := by
  have hsync : ∀ s : ControllerState σ, s.world = st.world →
      syncHandler c item s = (none, { s with handled := s.handled ++
        ["\x27" ++ item.Key ++ "\x27 in work queue no longer exists"] }) := by
    intro s hs
    unfold syncHandler
    rw [hs, hmiss]
  refine ⟨hsync st rfl, ?_⟩
  intro rest hq
  obtain ⟨q1, hget, _, _, hforget, _, _, _, _⟩ := WorkQueue.step_facts st.workqueue item rest hq
  refine ⟨{ st with workqueue := (q1.Forget item).Done item,
                    handled := st.handled ++
                      ["\x27" ++ item.Key ++ "\x27 in work queue no longer exists"] },
    ?_, ?_, ?_, ?_, ?_⟩
  · unfold processNextWorkItem
    rw [hget]
    simp only []
    rw [hsync { st with workqueue := q1 } rfl]
  · rfl
  · rfl
  · exact hforget
  · unfold WorkQueue.NumRequeues
    rw [WorkQueue.Done_failures]
    simp only [WorkQueue.Forget]
    rw [lookup_filter_key_self]
    rfl

/-- Witness for C12: an item whose object is not in the cache of the toy controller, with a
callback that would fail if it were invoked; the item leaves the queue and nothing is invoked. -/
theorem syncHandler_cache_miss_witness :
    (syncHandler (demoController "" true) goneItem (demoState [goneItem])).1 = none
      ∧ (runWorker (demoController "" true) 3 (demoState [goneItem])).invoked = []
      ∧ (runWorker (demoController "" true) 3 (demoState [goneItem])).workqueue.queue = [] :=
  ⟨congrArg Prod.fst
      (syncHandler_cache_miss (demoController "" true) goneItem (demoState [goneItem]) rfl).1,
    by rfl, by rfl⟩

/-! ## C13: deletes bypass the queue -/

theorem objectHandler_workqueue {U T σ : Type} (c : Controller U T σ) (o : CacheObj U)
    (x : EventItem) (st : ControllerState σ) :
    (objectHandler c o x st).2.workqueue = st.workqueue
      ∧ (objectHandler c o x st).2.handled = st.handled
      ∧ ((objectHandler c o x st).2.invoked = st.invoked
          ∨ (objectHandler c o x st).2.invoked = st.invoked ++ [x]) := by
  unfold objectHandler
  split
  · exact ⟨rfl, rfl, Or.inl rfl⟩
  · split
    · exact ⟨rfl, rfl, Or.inl rfl⟩
    · simp only []
      split
      · exact ⟨rfl, rfl, Or.inl rfl⟩
      · exact ⟨rfl, rfl, Or.inl rfl⟩
      · split
        · exact ⟨rfl, rfl, Or.inr rfl⟩
        · exact ⟨rfl, rfl, Or.inr rfl⟩

/-- C13: the delete callback leaves the work queue exactly as it was (nothing is added, no
failure count changes), whether the handler succeeds or fails; when the key is computed it
is the state after running `objectHandler` at once with the Delete item, so the callback runs
at most once, with that item, and for a decodable object that passes the selector exactly
once. The create and update callbacks leave the world, the record of callback invocations and
the error log as they were (the handler is not invoked) and, when the key is computed, only
add the item `{key, create}` resp. `{key, update}` to the work queue. -/
theorem NewController_callbacks {U T σ : Type} (c : Controller U T σ)
    (keyFunc deletionKeyFunc : CacheObj U → Except String String)
    (obj old : CacheObj U) (st : ControllerState σ) :
    ((NewController.DeleteFunc deletionKeyFunc c obj st).workqueue = st.workqueue
      ∧ (∀ key, deletionKeyFunc obj = .ok key →
          NewController.DeleteFunc deletionKeyFunc c obj st
              = (objectHandler c obj { Key := key, ActionType := DeleteAction } st).2
            ∧ ((NewController.DeleteFunc deletionKeyFunc c obj st).invoked = st.invoked
                ∨ (NewController.DeleteFunc deletionKeyFunc c obj st).invoked
                    = st.invoked ++ [{ Key := key, ActionType := DeleteAction }])
            ∧ (∀ u t, obj = .unstructured u → c.fromUnstructured u = .ok t →
                (c.resource.Selector.Query = ""
                  ∨ c.parseBool c.resource.Selector.Query u = .ok true) →
                (NewController.DeleteFunc deletionKeyFunc c obj st).invoked
                    = st.invoked ++ [{ Key := key, ActionType := DeleteAction }]
                  ∧ (NewController.DeleteFunc deletionKeyFunc c obj st).world
                    = (c.cb { Key := key, ActionType := DeleteAction } t st.world).2)))
      ∧ ((NewController.AddFunc keyFunc obj st).invoked = st.invoked
          ∧ (NewController.AddFunc keyFunc obj st).world = st.world
          ∧ (NewController.AddFunc keyFunc obj st).handled = st.handled
          ∧ (∀ key, keyFunc obj = .ok key →
              (NewController.AddFunc keyFunc obj st).workqueue
                = st.workqueue.Add { Key := key, ActionType := CreateAction })
          ∧ (∀ e, keyFunc obj = .error e → NewController.AddFunc keyFunc obj st = st))
      ∧ ((NewController.UpdateFunc keyFunc old obj st).invoked = st.invoked
          ∧ (NewController.UpdateFunc keyFunc old obj st).world = st.world
          ∧ (NewController.UpdateFunc keyFunc old obj st).handled = st.handled
          ∧ (∀ key, keyFunc obj = .ok key →
              (NewController.UpdateFunc keyFunc old obj st).workqueue
                = st.workqueue.Add { Key := key, ActionType := UpdateAction })
          ∧ (∀ e, keyFunc obj = .error e → NewController.UpdateFunc keyFunc old obj st = st)) := by
  refine ⟨⟨?_, ?_⟩, ?_, ?_⟩
  · unfold NewController.DeleteFunc
    split
    · exact (objectHandler_workqueue c obj _ st).1
    · rfl
  · intro key hkey
    have hdel : NewController.DeleteFunc deletionKeyFunc c obj st
        = (objectHandler c obj { Key := key, ActionType := DeleteAction } st).2 := by
      unfold NewController.DeleteFunc
      rw [hkey]
    refine ⟨hdel, ?_, ?_⟩
    · rw [hdel]
      exact (objectHandler_workqueue c obj _ st).2.2
    · intro u t hobj hdec hsel
      subst hobj
      rw [hdel]
      unfold objectHandler
      simp only [hdec]
      have hselector : (if c.resource.Selector.Query ≠ "" then
          c.parseBool c.resource.Selector.Query u else Except.ok true) = Except.ok true := by
        rcases hsel with h | h
        · simp only [h, ne_eq, not_true_eq_false, if_false]
        · by_cases hq : c.resource.Selector.Query = ""
          · simp only [hq, ne_eq, not_true_eq_false, if_false]
          · simp only [ne_eq, hq, not_false_eq_true, if_true, h]
      rw [hselector]
      simp only []
      rcases c.cb { Key := key, ActionType := DeleteAction } t st.world with ⟨r, w⟩
      cases r <;> exact ⟨rfl, rfl⟩
  · unfold NewController.AddFunc
    cases hk : keyFunc obj with
    | ok key =>
      exact ⟨rfl, rfl, rfl, (fun k hk2 => by cases hk2; rfl), (fun e he => by cases he)⟩
    | error e =>
      exact ⟨rfl, rfl, rfl, (fun k hk2 => by cases hk2), (fun _ _ => rfl)⟩
  · unfold NewController.UpdateFunc
    cases hk : keyFunc obj with
    | ok key =>
      exact ⟨rfl, rfl, rfl, (fun k hk2 => by cases hk2; rfl), (fun e he => by cases he)⟩
    | error e =>
      exact ⟨rfl, rfl, rfl, (fun k hk2 => by cases hk2), (fun _ _ => rfl)⟩

/-! ## C14: which status codes are failures -/

/-- C14 as stated fails: the status code 101 lies outside 200..299, yet for a response with
that code `doJSONRequest` returns no error and decodes the body, and the lookups built on it
behave as for a 200: `getOperator` returns the operator of the body, and `getUser`, answered
with an empty list, reports the not-found condition `ErrUserNotFound`. -/
theorem doJSONRequest_accepts_status_101 :
    ((101 : Int) < 200)
      ∧ (jsonEnv 101).httpDo []
          { Method := "GET", URL := "http://tower/api/collections/nats_auth_operators/records",
            Query := [], Header := [("X-Token", "token")], Body := "" }
          = .ok { StatusCode := 101, Body := .ok operatorsBody }
      ∧ (doJSONRequest (jsonEnv 101) demoClient []
            { Method := "GET", URL := "http://tower/api/collections/nats_auth_operators/records",
              Query := [], Header := [], Body := "" }
            (some (jsonEnv 101).decodeOperators)).1
          = .ok (some [{ URLs := "nats://demo:4222", ID := "op1" }])
      ∧ (getOperator (jsonEnv 101) demoClient [] "OPK").1
          = .ok { URLs := "nats://demo:4222", ID := "op1" }
      ∧ (getUser (jsonEnv 101) demoClient [] "acc1" "creds1").1
          = .error .ErrUserNotFound := by
  refine ⟨by decide, rfl, rfl, rfl, rfl⟩

theorem doJSONRequest_above_299 {α : Type} (env : Env) (c : NATSTowerClientConfig) (tr : Trace)
    (req : Request) (v : Option (String → Except String α)) (resp : Response) (b : String)
    (hresp : env.httpDo tr
      { req with Header := headerSet req.Header "X-Token" c.NATSTowerAPIKey } = .ok resp)
    (hbody : resp.Body = .ok b) (hcode : resp.StatusCode > 299) :
    doJSONRequest env c tr req v
      = (.error (.other ("unexpected status code: " ++ toString resp.StatusCode)),
         tr ++ [Effect.httpDo
           { req with Header := headerSet req.Header "X-Token" c.NATSTowerAPIKey }]) := by
  unfold doJSONRequest
  simp only [hresp, hbody, hcode, if_true]

theorem NewRequestWithContext_cases (env : Env) (m u b : String) :
    (∃ msg, NewRequestWithContext env m u b = .error (.other msg))
      ∨ NewRequestWithContext env m u b
          = .ok { Method := m, URL := u, Query := [], Header := [], Body := b } := by
  unfold NewRequestWithContext
  split
  · exact Or.inl ⟨_, rfl⟩
  · exact Or.inr rfl

/-- C14, amended: for every HTTP response whose status code is above 299 (and whose body can
be read), `doJSONRequest` returns the error `unexpected status code`, whatever decoding
target it was given: the body is not decoded. Every lookup built on it then fails with a
generic error, never with a not-found condition. A response with a status code of at most
299, below 200 included, is accepted: the result is that of decoding the body. -/
theorem doJSONRequest_status (env : Env) (c : NATSTowerClientConfig) (tr : Trace)
    (resp : Response) (b : String)
    (hresp : ∀ req, env.httpDo tr req = .ok resp)
    (hbody : resp.Body = .ok b) :
    (resp.StatusCode > 299 →
        (∀ (req : Request) (v : Option (String → Except String (List operator))),
          doJSONRequest env c tr req v
            = (.error (.other ("unexpected status code: " ++ toString resp.StatusCode)),
               tr ++ [Effect.httpDo
                 { req with Header := headerSet req.Header "X-Token" c.NATSTowerAPIKey }]))
        ∧ (∀ k, ∃ msg, (getOperator env c tr k).1 = .error (.other msg))
        ∧ (∀ o a, ∃ msg, (getAccount env c tr o a).1 = .error (.other msg))
        ∧ (∀ a u, ∃ msg, (getUser env c tr a u).1 = .error (.other msg))
        ∧ (∀ a u d, ∃ msg, (createUser env c tr a u d).1 = .error (.other msg))
        ∧ (∀ cl ns a, ∃ msg, (accessAllowed env c tr cl ns a).1 = .error (.other msg)))
      ∧ (resp.StatusCode ≤ 299 →
          ∀ (req : Request) (dec : String → Except String (List operator)),
            (doJSONRequest env c tr req (some dec)).1
              = (match dec b with
                  | .error e => .error (.other e)
                  | .ok x => .ok (some x))) := by
  constructor
  · intro hcode
    refine ⟨?_, ?_, ?_, ?_, ?_, ?_⟩
    · intro req v
      exact doJSONRequest_above_299 env c tr req v resp b (hresp _) hbody hcode
    · intro k
      unfold getOperator
      rcases NewRequestWithContext_cases env "GET"
        (c.NATSTowerURL ++ "/api/collections/nats_auth_operators/records") "" with ⟨msg, h⟩ | h
      · rw [h]; exact ⟨msg, rfl⟩
      · rw [h]
        simp only []
        rw [doJSONRequest_above_299 env c tr _ _ resp b (hresp _) hbody hcode]
        exact ⟨_, rfl⟩
    · intro o a
      unfold getAccount
      rcases NewRequestWithContext_cases env "GET"
        (c.NATSTowerURL ++ "/api/collections/nats_auth_accounts/records") "" with ⟨msg, h⟩ | h
      · rw [h]; exact ⟨msg, rfl⟩
      · rw [h]
        simp only []
        rw [doJSONRequest_above_299 env c tr _ _ resp b (hresp _) hbody hcode]
        exact ⟨_, rfl⟩
    · intro a u
      unfold getUser
      rcases NewRequestWithContext_cases env "GET"
        (c.NATSTowerURL ++ "/api/collections/nats_auth_users/records") "" with ⟨msg, h⟩ | h
      · rw [h]; exact ⟨msg, rfl⟩
      · rw [h]
        simp only []
        rw [doJSONRequest_above_299 env c tr _ _ resp b (hresp _) hbody hcode]
        exact ⟨_, rfl⟩
    · intro a u d
      unfold createUser
      rcases NewRequestWithContext_cases env "POST"
        (c.NATSTowerURL ++ "/api/collections/nats_auth_users/records")
        ("\x7b\"account\":\"" ++ a ++ "\",\"name\":\"" ++ u
          ++ "\",\"description\":\"" ++ d ++ "\"\x7d") with ⟨msg, h⟩ | h
      · rw [h]; exact ⟨msg, rfl⟩
      · rw [h]
        simp only []
        rw [doJSONRequest_above_299 env c tr _ _ resp b (hresp _) hbody hcode]
        exact ⟨_, rfl⟩
    · intro cl ns a
      unfold accessAllowed
      rcases NewRequestWithContext_cases env "GET"
        (c.NATSTowerURL ++ "/api/collections/nats_auth_k8s_access/records") "" with ⟨msg, h⟩ | h
      · rw [h]; exact ⟨msg, rfl⟩
      · rw [h]
        simp only []
        rw [doJSONRequest_above_299 env c tr _ _ resp b (hresp _) hbody hcode]
        exact ⟨_, rfl⟩
  · intro hcode req dec
    have hnot : ¬ resp.StatusCode > 299 := by omega
    unfold doJSONRequest
    simp only [hresp, hbody, hnot, if_false]
    cases dec b <;> rfl

/-- Witness for C14 (amended): a service that answers every request with status 404. -/
theorem doJSONRequest_status_witness :
    (doJSONRequest (statusEnv 404 scenarioFresh) demoClient []
        { Method := "GET", URL := "http://tower/api/collections/nats_auth_users/records",
          Query := [], Header := [], Body := "" }
        (some (statusEnv 404 scenarioFresh).decodeOperators)).1
      = .error (.other "unexpected status code: 404") :=
  (congrArg Prod.fst
    (((doJSONRequest_status (statusEnv 404 scenarioFresh) demoClient []
      { StatusCode := 404, Body := .ok "" } "" (fun _ => rfl) rfl).1 (by decide)).1
      { Method := "GET", URL := "http://tower/api/collections/nats_auth_users/records",
        Query := [], Header := [], Body := "" }
      (some (statusEnv 404 scenarioFresh).decodeOperators))).trans rfl

/-! ## C15: credential-type normalization -/

/-- C15: whatever the credential-type label of the account, the credential type the handler
works with is "user". For a non-Delete event that passes the label and installation checks
the handler's outcome is therefore always one of the following, none of which is the
`invalid credential type` error:
* the secret lookup fails with an error other than not-found: that error;
* the secret is absent and issuance fails: the error of `CreateOrGetUserAuth`;
* the secret is absent and issuance succeeds: `UpsertSecret` with credential type "user" and no
  last revision, and the secret it creates carries the credential-type label "user";
* the secret holds non-empty credentials: nil;
* the secret lacks credentials and issuance fails: the error of `CreateOrGetUserAuth`;
* the secret lacks credentials and issuance succeeds: `UpsertSecret` with credential type
  "user" and the secret as last revision, whose credential-type label becomes "user". -/
theorem getNACKAccountHandler_credential_type (env : Env)
    (natsTowerOperator : NATSTowerOperator) (ev : EventItem) (obj : Account)
    (tr tr0 : Trace) (installationPublicKey : String)
    (hdel : ev.ActionType ≠ DeleteAction)
    (hsecret : labelOf obj.Labels natsTowerSecretLabelKey ≠ "")
    (hinst : accountInstallation natsTowerOperator obj tr = .ok (installationPublicKey, tr0)) :
    accountCredentialType obj = "user"
      ∧ (∀ err, env.secretsGet tr0 obj.Namespace (labelOf obj.Labels natsTowerSecretLabelKey)
            = .error err → IsNotFound err = false →
          getNACKAccountHandler env natsTowerOperator ev obj tr
            = (some err, tr0 ++ [Effect.secretsGet obj.Namespace
                (labelOf obj.Labels natsTowerSecretLabelKey)]))
      ∧ (∀ err e tr1, env.secretsGet tr0 obj.Namespace
            (labelOf obj.Labels natsTowerSecretLabelKey) = .error err →
          IsNotFound err = true →
          CreateOrGetUserAuth env natsTowerOperator.natsTowerClient
              (tr0 ++ [Effect.secretsGet obj.Namespace
                (labelOf obj.Labels natsTowerSecretLabelKey)])
              obj.Namespace installationPublicKey obj.Name
              (labelOf obj.Labels natsTowerSecretLabelKey)
              (getNACKAccountUserDescription natsTowerOperator.towerOperatorConfig.ClusterID
                (some obj)) = (.error e, tr1) →
          (getNACKAccountHandler env natsTowerOperator ev obj tr).1 = some e)
      ∧ (∀ err creds tr1, env.secretsGet tr0 obj.Namespace
            (labelOf obj.Labels natsTowerSecretLabelKey) = .error err →
          IsNotFound err = true →
          CreateOrGetUserAuth env natsTowerOperator.natsTowerClient
              (tr0 ++ [Effect.secretsGet obj.Namespace
                (labelOf obj.Labels natsTowerSecretLabelKey)])
              obj.Namespace installationPublicKey obj.Name
              (labelOf obj.Labels natsTowerSecretLabelKey)
              (getNACKAccountUserDescription natsTowerOperator.towerOperatorConfig.ClusterID
                (some obj)) = (.ok creds, tr1) →
          getNACKAccountHandler env natsTowerOperator ev obj tr
              = UpsertSecret env tr1 obj obj.Namespace
                  (labelOf obj.Labels natsTowerSecretLabelKey) "user" creds none
            ∧ labelOf (upsertNew obj.Namespace (labelOf obj.Labels natsTowerSecretLabelKey)
                "user" creds).Labels natsTowerCredentialTypeLabelKey = "user")
      ∧ (∀ secret, env.secretsGet tr0 obj.Namespace
            (labelOf obj.Labels natsTowerSecretLabelKey) = .ok secret →
          (dataOf secret.Data secretCredentialsKey ≠ none
            ∧ (dataOf secret.Data secretCredentialsKey).toStr ≠ "") →
          getNACKAccountHandler env natsTowerOperator ev obj tr
            = (none, tr0 ++ [Effect.secretsGet obj.Namespace
                (labelOf obj.Labels natsTowerSecretLabelKey)]))
      ∧ (∀ secret e tr1, env.secretsGet tr0 obj.Namespace
            (labelOf obj.Labels natsTowerSecretLabelKey) = .ok secret →
          ¬ (dataOf secret.Data secretCredentialsKey ≠ none
            ∧ (dataOf secret.Data secretCredentialsKey).toStr ≠ "") →
          CreateOrGetUserAuth env natsTowerOperator.natsTowerClient
              (tr0 ++ [Effect.secretsGet obj.Namespace
                (labelOf obj.Labels natsTowerSecretLabelKey)])
              obj.Namespace installationPublicKey obj.Name
              (labelOf obj.Labels natsTowerSecretLabelKey)
              (getNACKAccountUserDescription natsTowerOperator.towerOperatorConfig.ClusterID
                (some obj)) = (.error e, tr1) →
          (getNACKAccountHandler env natsTowerOperator ev obj tr).1 = some e)
      ∧ (∀ secret creds tr1, env.secretsGet tr0 obj.Namespace
            (labelOf obj.Labels natsTowerSecretLabelKey) = .ok secret →
          ¬ (dataOf secret.Data secretCredentialsKey ≠ none
            ∧ (dataOf secret.Data secretCredentialsKey).toStr ≠ "") →
          CreateOrGetUserAuth env natsTowerOperator.natsTowerClient
              (tr0 ++ [Effect.secretsGet obj.Namespace
                (labelOf obj.Labels natsTowerSecretLabelKey)])
              obj.Namespace installationPublicKey obj.Name
              (labelOf obj.Labels natsTowerSecretLabelKey)
              (getNACKAccountUserDescription natsTowerOperator.towerOperatorConfig.ClusterID
                (some obj)) = (.ok creds, tr1) →
          getNACKAccountHandler env natsTowerOperator ev obj tr
              = UpsertSecret env tr1 obj obj.Namespace
                  (labelOf obj.Labels natsTowerSecretLabelKey) "user" creds (some secret)
            ∧ labelOf (upsertRevision secret "user" creds).Labels
                natsTowerCredentialTypeLabelKey = "user") := by
  have hrec := getNACKAccountHandler_reconcile env natsTowerOperator ev obj tr tr0
    installationPublicKey hsecret hinst
  refine ⟨accountCredentialType_eq obj, ?_, ?_, ?_, ?_, ?_, ?_⟩
  · intro err hget hnf
    rw [hrec]
    unfold accountHandlerReconcile
    rw [if_neg hdel]
    simp only [hget, hnf, Bool.false_eq_true, if_false]
  · intro err e tr1 hget hnf hauth
    rw [hrec]
    unfold accountHandlerReconcile
    rw [if_neg hdel]
    simp only [hget, hnf, accountCredentialType_eq, if_true, hauth]
    split <;> rfl
  · intro err creds tr1 hget hnf hauth
    refine ⟨?_, rfl⟩
    rw [hrec]
    unfold accountHandlerReconcile
    rw [if_neg hdel]
    simp only [hget, hnf, accountCredentialType_eq, if_true, hauth]
  · intro secret hget hpop
    rw [hrec]
    unfold accountHandlerReconcile
    rw [if_neg hdel]
    simp only [hget, accountCredentialType_eq, if_true, if_pos hpop]
  · intro secret e tr1 hget hno hauth
    rw [hrec]
    unfold accountHandlerReconcile
    rw [if_neg hdel]
    simp only [hget, accountCredentialType_eq, if_true, if_neg hno, hauth]
    split <;> rfl
  · intro secret creds tr1 hget hno hauth
    refine ⟨?_, (upsertRevision_written secret "user" creds).2.2.2.2⟩
    rw [hrec]
    unfold accountHandlerReconcile
    rw [if_neg hdel]
    simp only [hget, accountCredentialType_eq, if_true, if_neg hno, hauth]

/-- Witness for C15: an account that asks for the credential type `operator`; the secret is
created with the credential-type label "user". -/
theorem getNACKAccountHandler_credential_type_witness :
    accountCredentialType accountOperatorType = "user"
      ∧ createdSecrets (getNACKAccountHandler (scenarioEnv scenarioFresh) demoOperator
            { Key := "app-ns/team-a", ActionType := CreateAction } accountOperatorType []).2
          = [upsertNew "app-ns" "creds1" "user"
              { Creds := "CREDS", URLs := "nats://demo:4222", AccountName := "team-a" }] :=
  ⟨(getNACKAccountHandler_credential_type (scenarioEnv scenarioFresh) demoOperator
      { Key := "app-ns/team-a", ActionType := CreateAction } accountOperatorType [] []
      "inst-A" (by decide) (by decide) rfl).1, by rfl⟩

/-! ## C16: account Delete events are a no-op -/

theorem accountInstallation_error_trace (natsTowerOperator : NATSTowerOperator) (obj : Account)
    (tr tr1 : Trace) (h : accountInstallation natsTowerOperator obj tr = .error tr1) :
    ∃ t r f a, tr1 = tr ++ [Effect.event obj t r f a] := by
  unfold accountInstallation at h
  simp only [] at h
  split at h
  · cases h; exact ⟨_, _, _, _, rfl⟩
  · split at h
    · cases h
    · split at h
      · cases h; exact ⟨_, _, _, _, rfl⟩
      · cases h

/-- C16: for every account object and every Delete event the handler returns nil, and the only
thing it may add to the trace is one notification on the account (from the label and
installation checks that run before the Delete check): no call to the credential service, no
secret `Get`, no secret `Create` or `Update`. -/
theorem getNACKAccountHandler_delete (env : Env) (natsTowerOperator : NATSTowerOperator)
    (ev : EventItem) (obj : Account) (tr : Trace)
    (hdel : ev.ActionType = DeleteAction) :
    (getNACKAccountHandler env natsTowerOperator ev obj tr).1 = none
      ∧ ((getNACKAccountHandler env natsTowerOperator ev obj tr).2 = tr
        ∨ ∃ t r f a, (getNACKAccountHandler env natsTowerOperator ev obj tr).2
            = tr ++ [Effect.event obj t r f a]) := by
  unfold getNACKAccountHandler
  split
  · exact ⟨rfl, Or.inl rfl⟩
  · split
    · exact ⟨rfl, Or.inl rfl⟩
    · cases hinst : accountInstallation natsTowerOperator obj tr with
      | error tr1 =>
        exact ⟨rfl, Or.inr (accountInstallation_error_trace _ _ _ _ hinst)⟩
      | ok r =>
        obtain ⟨inst, tr0⟩ := r
        have hrec : accountHandlerReconcile env natsTowerOperator ev obj inst tr0
            = (none, tr0) := by
          unfold accountHandlerReconcile
          rw [if_pos hdel]
        simp only [hrec]
        refine ⟨trivial, ?_⟩
        rcases accountInstallation_ok_trace _ _ _ _ _ hinst with h | h
        · exact Or.inl h
        · exact Or.inr ⟨_, _, _, _, h⟩

/-- Witness for C16: a Delete event for an account whose secret does not exist; nothing
happens. -/
theorem getNACKAccountHandler_delete_witness :
    (getNACKAccountHandler (scenarioEnv scenarioFresh) demoOperator
        { Key := "app-ns/team-a", ActionType := DeleteAction } demoAccount []).1 = none
      ∧ (getNACKAccountHandler (scenarioEnv scenarioFresh) demoOperator
          { Key := "app-ns/team-a", ActionType := DeleteAction } demoAccount []).2 = [] :=
  ⟨(getNACKAccountHandler_delete (scenarioEnv scenarioFresh) demoOperator
      { Key := "app-ns/team-a", ActionType := DeleteAction } demoAccount [] rfl).1, by rfl⟩

/-! ## C17: the cluster identity of the access check -/

theorem mainOperator_client_cluster (getGVR : String → Option Error) (cfg : Config)
    (op : NATSTowerOperator) (h : mainOperator getGVR cfg = .ok op) :
    op.natsTowerClient.ClusterID = ""
      ∧ op.towerOperatorConfig.ClusterID = cfg.ClusterID
      ∧ cfg.ClusterID ≠ "" := by
  unfold mainOperator CreateNATSTowerClient CreateNATSTowerOperator at h
  simp only [] at h
  split at h
  · cases h
  · next hid =>
    split at h
    · cases h
    · split at h
      · cases h
      · split at h
        · cases h
        · cases h
          exact ⟨rfl, rfl, hid⟩

/-- C17 fails on the code: `main` builds the client without a cluster ID. With the
configuration `demoConfig` (cluster ID `cluster-1`) the operator it creates keeps `cluster-1`
in its configuration while its client has the cluster ID "". For an account event against a
service without a matching access record, the access check then asks for cluster "" (third
request), the handler returns `ErrK8sAccessNotAllowed`, and the notification it records names
the cluster `cluster-1`. -/
theorem mainOperator_cluster_mismatch :
    mainOperator (fun _ => none) demoConfig = .ok mainDemoOperator
      ∧ mainDemoOperator.natsTowerClient.ClusterID = ""
      ∧ mainDemoOperator.towerOperatorConfig.ClusterID = "cluster-1"
      ∧ (sentRequests (getNACKAccountHandler (scenarioEnv scenarioAccessDenied)
            mainDemoOperator { Key := "app-ns/team-a", ActionType := CreateAction }
            demoAccount []).2).map (fun req => req.Query.lookup "filter")
          = [some "public_key = \x27inst-A\x27",
             some "(operator=\x27op1\x27 && name=\x27team-a\x27)",
             some "(cluster=\x27\x27 && namespace=\x27app-ns\x27 && account=\x27acc1\x27)"]
      ∧ (getNACKAccountHandler (scenarioEnv scenarioAccessDenied) mainDemoOperator
            { Key := "app-ns/team-a", ActionType := CreateAction } demoAccount []).1
          = some .ErrK8sAccessNotAllowed
      ∧ (getNACKAccountHandler (scenarioEnv scenarioAccessDenied) mainDemoOperator
            { Key := "app-ns/team-a", ActionType := CreateAction } demoAccount []).2.getLast?
          = some (Effect.event demoAccount "Warning" "ErrorK8sAccessNotAllowed"
              ("Please add the namespace \x27%s\x27 & cluster \x27%s\x27 for account \x27%s\x27"
                ++ " to the k8s access list on NATS Tower")
              [.str "app-ns", .str "cluster-1", .str "team-a"]) := by
  refine ⟨rfl, rfl, rfl, rfl, rfl, rfl⟩

/-! ## C18: cache-sync ordering -/

/-- C18: in `Handle`, when `WaitForCacheSync` succeeds for all three controllers the steps
are: start the informers, wait for the pod, secret and account caches, and only then `Run` the
pod, secret and account controllers (one worker each), wait for the stop signal, and shut the
three down. When any wait fails, `Handle` ends in `klog.Fatalf` and no `Run` step occurs at
all. So no worker, and with it no handler invocation from the queue, starts before all three
caches are synced. -/
theorem Handle_run_after_sync (synced : String → Bool) :
    ((synced groupVersionResourcePod = true ∧ synced groupVersionResourceSecrets = true
        ∧ synced groupVersionResourceNackAccount = true) →
      Handle synced
        = [.startInformers,
           .waitForCacheSync groupVersionResourcePod true,
           .waitForCacheSync groupVersionResourceSecrets true,
           .waitForCacheSync groupVersionResourceNackAccount true,
           .run groupVersionResourcePod 1,
           .run groupVersionResourceSecrets 1,
           .run groupVersionResourceNackAccount 1,
           .awaitStop,
           .shutdown groupVersionResourcePod,
           .shutdown groupVersionResourceSecrets,
           .shutdown groupVersionResourceNackAccount])
      ∧ (¬ (synced groupVersionResourcePod = true ∧ synced groupVersionResourceSecrets = true
          ∧ synced groupVersionResourceNackAccount = true) →
        (∀ kind workers, HandleStep.run kind workers ∉ Handle synced)
          ∧ (Handle synced).getLast? = some .fatal) := by
  constructor
  · rintro ⟨h1, h2, h3⟩
    unfold Handle WaitForCacheSync
    simp [h1, h2, h3]
  · intro hnot
    unfold Handle WaitForCacheSync
    cases h1 : synced groupVersionResourcePod
    · simp
    · cases h2 : synced groupVersionResourceSecrets
      · simp
      · cases h3 : synced groupVersionResourceNackAccount
        · simp
        · exact absurd ⟨h1, h2, h3⟩ hnot

/-! ## C19: giving up does not reset the retry count -/

theorem processNextWorkItem_giveup_inv {U T σ : Type} (c : Controller U T σ) (item : EventItem)
    (b : Nat) (hfail : ∀ obj w, (c.cb item obj w).1 ≠ none)
    (st st1 : ControllerState σ) (cont : Bool)
    (hstep : processNextWorkItem c st = some (cont, st1))
    (h1 : st.workqueue.queue.count item ≤ 1)
    (h2 : st.invoked.count item ≤ b + 1)
    (h3 : item ∈ st.workqueue.queue →
      st.invoked.count item = b ∧ MaxNumRequeues ≤ st.workqueue.NumRequeues item) :
    st1.workqueue.queue.count item ≤ 1
      ∧ st1.invoked.count item ≤ b + 1
      ∧ (item ∈ st1.workqueue.queue →
          st1.invoked.count item = b ∧ MaxNumRequeues ≤ st1.workqueue.NumRequeues item) := by
  rcases processNextWorkItem_cases c st with hn | hs | ⟨x, rest, st2, ok, hq, hp, hinv, hqueue⟩
  · rw [hn] at hstep; cases hstep
  · rw [hs] at hstep; cases hstep; exact ⟨h1, h2, h3⟩
  · rw [hp] at hstep
    cases hstep
    by_cases hx : x = item
    · subst hx
      have hrest : rest.count x = 0 := by
        rw [hq, List.count_cons_self] at h1; omega
      have hnotin : x ∉ rest := List.count_eq_zero.mp hrest
      have hin : x ∈ st.workqueue.queue := by rw [hq]; exact List.mem_cons_self _ _
      obtain ⟨hb, hN0⟩ := h3 hin
      have hcnt : st1.invoked.count x ≤ st.invoked.count x + 1 := by
        rcases hinv with h | ⟨_, _, h, _⟩
        · rw [h]; omega
        · rw [h, List.count_append]; simp
      rcases hqueue with ⟨_, hq1, _⟩ | ⟨_, _, hq1, _⟩ | ⟨_, hN, _⟩
      · rw [hq1]
        exact ⟨by omega, by omega, fun h => absurd h hnotin⟩
      · rw [hq1]
        exact ⟨by omega, by omega, fun h => absurd h hnotin⟩
      · omega
    · have hcnt : st1.invoked.count item = st.invoked.count item := by
        rcases hinv with h | ⟨_, _, h, _⟩
        · rw [h]
        · rw [h, List.count_append]
          simp [List.count_cons, hx]
      have hNitem : st1.workqueue.NumRequeues item = st.workqueue.NumRequeues item := by
        rcases hqueue with ⟨_, _, h⟩ | ⟨_, _, _, h⟩ | ⟨_, _, _, _, h⟩
        · exact h item (Ne.symm hx)
        · exact h item
        · exact h item (Ne.symm hx)
      have hq0 : st.workqueue.queue.count item = rest.count item := by
        rw [hq, List.count_cons]; simp [hx]
      have hqcnt : st1.workqueue.queue.count item = rest.count item := by
        rcases hqueue with ⟨_, h, _⟩ | ⟨_, _, h, _⟩ | ⟨_, _, h | h, _⟩
        · rw [h]
        · rw [h]
        · rw [h]
        · rw [h, List.count_append]; simp [List.count_cons, hx]
      refine ⟨by omega, by omega, ?_⟩
      intro hin
      have hin0 : item ∈ st.workqueue.queue := by
        have : 0 < st1.workqueue.queue.count item := List.count_pos_iff.mpr hin
        exact List.count_pos_iff.mp (by omega)
      rw [hcnt, hNitem]
      exact h3 hin0

theorem runWorker_giveup_inv {U T σ : Type} (c : Controller U T σ) (item : EventItem)
    (b : Nat) (hfail : ∀ obj w, (c.cb item obj w).1 ≠ none) (n : Nat) :
    ∀ st : ControllerState σ,
      st.workqueue.queue.count item ≤ 1 →
      st.invoked.count item ≤ b + 1 →
      (item ∈ st.workqueue.queue →
        st.invoked.count item = b ∧ MaxNumRequeues ≤ st.workqueue.NumRequeues item) →
      (runWorker c n st).invoked.count item ≤ b + 1 := by
  induction n with
  | zero => intro st _ h2 _; exact h2
  | succ n ih =>
    intro st h1 h2 h3
    unfold runWorker
    cases hp : processNextWorkItem c st with
    | none => exact h2
    | some r =>
      obtain ⟨cont, st1⟩ := r
      have hstep := processNextWorkItem_giveup_inv c item b hfail st st1 cont hp h1 h2 h3
      cases cont with
      | false => exact hstep.2.1
      | true => exact ih st1 hstep.1 hstep.2.1 hstep.2.2

/-- C19: let the requeue count of an item stand at `MaxNumRequeues` or above (it stands at 4
after the item was given up) and let the item be queued at most once.
* If the callback fails on every invocation for the item: a `processNextWorkItem` round that
  takes the item from the head of the queue and invokes the callback leaves every requeue
  count as it was (`Forget` is not called) and takes the item off the queue without adding
  it back; and over any number of rounds the callback is invoked at most once more for the
  item: the first failure drops it, there is no retry.
* A round in which `syncHandler` returns nil for the item clears its requeue count. -/
theorem processNextWorkItem_give_up_keeps_count {U T σ : Type} (c : Controller U T σ)
    (item : EventItem) (st : ControllerState σ)
    (hcount : MaxNumRequeues ≤ st.workqueue.NumRequeues item)
    (hqueued : st.workqueue.queue.count item ≤ 1) :
    ((∀ obj w, (c.cb item obj w).1 ≠ none) →
        (∀ rest st1, st.workqueue.queue = item :: rest →
          processNextWorkItem c st = some (true, st1) →
          st1.invoked ≠ st.invoked →
          st1.invoked = st.invoked ++ [item]
            ∧ (∀ y, st1.workqueue.NumRequeues y = st.workqueue.NumRequeues y)
            ∧ st1.workqueue.queue = rest
            ∧ item ∉ st1.workqueue.queue)
        ∧ (∀ n, (runWorker c n st).invoked.count item ≤ st.invoked.count item + 1))
      ∧ (∀ rest q1 st1, st.workqueue.queue = item :: rest →
          st.workqueue.Get = some (some item, q1) →
          (syncHandler c item { st with workqueue := q1 }).1 = none →
          processNextWorkItem c st = some (true, st1) →
          st1.workqueue.NumRequeues item = 0) := by
  constructor
  · intro hfail
    constructor
    · intro rest st1 hq hstep hgrew
      rcases processNextWorkItem_cases c st with hn | hs | ⟨x, rest2, st2, ok, hq2, hp, hinv, hqueue⟩
      · rw [hn] at hstep; cases hstep
      · rw [hs] at hstep; cases hstep
      · rw [hp] at hstep
        cases hstep
        rw [hq] at hq2
        cases hq2
        have hrest : rest.count item = 0 := by
          rw [hq, List.count_cons_self] at hqueued; omega
        have hnotin : item ∉ rest := List.count_eq_zero.mp hrest
        rcases hinv with h | ⟨obj, w, h, hok⟩
        · exact absurd h hgrew
        · rcases hqueue with ⟨hok1, _, _⟩ | ⟨_, _, hq1, hN⟩ | ⟨_, hlt, _⟩
          · exact absurd (hok hok1) (hfail obj w)
          · exact ⟨h, hN, hq1, by rw [hq1]; exact hnotin⟩
          · omega
    · intro n
      exact runWorker_giveup_inv c item (st.invoked.count item) hfail n st hqueued (by omega)
        (fun _ => ⟨rfl, hcount⟩)
  · intro rest q1 st1 hq hget hnil hstep
    unfold processNextWorkItem at hstep
    rw [hget] at hstep
    simp only [] at hstep
    rcases hs : syncHandler c item { st with workqueue := q1 } with ⟨r, st2⟩
    rw [hs] at hstep hnil
    simp only [] at hnil
    subst hnil
    simp only [Option.some.injEq, Prod.mk.injEq, true_and] at hstep
    subst hstep
    simp only []
    unfold WorkQueue.NumRequeues
    rw [WorkQueue.Done_failures]
    simp only [WorkQueue.Forget]
    rw [lookup_filter_key_self]
    rfl

/-- Witness for C19: the toy controller with a callback that always fails. The item is given
up after five invocations with its count at four; the object is then added again, and the
item is dropped after a single further invocation, the count still at four. -/
theorem processNextWorkItem_give_up_keeps_count_witness :
    (runWorker (demoController "" true) 10 (demoState [demoItem])).workqueue.NumRequeues
        demoItem = 4
      ∧ (runWorker (demoController "" true) 10
          (NewController.AddFunc demoKeyFunc (.unstructured "app1")
            (runWorker (demoController "" true) 10 (demoState [demoItem])))).invoked.count
            demoItem
          ≤ (NewController.AddFunc demoKeyFunc (.unstructured "app1")
              (runWorker (demoController "" true) 10 (demoState [demoItem]))).invoked.count
              demoItem + 1
      ∧ (runWorker (demoController "" true) 10
          (NewController.AddFunc demoKeyFunc (.unstructured "app1")
            (runWorker (demoController "" true) 10 (demoState [demoItem])))).invoked
          = [demoItem, demoItem, demoItem, demoItem, demoItem, demoItem]
      ∧ (runWorker (demoController "" true) 10
          (NewController.AddFunc demoKeyFunc (.unstructured "app1")
            (runWorker (demoController "" true) 10 (demoState [demoItem])))).workqueue.queue
          = []
      ∧ (runWorker (demoController "" true) 10
          (NewController.AddFunc demoKeyFunc (.unstructured "app1")
            (runWorker (demoController "" true) 10
              (demoState [demoItem])))).workqueue.NumRequeues demoItem = 4 :=
  ⟨by rfl,
   ((processNextWorkItem_give_up_keeps_count (demoController "" true) demoItem
      (NewController.AddFunc demoKeyFunc (.unstructured "app1")
        (runWorker (demoController "" true) 10 (demoState [demoItem])))
      (by decide) (by decide)).1 (fun _ _ => by simp [demoController])).2 10,
   by rfl, by rfl, by rfl⟩

/-! ## C20: retry state is keyed by the whole event item -/

/-- C20: a `processNextWorkItem` round that takes an item from the queue leaves the requeue
count of every other item as it was; the Create item and the Update item of one key are
different items, so the failures of one never change the count of the other. With a callback
that always fails and both items of one key queued, the toy controller invokes the callback
five times for the Create item and five times for the Update item, ten times for the key,
before both are dropped with a count of four each. -/
theorem processNextWorkItem_counts_per_item :
    (∀ {U T σ : Type} (c : Controller U T σ) (st st1 : ControllerState σ)
        (x y : EventItem) (rest : List EventItem),
        st.workqueue.queue = x :: rest →
        processNextWorkItem c st = some (true, st1) →
        y ≠ x →
        st1.workqueue.NumRequeues y = st.workqueue.NumRequeues y)
      ∧ (∀ key : String, ({ Key := key, ActionType := CreateAction } : EventItem)
          ≠ { Key := key, ActionType := UpdateAction })
      ∧ (runWorker (demoController "" true) 20
          (demoState [demoItem, demoUpdateItem])).invoked.count demoItem = 5
      ∧ (runWorker (demoController "" true) 20
          (demoState [demoItem, demoUpdateItem])).invoked.count demoUpdateItem = 5
      ∧ (runWorker (demoController "" true) 20
          (demoState [demoItem, demoUpdateItem])).invoked.countP
            (fun y => decide (y.Key = "app-ns/app1")) = 10
      ∧ (runWorker (demoController "" true) 20
          (demoState [demoItem, demoUpdateItem])).workqueue.queue = []
      ∧ (runWorker (demoController "" true) 20
          (demoState [demoItem, demoUpdateItem])).workqueue.NumRequeues demoItem = 4
      ∧ (runWorker (demoController "" true) 20
          (demoState [demoItem, demoUpdateItem])).workqueue.NumRequeues demoUpdateItem = 4 := by
  refine ⟨?_, ?_, by rfl, by rfl, by rfl, by rfl, by rfl, by rfl⟩
  · intro U T σ c st st1 x y rest hq hstep hne
    rcases processNextWorkItem_cases c st with hn | hs | ⟨x2, rest2, st2, ok, hq2, hp, _, hqueue⟩
    · rw [hn] at hstep; cases hstep
    · rw [hs] at hstep; cases hstep
    · rw [hp] at hstep
      cases hstep
      rw [hq] at hq2
      cases hq2
      rcases hqueue with ⟨_, _, h⟩ | ⟨_, _, _, h⟩ | ⟨_, _, _, _, h⟩
      · exact h y hne
      · exact h y
      · exact h y hne
  · intro key h
    have h2 : CreateAction = UpdateAction := congrArg EventItem.ActionType h
    exact absurd h2 (by decide)

/-! ## C21: the default installation bypasses the allow-list -/

/-- C21: for an account object with a non-empty secret-name label and no installation label
(its value reads as the empty string), when `DefaultInstallation` is non-empty, and whatever
`ValidInstallations` holds:
* the installation checks pass with `DefaultInstallation` as installation, recording only the
  `DefaultInstallation` notice: `ValidInstallations` is not consulted;
* the handler goes on to reconcile with that installation;
* for a non-Delete event, when the secret is absent or lacks credentials and
  `CreateOrGetUserAuth` called with `DefaultInstallation` succeeds, the handler's result is
  that of `UpsertSecret` with the issued bundle, and the call made right after the secret `Get`
  carries `DefaultInstallation` as installation. -/
theorem getNACKAccountHandler_default_installation (env : Env)
    (natsTowerOperator : NATSTowerOperator) (ev : EventItem) (obj : Account) (tr : Trace)
    (hsecret : labelOf obj.Labels natsTowerSecretLabelKey ≠ "")
    (hinst : labelOf obj.Labels natsTowerInstallationLabelKey = "")
    (hdefault : natsTowerOperator.towerOperatorConfig.DefaultInstallation ≠ "") :
    accountInstallation natsTowerOperator obj tr
        = .ok (natsTowerOperator.towerOperatorConfig.DefaultInstallation,
            tr ++ [Effect.event obj EventTypeNormal "DefaultInstallation"
              "Will use default installation %s to generate secret"
              [.str natsTowerOperator.towerOperatorConfig.DefaultInstallation]])
      ∧ getNACKAccountHandler env natsTowerOperator ev obj tr
          = accountHandlerReconcile env natsTowerOperator ev obj
              natsTowerOperator.towerOperatorConfig.DefaultInstallation
              (tr ++ [Effect.event obj EventTypeNormal "DefaultInstallation"
                "Will use default installation %s to generate secret"
                [.str natsTowerOperator.towerOperatorConfig.DefaultInstallation]])
      ∧ (ev.ActionType ≠ DeleteAction →
          ∀ (last : Option Secret) (creds : ConnectionInfo) (tr1 : Trace),
            ((∃ err, last = none
                ∧ env.secretsGet
                    (tr ++ [Effect.event obj EventTypeNormal "DefaultInstallation"
                      "Will use default installation %s to generate secret"
                      [.str natsTowerOperator.towerOperatorConfig.DefaultInstallation]])
                    obj.Namespace (labelOf obj.Labels natsTowerSecretLabelKey) = .error err
                ∧ IsNotFound err = true)
              ∨ (∃ secret, last = some secret
                ∧ env.secretsGet
                    (tr ++ [Effect.event obj EventTypeNormal "DefaultInstallation"
                      "Will use default installation %s to generate secret"
                      [.str natsTowerOperator.towerOperatorConfig.DefaultInstallation]])
                    obj.Namespace (labelOf obj.Labels natsTowerSecretLabelKey) = .ok secret
                ∧ (dataOf secret.Data secretCredentialsKey = none
                    ∨ (dataOf secret.Data secretCredentialsKey).toStr = ""))) →
            CreateOrGetUserAuth env natsTowerOperator.natsTowerClient
                (tr ++ [Effect.event obj EventTypeNormal "DefaultInstallation"
                    "Will use default installation %s to generate secret"
                    [.str natsTowerOperator.towerOperatorConfig.DefaultInstallation]]
                  ++ [Effect.secretsGet obj.Namespace
                    (labelOf obj.Labels natsTowerSecretLabelKey)])
                obj.Namespace natsTowerOperator.towerOperatorConfig.DefaultInstallation
                obj.Name (labelOf obj.Labels natsTowerSecretLabelKey)
                (getNACKAccountUserDescription
                  natsTowerOperator.towerOperatorConfig.ClusterID (some obj))
              = (.ok creds, tr1) →
            getNACKAccountHandler env natsTowerOperator ev obj tr
                = UpsertSecret env tr1 obj obj.Namespace
                    (labelOf obj.Labels natsTowerSecretLabelKey) "user" creds last
              ∧ ∃ reqs : List Request,
                  tr1 = tr ++ [Effect.event obj EventTypeNormal "DefaultInstallation"
                        "Will use default installation %s to generate secret"
                        [.str natsTowerOperator.towerOperatorConfig.DefaultInstallation],
                      Effect.secretsGet obj.Namespace
                        (labelOf obj.Labels natsTowerSecretLabelKey),
                      Effect.callCreateOrGetUserAuth obj.Namespace
                        natsTowerOperator.towerOperatorConfig.DefaultInstallation obj.Name
                        (labelOf obj.Labels natsTowerSecretLabelKey)
                        (getNACKAccountUserDescription
                          natsTowerOperator.towerOperatorConfig.ClusterID (some obj))]
                    ++ reqs.map Effect.httpDo) := by
  have hres : accountInstallation natsTowerOperator obj tr
      = .ok (natsTowerOperator.towerOperatorConfig.DefaultInstallation,
          tr ++ [Effect.event obj EventTypeNormal "DefaultInstallation"
            "Will use default installation %s to generate secret"
            [.str natsTowerOperator.towerOperatorConfig.DefaultInstallation]]) := by
    unfold accountInstallation
    simp only [hinst, hdefault, and_false, if_false, if_true]
  have hrec := getNACKAccountHandler_reconcile env natsTowerOperator ev obj tr _ _ hsecret hres
  refine ⟨hres, hrec, ?_⟩
  intro hdel last creds tr1 hget hauth
  constructor
  · rw [hrec]
    unfold accountHandlerReconcile
    rw [if_neg hdel]
    rcases hget with ⟨err, hl, hg, hnf⟩ | ⟨secret, hl, hg, hmiss⟩
    · subst hl
      simp only [hg, hnf, accountCredentialType_eq, if_true, hauth]
    · subst hl
      have hno : ¬ (dataOf secret.Data secretCredentialsKey ≠ none
          ∧ (dataOf secret.Data secretCredentialsKey).toStr ≠ "") := by
        intro ⟨h1, h2⟩
        rcases hmiss with h | h
        · exact h1 h
        · exact h2 h
      simp only [hg, accountCredentialType_eq, if_true, if_neg hno, hauth]
  · obtain ⟨reqs, hreqs⟩ := CreateOrGetUserAuth_trace _ _ _ _ _ _ _ _ _ _ hauth
    exact ⟨reqs, by rw [hreqs]; simp⟩

/-- Witness for C21: the default installation `inst-Z` is not a key of `ValidInstallations`,
the account carries only a secret-name label, and the secret is created all the same, from a
`CreateOrGetUserAuth` call for `inst-Z`. -/
theorem getNACKAccountHandler_default_installation_witness :
    defaultConfig.ValidInstallations.lookup defaultConfig.DefaultInstallation = none
      ∧ accountInstallation defaultOperator accountNoInstallation []
          = .ok ("inst-Z", [Effect.event accountNoInstallation "Normal" "DefaultInstallation"
              "Will use default installation %s to generate secret" [.str "inst-Z"]])
      ∧ (getNACKAccountHandler (scenarioEnv scenarioFresh) defaultOperator
            { Key := "app-ns/team-a", ActionType := CreateAction } accountNoInstallation []).1
          = none
      ∧ createdSecrets (getNACKAccountHandler (scenarioEnv scenarioFresh) defaultOperator
            { Key := "app-ns/team-a", ActionType := CreateAction } accountNoInstallation []).2
          = [upsertNew "app-ns" "creds1" "user"
              { Creds := "CREDS", URLs := "nats://demo:4222", AccountName := "team-a" }] :=
  ⟨by rfl,
   (getNACKAccountHandler_default_installation (scenarioEnv scenarioFresh) defaultOperator
      { Key := "app-ns/team-a", ActionType := CreateAction } accountNoInstallation []
      (by decide) (by decide) (by decide)).1,
   by rfl, by rfl⟩

end NatsTower
